import Mathlib

/-!
# Register-window drivers: pwm_rgb, stop_button, ws2811

A shallow embedding of the three platform drivers under `src/linux/` and of
the properties their block surface (character device `read` / `write`), their
attribute surface (sysfs `show` / `store`) and their probe and remove routines
are expected to have, together with the two steps of the user program
`src/sw/rgb_pot.c` that the properties mention.

Conventions of the embedding

* I/O memory is byte addressed, plain storage: `kernel.mem a` is the byte at
  address `a`.  `ioread32` / `iowrite32` move one little-endian 32-bit word.
* `loff_t` is a signed 64-bit integer; the cursor never leaves the range in
  which arithmetic is exact, so it is an `Int`.
* `size_t` is 32 bits wide on the target (Cortex-A9); the conversions that the
  C code performs implicitly (`ret = -EFAULT` into a `size_t`, `return ret`
  as `ssize_t` or `int`) are written out with `to_size_t` and `to_ssize_t`.
* `copy_to_user`, `copy_from_user`, `kstrtouint` and `scnprintf` are kernel
  services; they are modelled after their documented contract.
* `%` on the cursor is only evaluated after the guard `*offset < 0` has been
  passed, where the remainder of C and the remainder of `Int` agree.
* The floating point expression of `rgb_pot.c` is read as exact rational
  arithmetic followed by truncation.
* The three drivers are translated one by one, each in its own namespace, and
  the statements about each driver are conjunctions over the three.
-/

set_option linter.unusedVariables false

namespace FpgaDrivers

/-! ## Kernel services -/

/-- Error number EINVAL of the kernel. -/
def EINVAL : Int := 22

/-- Error number EFAULT of the kernel. -/
def EFAULT : Int := 14

/-- Error number ENOMEM of the kernel. -/
def ENOMEM : Int := 12

/-- Error number ERANGE of the kernel. -/
def ERANGE : Int := 34

/-- Conversion of a signed value to `size_t` (32 bits, wraps modulo 2^32). -/
def to_size_t (x : Int) : Nat := (x % 4294967296).toNat

/-- Conversion of a `size_t` to the signed type of the same width. -/
def to_ssize_t (n : Nat) : Int :=
  if n % 4294967296 < 2147483648 then (n % 4294967296 : Nat)
  else ((n % 4294967296 : Nat) : Int) - 4294967296

/-- Observable steps of a driver routine, in program order. -/
inductive event where
  | mutex_lock : event
  | mutex_unlock : event
  | iowrite32 (val addr : Nat) : event
  | pr_warn : event
  deriving DecidableEq, Repr

/-- The part of the machine the drivers act on: the bytes of I/O memory and
the log of the steps performed so far. -/
structure kernel where
  mem : Nat → Nat
  trace : List event

/-- Little-endian bytes of a 32-bit word. -/
def u32_bytes (v : Nat) : List Nat :=
  [v % 256, v / 256 % 256, v / 65536 % 256, v / 16777216 % 256]

/-- The 32-bit word held by (up to) four little-endian bytes. -/
def bytes_u32 (bs : List Nat) : Nat :=
  bs.getD 0 0 % 256 + 256 * (bs.getD 1 0 % 256) + 65536 * (bs.getD 2 0 % 256)
    + 16777216 * (bs.getD 3 0 % 256)

/-- Kernel service ioread32: the 32-bit word at `addr`. -/
def ioread32 (k : kernel) (addr : Nat) : Nat :=
  k.mem addr % 256 + 256 * (k.mem (addr + 1) % 256) + 65536 * (k.mem (addr + 2) % 256)
    + 16777216 * (k.mem (addr + 3) % 256)

/-- Kernel service iowrite32: store the low 32 bits of `val` at `addr`. -/
def iowrite32 (val addr : Nat) (k : kernel) : kernel :=
  { mem := fun a =>
      if a = addr then val % 256
      else if a = addr + 1 then val / 256 % 256
      else if a = addr + 2 then val / 65536 % 256
      else if a = addr + 3 then val / 16777216 % 256
      else k.mem a,
    trace := k.trace ++ [event.iowrite32 (val % 4294967296) addr] }

/-- Kernel service pr_warn: a message on the kernel log, no effect on memory. -/
def pr_warn (k : kernel) : kernel :=
  { k with trace := k.trace ++ [event.pr_warn] }

/-- Kernel service copy_to_user for an `n`-byte object whose bytes are `src`,
towards a caller buffer of which `room` bytes are writable: the number of bytes
that could not be copied, and the bytes that reached the caller. -/
def copy_to_user (room : Nat) (src : List Nat) (n : Nat) : Nat × List Nat :=
  (n - min n room, (src.take n).take room)

/-- Kernel service copy_from_user for an `n`-byte destination, from a caller
buffer whose readable bytes are `buf`: the number of bytes that could not be
copied, and the destination, whose uncopied tail is padded with zero bytes. -/
def copy_from_user (buf : List Nat) (n : Nat) : Nat × List Nat :=
  (n - min n buf.length, buf.take n ++ List.replicate (n - buf.length) 0)

/-- Size of a page; sysfs never hands more than one page to a store handler. -/
def PAGE_SIZE : Nat := 4096

/-- Value of a character as a digit of a base up to 16, as `_parse_integer`
computes it: decimal digits, and the letters a to f in either case. -/
def digit_val (c : Char) : Option Nat :=
  let n := c.toNat
  let lc := n ||| 0x20
  if 48 ≤ n ∧ n ≤ 57 then some (n - 48)
  else if 97 ≤ lc ∧ lc ≤ 102 then some (lc - 97 + 10)
  else none

/-- Kernel routine `_parse_integer`: consumes the longest run of digits of
`base`, accumulating modulo 2^64. Returns the accumulated value, the number of
characters consumed and whether the value overflowed 64 bits. -/
def parse_integer : List Char → Nat → Nat → Nat → Bool → Nat × Nat × Bool
  | [], _, res, rv, ov => (res, rv, ov)
  | c :: cs, base, res, rv, ov =>
    match digit_val c with
    | none => (res, rv, ov)
    | some val =>
      if val ≥ base then (res, rv, ov)
      else
        let ov2 := ov || (decide (res ≥ 2 ^ 60) && decide (res > (2 ^ 64 - 1 - val) / base))
        parse_integer cs base ((res * base + val) % 2 ^ 64) (rv + 1) ov2

/-- Kernel routine `_parse_integer_fixup_radix`: with base 0 the base is taken
from the text (a leading 0x followed by a hex digit selects 16, another leading
0 selects 8, anything else 10); the 0x of a base 16 text is skipped. -/
def parse_integer_fixup_radix (s : List Char) (base : Nat) : List Char × Nat :=
  let c0 := (s.getD 0 (Char.ofNat 0)).toNat
  let c1 := (s.getD 1 (Char.ofNat 0)).toNat
  let base2 :=
    if base = 0 then
      if c0 = 48 then
        if (c1 ||| 0x20) = 120 ∧ (digit_val (s.getD 2 (Char.ofNat 0))).isSome then 16 else 8
      else 10
    else base
  if base2 = 16 ∧ c0 = 48 ∧ (c1 ||| 0x20) = 120 then (s.drop 2, base2) else (s, base2)

/-- Kernel routine `kstrtoull` on the characters of a C string (the terminating
NUL excluded): the return code and, when it is 0, the parsed value. -/
def kstrtoull (s : List Char) (base : Nat) : Int × Nat :=
  let s1 := if s.getD 0 (Char.ofNat 0) = Char.ofNat 43 then s.drop 1 else s
  let fx := parse_integer_fixup_radix s1 base
  let r := parse_integer fx.1 fx.2 0 0 false
  if r.2.2 then (-ERANGE, 0)
  else if r.2.1 = 0 then (-EINVAL, 0)
  else
    let rest := fx.1.drop r.2.1
    let rest2 := if rest.getD 0 (Char.ofNat 0) = Char.ofNat 10 then rest.drop 1 else rest
    if rest2 ≠ [] then (-EINVAL, 0) else (0, r.1)

/-- Kernel routine `kstrtouint`: `kstrtoull` followed by the check that the
value fits an unsigned int. -/
def kstrtouint (s : List Char) (base : Nat) : Int × Nat :=
  let r := kstrtoull s base
  if r.1 < 0 then (r.1, 0)
  else if r.2 ≠ r.2 % 4294967296 then (-ERANGE, 0)
  else (0, r.2)

/-- Kernel routine `put_dec`: the decimal digits of `n`, most significant
first, put in front of `acc`; at most `fuel` digits are produced. -/
def put_dec : Nat → Nat → List Char → List Char
  | 0, _, acc => acc
  | fuel + 1, n, acc =>
    if n / 10 = 0 then Char.ofNat (48 + n % 10) :: acc
    else put_dec fuel (n / 10) (Char.ofNat (48 + n % 10) :: acc)

/-- Conversion `%u` of the kernel printf for an unsigned int: its decimal
digits, without padding. An unsigned int has at most 10 of them. -/
def fmt_u (v : Nat) : List Char := put_dec 10 (v % 4294967296) []

/-- Kernel routine `scnprintf` on the already formatted text: at most
`size - 1` characters are written to the buffer; returns the buffer and the
number of characters written. -/
def scnprintf (size : Nat) (text : List Char) : List Char × Nat :=
  (text.take (size - 1), (text.take (size - 1)).length)

/-- Outcome of a sysfs show handler: the returned `ssize_t` and the text left
in the page handed in by sysfs. -/
structure show_result where
  ret : Int
  buf : List Char

/-- Outcome of a remove routine: the returned `int`, whether the misc device
is still registered, and the machine after the call. -/
structure remove_result where
  ret : Int
  registered : Bool
  k : kernel

/-- Outcome of a sysfs store handler: the returned `ssize_t` and the machine
after the call. -/
structure attr_result where
  ret : Int
  k : kernel

/-- Outcome of a probe routine: the returned `int`, the private data attached
to the platform device (if any), whether the misc device is registered, and
the machine after the call. -/
structure probe_result (dev : Type) where
  ret : Int
  drvdata : Option dev
  registered : Bool
  k : kernel

/-- Outcome of a block read or write: the returned `ssize_t`, the cursor
`*offset` after the call, the machine after the call and, for a read, the
bytes that reached the caller. -/
structure file_result (dev : Type) where
  ret : Int
  offset : Int
  priv : dev
  k : kernel
  user : List Nat

/-! ## pwm_rgb -/

namespace pwm_rgb

/-- Register offset DUTY_RED_OFFSET. -/
def DUTY_RED_OFFSET : Nat := 0x0

/-- Register offset DUTY_GREEN_OFFSET. -/
def DUTY_GREEN_OFFSET : Nat := 0x4

/-- Register offset DUTY_BLUE_OFFSET. -/
def DUTY_BLUE_OFFSET : Nat := 0x8

/-- Register offset BASE_PERIOD_OFFSET. -/
def BASE_PERIOD_OFFSET : Nat := 0x12

/-- Length in bytes of the register window. -/
def SPAN : Nat := 16

/-- Private data of one pwm_rgb device: the mapped base address, the address
of each register, and whether the mutex is held. -/
structure pwm_rgb_dev where
  base_addr : Nat
  duty_red : Nat
  duty_green : Nat
  duty_blue : Nat
  base_period : Nat
  lock : Bool
  deriving DecidableEq, Repr

/-- Kernel service mutex_lock on the lock of the device. Waiting is not
modelled: the call returns with the lock held. -/
def mutex_lock (priv : pwm_rgb_dev) (k : kernel) : pwm_rgb_dev × kernel :=
  ({ priv with lock := true }, { k with trace := k.trace ++ [event.mutex_lock] })

/-- Kernel service mutex_unlock on the lock of the device. -/
def mutex_unlock (priv : pwm_rgb_dev) (k : kernel) : pwm_rgb_dev × kernel :=
  ({ priv with lock := false }, { k with trace := k.trace ++ [event.mutex_unlock] })

/-- Block read of the pwm_rgb character device (`pwm_rgb_read`). `room` is the
number of writable bytes at the caller buffer, `count` the requested length,
`offset` the cursor of the session. -/
def pwm_rgb_read (priv : pwm_rgb_dev) (k : kernel) (room : Nat) (count : Nat)
    (offset : Int) : file_result pwm_rgb_dev :=
  if offset < 0 then
    { ret := -EINVAL, offset := offset, priv := priv, k := k, user := [] }
  else if offset ≥ (SPAN : Int) then
    { ret := 0, offset := offset, priv := priv, k := k, user := [] }
  else if offset % 0x4 ≠ 0 then
    { ret := -EFAULT, offset := offset, priv := priv, k := pr_warn k, user := [] }
  else
    let val := ioread32 k (priv.base_addr + offset.toNat)
    let cp := copy_to_user room (u32_bytes val) 4
    if cp.1 = 4 then
      { ret := -EFAULT, offset := offset, priv := priv, k := pr_warn k, user := cp.2 }
    else
      { ret := 4, offset := offset + 4, priv := priv, k := k, user := cp.2 }

/-- Block write of the pwm_rgb character device (`pwm_rgb_write`). `buf` holds
the readable bytes at the caller buffer, `count` the length the caller
announced, `offset` the cursor of the session. -/
def pwm_rgb_write (priv : pwm_rgb_dev) (k : kernel) (buf : List Nat) (count : Nat)
    (offset : Int) : file_result pwm_rgb_dev :=
  if offset < 0 then
    { ret := -EINVAL, offset := offset, priv := priv, k := k, user := [] }
  else if offset ≥ (SPAN : Int) then
    { ret := 0, offset := offset, priv := priv, k := k, user := [] }
  else if offset % 0x4 ≠ 0 then
    { ret := -EFAULT, offset := offset, priv := priv, k := pr_warn k, user := [] }
  else
    let s1 := mutex_lock priv k
    let cp := copy_from_user buf 4
    let val := bytes_u32 cp.2
    if cp.1 ≠ 4 then
      let k2 := iowrite32 val (priv.base_addr + offset.toNat) s1.2
      let s3 := mutex_unlock s1.1 k2
      { ret := to_ssize_t 4, offset := offset + 4, priv := s3.1, k := s3.2, user := [] }
    else
      let s3 := mutex_unlock s1.1 (pr_warn s1.2)
      { ret := to_ssize_t (to_size_t (-EFAULT)), offset := offset, priv := s3.1, k := s3.2,
        user := [] }

/-- Sysfs store handler `duty_red_store`: parse `buf` with `kstrtouint` (base 0);
on a parse error return it, else store the value in the register and return
`size`. -/
def duty_red_store (priv : pwm_rgb_dev) (k : kernel) (buf : List Char) (size : Nat) :
    attr_result :=
  let p := kstrtouint buf 0
  if p.1 < 0 then { ret := p.1, k := k }
  else { ret := to_ssize_t size, k := iowrite32 p.2 priv.duty_red k }

/-- Sysfs store handler `duty_green_store`: parse `buf` with `kstrtouint` (base 0);
on a parse error return it, else store the value in the register and return
`size`. -/
def duty_green_store (priv : pwm_rgb_dev) (k : kernel) (buf : List Char) (size : Nat) :
    attr_result :=
  let p := kstrtouint buf 0
  if p.1 < 0 then { ret := p.1, k := k }
  else { ret := to_ssize_t size, k := iowrite32 p.2 priv.duty_green k }

/-- Sysfs store handler `duty_blue_store`: parse `buf` with `kstrtouint` (base 0);
on a parse error return it, else store the value in the register and return
`size`. -/
def duty_blue_store (priv : pwm_rgb_dev) (k : kernel) (buf : List Char) (size : Nat) :
    attr_result :=
  let p := kstrtouint buf 0
  if p.1 < 0 then { ret := p.1, k := k }
  else { ret := to_ssize_t size, k := iowrite32 p.2 priv.duty_blue k }

/-- Sysfs store handler `base_period_store`: parse `buf` with `kstrtouint` (base 0);
on a parse error return it, else store the value in the register and return
`size`. -/
def base_period_store (priv : pwm_rgb_dev) (k : kernel) (buf : List Char) (size : Nat) :
    attr_result :=
  let p := kstrtouint buf 0
  if p.1 < 0 then { ret := p.1, k := k }
  else { ret := to_ssize_t size, k := iowrite32 p.2 priv.base_period k }

/-- Probe routine `pwm_rgb_probe`. `kzalloc_ok` tells whether the allocation
of the private data succeeds, `ioremap` is the outcome of
`devm_platform_ioremap_resource` (an error code or the mapped base address),
`misc_register` the value returned by the registration of the misc device. -/
def pwm_rgb_probe (k : kernel) (kzalloc_ok : Bool) (ioremap : Except Int Nat)
    (misc_register : Int) : probe_result pwm_rgb_dev :=
  if ¬ kzalloc_ok then
    { ret := -ENOMEM, drvdata := none, registered := false, k := k }
  else
    match ioremap with
    | Except.error e => { ret := e, drvdata := none, registered := false, k := k }
    | Except.ok base_addr =>
      let priv : pwm_rgb_dev :=
        { base_addr := base_addr,
          duty_red := base_addr + DUTY_RED_OFFSET,
          duty_green := base_addr + DUTY_GREEN_OFFSET,
          duty_blue := base_addr + DUTY_BLUE_OFFSET,
          base_period := base_addr + BASE_PERIOD_OFFSET,
          lock := false }
      let k1 := iowrite32 0xffff priv.duty_red k
      let k2 := iowrite32 0x0 priv.duty_green k1
      let k3 := iowrite32 0x0 priv.duty_blue k2
      let k4 := iowrite32 0x1000 priv.base_period k3
      let ret := to_size_t misc_register
      if ret ≠ 0 then
        { ret := to_ssize_t ret, drvdata := none, registered := false, k := k4 }
      else
        { ret := 0, drvdata := some priv, registered := true, k := k4 }

/-- Sysfs show handler `duty_red_show`: read the register and print it with
the format `%u` followed by a newline into the page of sysfs. -/
def duty_red_show (priv : pwm_rgb_dev) (k : kernel) : show_result :=
  let duty_red := ioread32 k priv.duty_red
  let p := scnprintf PAGE_SIZE (fmt_u duty_red ++ [Char.ofNat 10])
  { ret := (p.2 : Int), buf := p.1 }

/-- Sysfs show handler `duty_green_show`: read the register and print it with
the format `%u` followed by a newline into the page of sysfs. -/
def duty_green_show (priv : pwm_rgb_dev) (k : kernel) : show_result :=
  let duty_green := ioread32 k priv.duty_green
  let p := scnprintf PAGE_SIZE (fmt_u duty_green ++ [Char.ofNat 10])
  { ret := (p.2 : Int), buf := p.1 }

/-- Sysfs show handler `duty_blue_show`: read the register and print it with
the format `%u` followed by a newline into the page of sysfs. -/
def duty_blue_show (priv : pwm_rgb_dev) (k : kernel) : show_result :=
  let duty_blue := ioread32 k priv.duty_blue
  let p := scnprintf PAGE_SIZE (fmt_u duty_blue ++ [Char.ofNat 10])
  { ret := (p.2 : Int), buf := p.1 }

/-- Sysfs show handler `base_period_show`: read the register and print it with
the format `%u` followed by a newline into the page of sysfs. -/
def base_period_show (priv : pwm_rgb_dev) (k : kernel) : show_result :=
  let base_period := ioread32 k priv.base_period
  let p := scnprintf PAGE_SIZE (fmt_u base_period ++ [Char.ofNat 10])
  { ret := (p.2 : Int), buf := p.1 }

/-- Remove routine `pwm_rgb_remove`, on the private data attached to the
platform device. -/
def pwm_rgb_remove (priv : pwm_rgb_dev) (k : kernel) : remove_result :=
  let k1 := iowrite32 0x0 priv.duty_red k
  let k2 := iowrite32 0x0 priv.duty_green k1
  let k3 := iowrite32 0x0 priv.duty_blue k2
  { ret := 0, registered := false, k := k3 }

end pwm_rgb

/-! ## stop_button -/

namespace stop_button

/-- Register offset STOP_BUTTON_OFFSET. -/
def STOP_BUTTON_OFFSET : Nat := 0x0

/-- Length in bytes of the register window. -/
def SPAN : Nat := 16

/-- Private data of one stop_button device: the mapped base address, the address
of each register, and whether the mutex is held. -/
structure stop_button_dev where
  base_addr : Nat
  stop_button : Nat
  lock : Bool
  deriving DecidableEq, Repr

/-- Kernel service mutex_lock on the lock of the device. Waiting is not
modelled: the call returns with the lock held. -/
def mutex_lock (priv : stop_button_dev) (k : kernel) : stop_button_dev × kernel :=
  ({ priv with lock := true }, { k with trace := k.trace ++ [event.mutex_lock] })

/-- Kernel service mutex_unlock on the lock of the device. -/
def mutex_unlock (priv : stop_button_dev) (k : kernel) : stop_button_dev × kernel :=
  ({ priv with lock := false }, { k with trace := k.trace ++ [event.mutex_unlock] })

/-- Block read of the stop_button character device (`stop_button_read`). `room` is the
number of writable bytes at the caller buffer, `count` the requested length,
`offset` the cursor of the session. -/
def stop_button_read (priv : stop_button_dev) (k : kernel) (room : Nat) (count : Nat)
    (offset : Int) : file_result stop_button_dev :=
  if offset < 0 then
    { ret := -EINVAL, offset := offset, priv := priv, k := k, user := [] }
  else if offset ≥ (SPAN : Int) then
    { ret := 0, offset := offset, priv := priv, k := k, user := [] }
  else if offset % 0x4 ≠ 0 then
    { ret := -EFAULT, offset := offset, priv := priv, k := pr_warn k, user := [] }
  else
    let val := ioread32 k (priv.base_addr + offset.toNat)
    let cp := copy_to_user room (u32_bytes val) 4
    if cp.1 = 4 then
      { ret := -EFAULT, offset := offset, priv := priv, k := pr_warn k, user := cp.2 }
    else
      { ret := 4, offset := offset + 4, priv := priv, k := k, user := cp.2 }

/-- Block write of the stop_button character device (`stop_button_write`). `buf` holds
the readable bytes at the caller buffer, `count` the length the caller
announced, `offset` the cursor of the session. -/
def stop_button_write (priv : stop_button_dev) (k : kernel) (buf : List Nat) (count : Nat)
    (offset : Int) : file_result stop_button_dev :=
  if offset < 0 then
    { ret := -EINVAL, offset := offset, priv := priv, k := k, user := [] }
  else if offset ≥ (SPAN : Int) then
    { ret := 0, offset := offset, priv := priv, k := k, user := [] }
  else if offset % 0x4 ≠ 0 then
    { ret := -EFAULT, offset := offset, priv := priv, k := pr_warn k, user := [] }
  else
    let s1 := mutex_lock priv k
    let cp := copy_from_user buf 4
    let val := bytes_u32 cp.2
    if cp.1 ≠ 4 then
      let k2 := iowrite32 val (priv.base_addr + offset.toNat) s1.2
      let s3 := mutex_unlock s1.1 k2
      { ret := to_ssize_t 4, offset := offset + 4, priv := s3.1, k := s3.2, user := [] }
    else
      let s3 := mutex_unlock s1.1 (pr_warn s1.2)
      { ret := to_ssize_t (to_size_t (-EFAULT)), offset := offset, priv := s3.1, k := s3.2,
        user := [] }

/-- Sysfs store handler `stop_button_store`: parse `buf` with `kstrtouint` (base 0);
on a parse error return it, else store the value in the register and return
`size`. -/
def stop_button_store (priv : stop_button_dev) (k : kernel) (buf : List Char) (size : Nat) :
    attr_result :=
  let p := kstrtouint buf 0
  if p.1 < 0 then { ret := p.1, k := k }
  else { ret := to_ssize_t size, k := iowrite32 p.2 priv.stop_button k }

/-- Sysfs show handler `stop_button_show`: read the register and print it with
the format `%u` followed by a newline into the page of sysfs. -/
def stop_button_show (priv : stop_button_dev) (k : kernel) : show_result :=
  let stop_button := ioread32 k priv.stop_button
  let p := scnprintf PAGE_SIZE (fmt_u stop_button ++ [Char.ofNat 10])
  { ret := (p.2 : Int), buf := p.1 }

/-- Probe routine `stop_button_probe`. `kzalloc_ok`, `ioremap` and
`misc_register` are as for the other probes. The routine stores 0 through
`priv->duty_red`; `struct stop_button_dev` declares no member of that name, so
the address the expression stands for is not fixed by the driver and is the
parameter `duty_red`. -/
def stop_button_probe (k : kernel) (kzalloc_ok : Bool) (ioremap : Except Int Nat)
    (misc_register : Int) (duty_red : Nat) : probe_result stop_button_dev :=
  if ¬ kzalloc_ok then
    { ret := -ENOMEM, drvdata := none, registered := false, k := k }
  else
    match ioremap with
    | Except.error e => { ret := e, drvdata := none, registered := false, k := k }
    | Except.ok base_addr =>
      let priv : stop_button_dev :=
        { base_addr := base_addr,
          stop_button := base_addr + STOP_BUTTON_OFFSET,
          lock := false }
      let k1 := iowrite32 0x0 duty_red k
      let ret := to_size_t misc_register
      if ret ≠ 0 then
        { ret := to_ssize_t ret, drvdata := none, registered := false, k := k1 }
      else
        { ret := 0, drvdata := some priv, registered := true, k := k1 }

/-- Remove routine `stop_button_remove`, on the private data attached to the
platform device. -/
def stop_button_remove (priv : stop_button_dev) (k : kernel) : remove_result :=
  let k1 := iowrite32 0x0 priv.stop_button k
  { ret := 0, registered := false, k := k1 }

end stop_button

/-! ## ws2811 -/

namespace ws2811

/-- Register offset RGB_ALL. -/
def RGB_ALL : Nat := 0x0

/-- Register offset RGB_SINGLE. -/
def RGB_SINGLE : Nat := 0x4

/-- Register offset STRIP_INDEX. -/
def STRIP_INDEX : Nat := 0x8

/-- Length in bytes of the register window. -/
def SPAN : Nat := 12

/-- Private data of one ws2811 device: the mapped base address, the address
of each register, and whether the mutex is held. -/
structure ws2811_dev where
  base_addr : Nat
  rgb_all : Nat
  rgb_single : Nat
  strip_index : Nat
  lock : Bool
  deriving DecidableEq, Repr

/-- Kernel service mutex_lock on the lock of the device. Waiting is not
modelled: the call returns with the lock held. -/
def mutex_lock (priv : ws2811_dev) (k : kernel) : ws2811_dev × kernel :=
  ({ priv with lock := true }, { k with trace := k.trace ++ [event.mutex_lock] })

/-- Kernel service mutex_unlock on the lock of the device. -/
def mutex_unlock (priv : ws2811_dev) (k : kernel) : ws2811_dev × kernel :=
  ({ priv with lock := false }, { k with trace := k.trace ++ [event.mutex_unlock] })

/-- Block read of the ws2811 character device (`ws2811_read`). `room` is the
number of writable bytes at the caller buffer, `count` the requested length,
`offset` the cursor of the session. -/
def ws2811_read (priv : ws2811_dev) (k : kernel) (room : Nat) (count : Nat)
    (offset : Int) : file_result ws2811_dev :=
  if offset < 0 then
    { ret := -EINVAL, offset := offset, priv := priv, k := k, user := [] }
  else if offset ≥ (SPAN : Int) then
    { ret := 0, offset := offset, priv := priv, k := k, user := [] }
  else if offset % 0x4 ≠ 0 then
    { ret := -EFAULT, offset := offset, priv := priv, k := pr_warn k, user := [] }
  else
    let val := ioread32 k (priv.base_addr + offset.toNat)
    let cp := copy_to_user room (u32_bytes val) 4
    if cp.1 = 4 then
      { ret := -EFAULT, offset := offset, priv := priv, k := pr_warn k, user := cp.2 }
    else
      { ret := 4, offset := offset + 4, priv := priv, k := k, user := cp.2 }

/-- Block write of the ws2811 character device (`ws2811_write`). `buf` holds
the readable bytes at the caller buffer, `count` the length the caller
announced, `offset` the cursor of the session. -/
def ws2811_write (priv : ws2811_dev) (k : kernel) (buf : List Nat) (count : Nat)
    (offset : Int) : file_result ws2811_dev :=
  if offset < 0 then
    { ret := -EINVAL, offset := offset, priv := priv, k := k, user := [] }
  else if offset ≥ (SPAN : Int) then
    { ret := 0, offset := offset, priv := priv, k := k, user := [] }
  else if offset % 0x4 ≠ 0 then
    { ret := -EFAULT, offset := offset, priv := priv, k := pr_warn k, user := [] }
  else
    let s1 := mutex_lock priv k
    let cp := copy_from_user buf 4
    let val := bytes_u32 cp.2
    if cp.1 ≠ 4 then
      let k2 := iowrite32 val (priv.base_addr + offset.toNat) s1.2
      let s3 := mutex_unlock s1.1 k2
      { ret := to_ssize_t 4, offset := offset + 4, priv := s3.1, k := s3.2, user := [] }
    else
      let s3 := mutex_unlock s1.1 (pr_warn s1.2)
      { ret := to_ssize_t (to_size_t (-EFAULT)), offset := offset, priv := s3.1, k := s3.2,
        user := [] }

/-- Sysfs store handler `rgb_all_store`: parse `buf` with `kstrtouint` (base 0);
on a parse error return it, else store the value in the register and return
`size`. -/
def rgb_all_store (priv : ws2811_dev) (k : kernel) (buf : List Char) (size : Nat) :
    attr_result :=
  let p := kstrtouint buf 0
  if p.1 < 0 then { ret := p.1, k := k }
  else { ret := to_ssize_t size, k := iowrite32 p.2 priv.rgb_all k }

/-- Sysfs store handler `rgb_single_store`: parse `buf` with `kstrtouint` (base 0);
on a parse error return it, else store the value in the register and return
`size`. -/
def rgb_single_store (priv : ws2811_dev) (k : kernel) (buf : List Char) (size : Nat) :
    attr_result :=
  let p := kstrtouint buf 0
  if p.1 < 0 then { ret := p.1, k := k }
  else { ret := to_ssize_t size, k := iowrite32 p.2 priv.rgb_single k }

/-- Sysfs store handler `strip_index_store`: parse `buf` with `kstrtouint` (base 0);
on a parse error return it, else store the value in the register and return
`size`. -/
def strip_index_store (priv : ws2811_dev) (k : kernel) (buf : List Char) (size : Nat) :
    attr_result :=
  let p := kstrtouint buf 0
  if p.1 < 0 then { ret := p.1, k := k }
  else { ret := to_ssize_t size, k := iowrite32 p.2 priv.strip_index k }

/-- Sysfs show handler `rgb_all_show`: read the register and print it with
the format `%u` followed by a newline into the page of sysfs. -/
def rgb_all_show (priv : ws2811_dev) (k : kernel) : show_result :=
  let rgb_all := ioread32 k priv.rgb_all
  let p := scnprintf PAGE_SIZE (fmt_u rgb_all ++ [Char.ofNat 10])
  { ret := (p.2 : Int), buf := p.1 }

/-- Sysfs show handler `rgb_single_show`: read the register and print it with
the format `%u` followed by a newline into the page of sysfs. -/
def rgb_single_show (priv : ws2811_dev) (k : kernel) : show_result :=
  let rgb_single := ioread32 k priv.rgb_single
  let p := scnprintf PAGE_SIZE (fmt_u rgb_single ++ [Char.ofNat 10])
  { ret := (p.2 : Int), buf := p.1 }

/-- Sysfs show handler `strip_index_show`: read the register and print it with
the format `%u` followed by a newline into the page of sysfs. -/
def strip_index_show (priv : ws2811_dev) (k : kernel) : show_result :=
  let strip_index := ioread32 k priv.strip_index
  let p := scnprintf PAGE_SIZE (fmt_u strip_index ++ [Char.ofNat 10])
  { ret := (p.2 : Int), buf := p.1 }

/-- Probe routine `ws2811_probe`. `kzalloc_ok` tells whether the allocation
of the private data succeeds, `ioremap` is the outcome of
`devm_platform_ioremap_resource` (an error code or the mapped base address),
`misc_register` the value returned by the registration of the misc device. -/
def ws2811_probe (k : kernel) (kzalloc_ok : Bool) (ioremap : Except Int Nat)
    (misc_register : Int) : probe_result ws2811_dev :=
  if ¬ kzalloc_ok then
    { ret := -ENOMEM, drvdata := none, registered := false, k := k }
  else
    match ioremap with
    | Except.error e => { ret := e, drvdata := none, registered := false, k := k }
    | Except.ok base_addr =>
      let priv : ws2811_dev :=
        { base_addr := base_addr,
          rgb_all := base_addr + RGB_ALL,
          rgb_single := base_addr + RGB_SINGLE,
          strip_index := base_addr + STRIP_INDEX,
          lock := false }
      let k1 := iowrite32 0xffff priv.rgb_all k
      let k2 := iowrite32 0x0 priv.rgb_single k1
      let k3 := iowrite32 0x0 priv.strip_index k2
      let ret := to_size_t misc_register
      if ret ≠ 0 then
        { ret := to_ssize_t ret, drvdata := none, registered := false, k := k3 }
      else
        { ret := 0, drvdata := some priv, registered := true, k := k3 }

/-- Remove routine `ws2811_remove`, on the private data attached to the
platform device. -/
def ws2811_remove (priv : ws2811_dev) (k : kernel) : remove_result :=
  let k1 := iowrite32 0x0 priv.rgb_all k
  let k2 := iowrite32 0x0 priv.rgb_single k1
  let k3 := iowrite32 0x0 priv.strip_index k2
  { ret := 0, registered := false, k := k3 }

end ws2811

/-! ## Register maps and sample inputs -/

/-- Names of the sysfs attributes of pwm_rgb with the offset that
`pwm_rgb_probe` gives to the register of each. -/
def pwm_rgb.registers : List (String × Nat) :=
  [("duty_red", pwm_rgb.DUTY_RED_OFFSET), ("duty_green", pwm_rgb.DUTY_GREEN_OFFSET),
   ("duty_blue", pwm_rgb.DUTY_BLUE_OFFSET), ("base_period", pwm_rgb.BASE_PERIOD_OFFSET)]

/-- Names of the sysfs attributes of stop_button with the offset that
`stop_button_probe` gives to the register of each. -/
def stop_button.registers : List (String × Nat) :=
  [("stop_button", stop_button.STOP_BUTTON_OFFSET)]

/-- Names of the sysfs attributes of ws2811 with the offset that
`ws2811_probe` gives to the register of each. -/
def ws2811.registers : List (String × Nat) :=
  [("rgb_all", ws2811.RGB_ALL), ("rgb_single", ws2811.RGB_SINGLE),
   ("strip_index", ws2811.STRIP_INDEX)]

/-- A register offset lies in the window of length `span` and is a multiple
of 4. -/
def offset_ok (span off : Nat) : Bool := decide (off < span) && decide (off % 4 = 0)

/-- Every register of the map has an offset in the window that is a multiple
of 4, and no two registers share an offset. -/
def registers_ok (span : Nat) (regs : List (String × Nat)) : Bool :=
  regs.all (fun r => offset_ok span r.2) && decide ((regs.map Prod.snd).Nodup)

/-- Private data of pwm_rgb as `pwm_rgb_probe` fills it in for a window mapped
at `base`. -/
def pwm_rgb.mapped (base : Nat) : pwm_rgb.pwm_rgb_dev :=
  { base_addr := base,
    duty_red := base + pwm_rgb.DUTY_RED_OFFSET,
    duty_green := base + pwm_rgb.DUTY_GREEN_OFFSET,
    duty_blue := base + pwm_rgb.DUTY_BLUE_OFFSET,
    base_period := base + pwm_rgb.BASE_PERIOD_OFFSET,
    lock := false }

/-- Private data of stop_button as `stop_button_probe` fills it in for a
window mapped at `base`. -/
def stop_button.mapped (base : Nat) : stop_button.stop_button_dev :=
  { base_addr := base, stop_button := base + stop_button.STOP_BUTTON_OFFSET, lock := false }

/-- Private data of ws2811 as `ws2811_probe` fills it in for a window mapped
at `base`. -/
def ws2811.mapped (base : Nat) : ws2811.ws2811_dev :=
  { base_addr := base,
    rgb_all := base + ws2811.RGB_ALL,
    rgb_single := base + ws2811.RGB_SINGLE,
    strip_index := base + ws2811.STRIP_INDEX,
    lock := false }

/-- Members that `struct stop_button_dev` declares. -/
def stop_button.members : List String := ["base_addr", "stop_button", "miscdev", "lock"]

/-- Value of a text all of whose characters are digits, read in `base`. -/
def radix_value (base : Nat) (cs : List Char) : Nat :=
  cs.foldl (fun r c => r * base + (digit_val c).getD 0) 0

/-- Every character of the text is a digit of `base`. -/
def radix_text (base : Nat) (cs : List Char) : Bool :=
  cs.all (fun c => match digit_val c with
    | some d => decide (d < base)
    | none => false)

/-- Every `iowrite32` of the log happens while the lock is held, `held` telling
whether it is held when the log starts. -/
def stores_guarded : Bool → List event → Bool
  | _, [] => true
  | _, event.mutex_lock :: es => stores_guarded true es
  | _, event.mutex_unlock :: es => stores_guarded false es
  | held, event.iowrite32 _ _ :: es => held && stores_guarded held es
  | held, event.pr_warn :: es => stores_guarded held es

/-- A session that issues one block read per entry of the list (the writable
room of the caller buffer and the requested length), each with the cursor the
previous call left, as the VFS does with the position of the open file; the
outcome of the last read, or `r` itself for the empty list. -/
def session_reads {dev : Type} (rd : dev → kernel → Nat → Nat → Int → file_result dev) :
    List (Nat × Nat) → file_result dev → file_result dev
  | [], r => r
  | c :: cs, r => session_reads rd cs (rd r.priv r.k c.1 c.2 r.offset)

/-- The outcome of `devm_platform_ioremap_resource` is a mapped address or an
error pointer, which encodes an error number between -4095 and -1. -/
def valid_ioremap (io : Except Int Nat) : Bool :=
  match io with
  | Except.error e => decide (-4095 ≤ e ∧ e < 0)
  | Except.ok _ => true

/-- The value fits the C type `int` (32 bits). -/
def fits_int (m : Int) : Bool := decide (-2147483648 ≤ m ∧ m < 2147483648)

/-- A machine whose I/O memory holds the byte 7 everywhere. -/
def sample_kernel : kernel := { mem := fun _ => 7, trace := [] }

/-- A pwm_rgb device mapped at address 4096. -/
def sample_pwm : pwm_rgb.pwm_rgb_dev :=
  { base_addr := 4096, duty_red := 4096, duty_green := 4100, duty_blue := 4104,
    base_period := 4114, lock := false }

/-- A stop_button device mapped at address 8192. -/
def sample_button : stop_button.stop_button_dev :=
  { base_addr := 8192, stop_button := 8192, lock := false }

/-- A ws2811 device mapped at address 12288. -/
def sample_ws : ws2811.ws2811_dev :=
  { base_addr := 12288, rgb_all := 12288, rgb_single := 12292, strip_index := 12296,
    lock := false }

/-! ## rgb_pot and sessions on the block surface -/

namespace rgb_pot

/-- Register offset BASE_PERIOD_OFFSET as rgb_pot.c defines it. -/
def BASE_PERIOD_OFFSET : Nat := 0x12

/-- Lowest duty value, PWM_MIN. -/
def PWM_MIN : Int := 0x0

/-- Highest duty value, PWM_MAX. -/
def PWM_MAX : Int := 0x8000

/-- The scaling of a raw sample into `red_pwm` in the loop of main,
`(uint32_t) (PWM_MIN + (PWM_MAX - PWM_MIN)*((float) val) / 3299.0)`; the float
product and the double quotient are taken as exact rational numbers, and the
conversion to uint32_t drops the fraction. -/
def red_pwm (val : Nat) : Nat :=
  Int.toNat ⌊((PWM_MIN : ℚ) + ((PWM_MAX - PWM_MIN : Int) : ℚ) * (val : ℚ) / 3299)⌋
    % 4294967296

/-- The scaling of a raw sample into `green_pwm` in the loop of main,
`(uint32_t) (PWM_MIN + (PWM_MAX - PWM_MIN)*((float) val) / 3299.0)`; the float
product and the double quotient are taken as exact rational numbers, and the
conversion to uint32_t drops the fraction. -/
def green_pwm (val : Nat) : Nat :=
  Int.toNat ⌊((PWM_MIN : ℚ) + ((PWM_MAX - PWM_MIN : Int) : ℚ) * (val : ℚ) / 3299)⌋
    % 4294967296

/-- The scaling of a raw sample into `blue_pwm` in the loop of main,
`(uint32_t) (PWM_MIN + (PWM_MAX - PWM_MIN)*((float) val) / 3299.0)`; the float
product and the double quotient are taken as exact rational numbers, and the
conversion to uint32_t drops the fraction. -/
def blue_pwm (val : Nat) : Nat :=
  Int.toNat ⌊((PWM_MIN : ℚ) + ((PWM_MAX - PWM_MIN : Int) : ℚ) * (val : ℚ) / 3299)⌋
    % 4294967296

/-- The step of main that sets the base period, `val = 0x1000;` followed by
`fseek(file_pwm_rgb, BASE_PERIOD_OFFSET, SEEK_SET)`, `fwrite(&val, 4, 1, ...)`
and `fflush`, on a stream opened on the pwm_rgb device: the seek sets the
cursor and the flush hands the 4 bytes of val to the block write. -/
def set_base_period (priv : pwm_rgb.pwm_rgb_dev) (k : kernel) :
    file_result pwm_rgb.pwm_rgb_dev :=
  let val := 0x1000
  pwm_rgb.pwm_rgb_write priv k (u32_bytes val) 4 (BASE_PERIOD_OFFSET : Int)

end rgb_pot

/-- One call of a session on the block surface: a read, with the writable room
of the caller buffer and the requested length, or a write, with the readable
bytes of the caller buffer and the announced length. -/
inductive file_op where
  | read (room count : Nat) : file_op
  | write (buf : List Nat) (count : Nat) : file_op
  deriving DecidableEq, Repr

/-- One call of a session: the routine is entered with the private data, the
machine and the cursor that the previous call left. -/
def session_step {dev : Type} (rd : dev → kernel → Nat → Nat → Int → file_result dev)
    (wr : dev → kernel → List Nat → Nat → Int → file_result dev) (o : file_op)
    (r : file_result dev) : file_result dev :=
  match o with
  | file_op.read room count => rd r.priv r.k room count r.offset
  | file_op.write buf count => wr r.priv r.k buf count r.offset

/-- A session that issues the calls of the list in order, without seeking; the
outcome of the last call, or `r` itself for the empty list. -/
def session_ops {dev : Type} (rd : dev → kernel → Nat → Nat → Int → file_result dev)
    (wr : dev → kernel → List Nat → Nat → Int → file_result dev) :
    List file_op → file_result dev → file_result dev
  | [], r => r
  | o :: os, r => session_ops rd wr os (session_step rd wr o r)

/-- Number of calls of the session that transfer a word, that is return 4. -/
def session_transfers {dev : Type} (rd : dev → kernel → Nat → Nat → Int → file_result dev)
    (wr : dev → kernel → List Nat → Nat → Int → file_result dev) :
    List file_op → file_result dev → Nat
  | [], _ => 0
  | o :: os, r =>
    (if (session_step rd wr o r).ret = 4 then 1 else 0)
      + session_transfers rd wr os (session_step rd wr o r)

/-- A session just opened on a device: cursor 0, nothing transferred yet. -/
def session_open {dev : Type} (priv : dev) (k : kernel) : file_result dev :=
  { ret := 0, offset := 0, priv := priv, k := k, user := [] }

/-! ## Facts about the kernel services -/

theorem ioread32_lt (k : kernel) (a : Nat) : ioread32 k a < 4294967296 := by
  unfold ioread32
  omega

theorem ioread32_iowrite32_same (v a : Nat) (k : kernel) :
    ioread32 (iowrite32 v a k) a = v % 4294967296 := by
  simp only [ioread32, iowrite32]
  have h1 : a + 1 ≠ a := by omega
  have h2 : a + 2 ≠ a := by omega
  have h3 : a + 3 ≠ a := by omega
  simp
  omega

theorem iowrite32_mem_outside (v a b : Nat) (k : kernel) (h : b < a ∨ a + 4 ≤ b) :
    (iowrite32 v a k).mem b = k.mem b := by
  simp only [iowrite32]
  have h0 : b ≠ a := by omega
  have h1 : b ≠ a + 1 := by omega
  have h2 : b ≠ a + 2 := by omega
  have h3 : b ≠ a + 3 := by omega
  simp [h0, h1, h2, h3]

theorem ioread32_iowrite32_disjoint (v a b : Nat) (k : kernel)
    (h : b + 4 ≤ a ∨ a + 4 ≤ b) : ioread32 (iowrite32 v a k) b = ioread32 k b := by
  unfold ioread32
  rw [iowrite32_mem_outside v a b k (by omega), iowrite32_mem_outside v a (b + 1) k (by omega),
    iowrite32_mem_outside v a (b + 2) k (by omega), iowrite32_mem_outside v a (b + 3) k (by omega)]

theorem bytes_u32_u32_bytes (v : Nat) : bytes_u32 (u32_bytes v) = v % 4294967296 := by
  simp [bytes_u32, u32_bytes]
  omega

/-! ### Paths of the block surface of pwm_rgb -/

theorem pwm_rgb_read_negative (priv : pwm_rgb.pwm_rgb_dev) (k : kernel) (room count : Nat)
    (offset : Int) (h : offset < 0) :
    pwm_rgb.pwm_rgb_read priv k room count offset =
      { ret := -EINVAL, offset := offset, priv := priv, k := k, user := [] } := by
  simp only [pwm_rgb.pwm_rgb_read, if_pos h]

theorem pwm_rgb_write_negative (priv : pwm_rgb.pwm_rgb_dev) (k : kernel) (buf : List Nat)
    (count : Nat) (offset : Int) (h : offset < 0) :
    pwm_rgb.pwm_rgb_write priv k buf count offset =
      { ret := -EINVAL, offset := offset, priv := priv, k := k, user := [] } := by
  simp only [pwm_rgb.pwm_rgb_write, if_pos h]

theorem pwm_rgb_read_past_end (priv : pwm_rgb.pwm_rgb_dev) (k : kernel) (room count : Nat)
    (offset : Int) (h : (pwm_rgb.SPAN : Int) ≤ offset) :
    pwm_rgb.pwm_rgb_read priv k room count offset =
      { ret := 0, offset := offset, priv := priv, k := k, user := [] } := by
  have h0 : ¬ offset < 0 := by simp [pwm_rgb.SPAN] at h; omega
  simp only [pwm_rgb.pwm_rgb_read, if_neg h0, ge_iff_le, h, if_true]

theorem pwm_rgb_write_past_end (priv : pwm_rgb.pwm_rgb_dev) (k : kernel) (buf : List Nat)
    (count : Nat) (offset : Int) (h : (pwm_rgb.SPAN : Int) ≤ offset) :
    pwm_rgb.pwm_rgb_write priv k buf count offset =
      { ret := 0, offset := offset, priv := priv, k := k, user := [] } := by
  have h0 : ¬ offset < 0 := by simp [pwm_rgb.SPAN] at h; omega
  simp only [pwm_rgb.pwm_rgb_write, if_neg h0, ge_iff_le, h, if_true]

theorem pwm_rgb_read_unaligned (priv : pwm_rgb.pwm_rgb_dev) (k : kernel) (room count : Nat)
    (offset : Int) (h0 : 0 ≤ offset) (h1 : offset < (pwm_rgb.SPAN : Int))
    (h2 : offset % 4 ≠ 0) :
    pwm_rgb.pwm_rgb_read priv k room count offset =
      { ret := -EFAULT, offset := offset, priv := priv, k := pr_warn k, user := [] } := by
  simp only [pwm_rgb.pwm_rgb_read, if_neg (not_lt.mpr h0), if_neg (not_le.mpr h1), ne_eq, h2,
    not_false_eq_true, if_true]

theorem pwm_rgb_write_unaligned (priv : pwm_rgb.pwm_rgb_dev) (k : kernel) (buf : List Nat)
    (count : Nat) (offset : Int) (h0 : 0 ≤ offset) (h1 : offset < (pwm_rgb.SPAN : Int))
    (h2 : offset % 4 ≠ 0) :
    pwm_rgb.pwm_rgb_write priv k buf count offset =
      { ret := -EFAULT, offset := offset, priv := priv, k := pr_warn k, user := [] } := by
  simp only [pwm_rgb.pwm_rgb_write, if_neg (not_lt.mpr h0), if_neg (not_le.mpr h1), ne_eq, h2,
    not_false_eq_true, if_true]

theorem pwm_rgb_read_aligned (priv : pwm_rgb.pwm_rgb_dev) (k : kernel) (room count : Nat)
    (offset : Int) (h0 : 0 ≤ offset) (h1 : offset < (pwm_rgb.SPAN : Int))
    (h2 : offset % 4 = 0) :
    pwm_rgb.pwm_rgb_read priv k room count offset =
      if (copy_to_user room (u32_bytes (ioread32 k (priv.base_addr + offset.toNat))) 4).1 = 4
      then { ret := -EFAULT, offset := offset, priv := priv, k := pr_warn k,
             user := (copy_to_user room
               (u32_bytes (ioread32 k (priv.base_addr + offset.toNat))) 4).2 }
      else { ret := 4, offset := offset + 4, priv := priv, k := k,
             user := (copy_to_user room
               (u32_bytes (ioread32 k (priv.base_addr + offset.toNat))) 4).2 } := by
  simp only [pwm_rgb.pwm_rgb_read, if_neg (not_lt.mpr h0), if_neg (not_le.mpr h1), ne_eq, h2,
    not_true_eq_false, if_false]

theorem pwm_rgb_write_aligned (priv : pwm_rgb.pwm_rgb_dev) (k : kernel) (buf : List Nat)
    (count : Nat) (offset : Int) (h0 : 0 ≤ offset) (h1 : offset < (pwm_rgb.SPAN : Int))
    (h2 : offset % 4 = 0) :
    pwm_rgb.pwm_rgb_write priv k buf count offset =
      if (copy_from_user buf 4).1 ≠ 4
      then { ret := 4, offset := offset + 4, priv := { priv with lock := false },
             k := { mem := (iowrite32 (bytes_u32 (copy_from_user buf 4).2)
                     (priv.base_addr + offset.toNat) k).mem,
                    trace := k.trace ++ [event.mutex_lock] ++
                      [event.iowrite32 (bytes_u32 (copy_from_user buf 4).2 % 4294967296)
                        (priv.base_addr + offset.toNat)] ++ [event.mutex_unlock] },
             user := [] }
      else { ret := -EFAULT, offset := offset, priv := { priv with lock := false },
             k := { mem := k.mem,
                    trace := k.trace ++ [event.mutex_lock] ++ [event.pr_warn] ++
                      [event.mutex_unlock] },
             user := [] } := by
  have e1 : to_ssize_t 4 = 4 := by decide
  have e2 : to_ssize_t (to_size_t (-EFAULT)) = -EFAULT := by decide
  simp only [pwm_rgb.pwm_rgb_write, if_neg (not_lt.mpr h0), if_neg (not_le.mpr h1), ne_eq, h2,
    not_true_eq_false, if_false, pwm_rgb.mutex_lock, pwm_rgb.mutex_unlock, pr_warn, iowrite32,
    e1, e2]

/-! ### Paths of the block surface of stop_button -/

theorem stop_button_read_negative (priv : stop_button.stop_button_dev) (k : kernel) (room count : Nat)
    (offset : Int) (h : offset < 0) :
    stop_button.stop_button_read priv k room count offset =
      { ret := -EINVAL, offset := offset, priv := priv, k := k, user := [] } := by
  simp only [stop_button.stop_button_read, if_pos h]

theorem stop_button_write_negative (priv : stop_button.stop_button_dev) (k : kernel) (buf : List Nat)
    (count : Nat) (offset : Int) (h : offset < 0) :
    stop_button.stop_button_write priv k buf count offset =
      { ret := -EINVAL, offset := offset, priv := priv, k := k, user := [] } := by
  simp only [stop_button.stop_button_write, if_pos h]

theorem stop_button_read_past_end (priv : stop_button.stop_button_dev) (k : kernel) (room count : Nat)
    (offset : Int) (h : (stop_button.SPAN : Int) ≤ offset) :
    stop_button.stop_button_read priv k room count offset =
      { ret := 0, offset := offset, priv := priv, k := k, user := [] } := by
  have h0 : ¬ offset < 0 := by simp [stop_button.SPAN] at h; omega
  simp only [stop_button.stop_button_read, if_neg h0, ge_iff_le, h, if_true]

theorem stop_button_write_past_end (priv : stop_button.stop_button_dev) (k : kernel) (buf : List Nat)
    (count : Nat) (offset : Int) (h : (stop_button.SPAN : Int) ≤ offset) :
    stop_button.stop_button_write priv k buf count offset =
      { ret := 0, offset := offset, priv := priv, k := k, user := [] } := by
  have h0 : ¬ offset < 0 := by simp [stop_button.SPAN] at h; omega
  simp only [stop_button.stop_button_write, if_neg h0, ge_iff_le, h, if_true]

theorem stop_button_read_unaligned (priv : stop_button.stop_button_dev) (k : kernel) (room count : Nat)
    (offset : Int) (h0 : 0 ≤ offset) (h1 : offset < (stop_button.SPAN : Int))
    (h2 : offset % 4 ≠ 0) :
    stop_button.stop_button_read priv k room count offset =
      { ret := -EFAULT, offset := offset, priv := priv, k := pr_warn k, user := [] } := by
  simp only [stop_button.stop_button_read, if_neg (not_lt.mpr h0), if_neg (not_le.mpr h1), ne_eq, h2,
    not_false_eq_true, if_true]

theorem stop_button_write_unaligned (priv : stop_button.stop_button_dev) (k : kernel) (buf : List Nat)
    (count : Nat) (offset : Int) (h0 : 0 ≤ offset) (h1 : offset < (stop_button.SPAN : Int))
    (h2 : offset % 4 ≠ 0) :
    stop_button.stop_button_write priv k buf count offset =
      { ret := -EFAULT, offset := offset, priv := priv, k := pr_warn k, user := [] } := by
  simp only [stop_button.stop_button_write, if_neg (not_lt.mpr h0), if_neg (not_le.mpr h1), ne_eq, h2,
    not_false_eq_true, if_true]

theorem stop_button_read_aligned (priv : stop_button.stop_button_dev) (k : kernel) (room count : Nat)
    (offset : Int) (h0 : 0 ≤ offset) (h1 : offset < (stop_button.SPAN : Int))
    (h2 : offset % 4 = 0) :
    stop_button.stop_button_read priv k room count offset =
      if (copy_to_user room (u32_bytes (ioread32 k (priv.base_addr + offset.toNat))) 4).1 = 4
      then { ret := -EFAULT, offset := offset, priv := priv, k := pr_warn k,
             user := (copy_to_user room
               (u32_bytes (ioread32 k (priv.base_addr + offset.toNat))) 4).2 }
      else { ret := 4, offset := offset + 4, priv := priv, k := k,
             user := (copy_to_user room
               (u32_bytes (ioread32 k (priv.base_addr + offset.toNat))) 4).2 } := by
  simp only [stop_button.stop_button_read, if_neg (not_lt.mpr h0), if_neg (not_le.mpr h1), ne_eq, h2,
    not_true_eq_false, if_false]

theorem stop_button_write_aligned (priv : stop_button.stop_button_dev) (k : kernel) (buf : List Nat)
    (count : Nat) (offset : Int) (h0 : 0 ≤ offset) (h1 : offset < (stop_button.SPAN : Int))
    (h2 : offset % 4 = 0) :
    stop_button.stop_button_write priv k buf count offset =
      if (copy_from_user buf 4).1 ≠ 4
      then { ret := 4, offset := offset + 4, priv := { priv with lock := false },
             k := { mem := (iowrite32 (bytes_u32 (copy_from_user buf 4).2)
                     (priv.base_addr + offset.toNat) k).mem,
                    trace := k.trace ++ [event.mutex_lock] ++
                      [event.iowrite32 (bytes_u32 (copy_from_user buf 4).2 % 4294967296)
                        (priv.base_addr + offset.toNat)] ++ [event.mutex_unlock] },
             user := [] }
      else { ret := -EFAULT, offset := offset, priv := { priv with lock := false },
             k := { mem := k.mem,
                    trace := k.trace ++ [event.mutex_lock] ++ [event.pr_warn] ++
                      [event.mutex_unlock] },
             user := [] } := by
  have e1 : to_ssize_t 4 = 4 := by decide
  have e2 : to_ssize_t (to_size_t (-EFAULT)) = -EFAULT := by decide
  simp only [stop_button.stop_button_write, if_neg (not_lt.mpr h0), if_neg (not_le.mpr h1), ne_eq, h2,
    not_true_eq_false, if_false, stop_button.mutex_lock, stop_button.mutex_unlock, pr_warn, iowrite32,
    e1, e2]

/-! ### Paths of the block surface of ws2811 -/

theorem ws2811_read_negative (priv : ws2811.ws2811_dev) (k : kernel) (room count : Nat)
    (offset : Int) (h : offset < 0) :
    ws2811.ws2811_read priv k room count offset =
      { ret := -EINVAL, offset := offset, priv := priv, k := k, user := [] } := by
  simp only [ws2811.ws2811_read, if_pos h]

theorem ws2811_write_negative (priv : ws2811.ws2811_dev) (k : kernel) (buf : List Nat)
    (count : Nat) (offset : Int) (h : offset < 0) :
    ws2811.ws2811_write priv k buf count offset =
      { ret := -EINVAL, offset := offset, priv := priv, k := k, user := [] } := by
  simp only [ws2811.ws2811_write, if_pos h]

theorem ws2811_read_past_end (priv : ws2811.ws2811_dev) (k : kernel) (room count : Nat)
    (offset : Int) (h : (ws2811.SPAN : Int) ≤ offset) :
    ws2811.ws2811_read priv k room count offset =
      { ret := 0, offset := offset, priv := priv, k := k, user := [] } := by
  have h0 : ¬ offset < 0 := by simp [ws2811.SPAN] at h; omega
  simp only [ws2811.ws2811_read, if_neg h0, ge_iff_le, h, if_true]

theorem ws2811_write_past_end (priv : ws2811.ws2811_dev) (k : kernel) (buf : List Nat)
    (count : Nat) (offset : Int) (h : (ws2811.SPAN : Int) ≤ offset) :
    ws2811.ws2811_write priv k buf count offset =
      { ret := 0, offset := offset, priv := priv, k := k, user := [] } := by
  have h0 : ¬ offset < 0 := by simp [ws2811.SPAN] at h; omega
  simp only [ws2811.ws2811_write, if_neg h0, ge_iff_le, h, if_true]

theorem ws2811_read_unaligned (priv : ws2811.ws2811_dev) (k : kernel) (room count : Nat)
    (offset : Int) (h0 : 0 ≤ offset) (h1 : offset < (ws2811.SPAN : Int))
    (h2 : offset % 4 ≠ 0) :
    ws2811.ws2811_read priv k room count offset =
      { ret := -EFAULT, offset := offset, priv := priv, k := pr_warn k, user := [] } := by
  simp only [ws2811.ws2811_read, if_neg (not_lt.mpr h0), if_neg (not_le.mpr h1), ne_eq, h2,
    not_false_eq_true, if_true]

theorem ws2811_write_unaligned (priv : ws2811.ws2811_dev) (k : kernel) (buf : List Nat)
    (count : Nat) (offset : Int) (h0 : 0 ≤ offset) (h1 : offset < (ws2811.SPAN : Int))
    (h2 : offset % 4 ≠ 0) :
    ws2811.ws2811_write priv k buf count offset =
      { ret := -EFAULT, offset := offset, priv := priv, k := pr_warn k, user := [] } := by
  simp only [ws2811.ws2811_write, if_neg (not_lt.mpr h0), if_neg (not_le.mpr h1), ne_eq, h2,
    not_false_eq_true, if_true]

theorem ws2811_read_aligned (priv : ws2811.ws2811_dev) (k : kernel) (room count : Nat)
    (offset : Int) (h0 : 0 ≤ offset) (h1 : offset < (ws2811.SPAN : Int))
    (h2 : offset % 4 = 0) :
    ws2811.ws2811_read priv k room count offset =
      if (copy_to_user room (u32_bytes (ioread32 k (priv.base_addr + offset.toNat))) 4).1 = 4
      then { ret := -EFAULT, offset := offset, priv := priv, k := pr_warn k,
             user := (copy_to_user room
               (u32_bytes (ioread32 k (priv.base_addr + offset.toNat))) 4).2 }
      else { ret := 4, offset := offset + 4, priv := priv, k := k,
             user := (copy_to_user room
               (u32_bytes (ioread32 k (priv.base_addr + offset.toNat))) 4).2 } := by
  simp only [ws2811.ws2811_read, if_neg (not_lt.mpr h0), if_neg (not_le.mpr h1), ne_eq, h2,
    not_true_eq_false, if_false]

theorem ws2811_write_aligned (priv : ws2811.ws2811_dev) (k : kernel) (buf : List Nat)
    (count : Nat) (offset : Int) (h0 : 0 ≤ offset) (h1 : offset < (ws2811.SPAN : Int))
    (h2 : offset % 4 = 0) :
    ws2811.ws2811_write priv k buf count offset =
      if (copy_from_user buf 4).1 ≠ 4
      then { ret := 4, offset := offset + 4, priv := { priv with lock := false },
             k := { mem := (iowrite32 (bytes_u32 (copy_from_user buf 4).2)
                     (priv.base_addr + offset.toNat) k).mem,
                    trace := k.trace ++ [event.mutex_lock] ++
                      [event.iowrite32 (bytes_u32 (copy_from_user buf 4).2 % 4294967296)
                        (priv.base_addr + offset.toNat)] ++ [event.mutex_unlock] },
             user := [] }
      else { ret := -EFAULT, offset := offset, priv := { priv with lock := false },
             k := { mem := k.mem,
                    trace := k.trace ++ [event.mutex_lock] ++ [event.pr_warn] ++
                      [event.mutex_unlock] },
             user := [] } := by
  have e1 : to_ssize_t 4 = 4 := by decide
  have e2 : to_ssize_t (to_size_t (-EFAULT)) = -EFAULT := by decide
  simp only [ws2811.ws2811_write, if_neg (not_lt.mpr h0), if_neg (not_le.mpr h1), ne_eq, h2,
    not_true_eq_false, if_false, ws2811.mutex_lock, ws2811.mutex_unlock, pr_warn, iowrite32,
    e1, e2]

/-! ### Facts about the copies between kernel and caller -/

theorem copy_to_user_all (room v : Nat) (h : (copy_to_user room (u32_bytes v) 4).1 = 0) :
    (copy_to_user room (u32_bytes v) 4).1 ≠ 4 ∧
    (copy_to_user room (u32_bytes v) 4).2 = u32_bytes v := by
  simp only [copy_to_user] at h ⊢
  have hr : 4 ≤ room := by omega
  refine ⟨by omega, ?_⟩
  have h4 : (u32_bytes v).length = 4 := rfl
  rw [List.take_of_length_le (le_of_eq h4), List.take_of_length_le (by rw [h4]; exact hr)]

theorem copy_from_user_word (v : Nat) (extra : List Nat) :
    copy_from_user (u32_bytes v ++ extra) 4 = (0, u32_bytes v) := by
  simp [copy_from_user, u32_bytes]

theorem to_ssize_t_small (n : Nat) (h : n < 2147483648) : to_ssize_t n = (n : Int) := by
  unfold to_ssize_t
  have h1 : n % 4294967296 = n := Nat.mod_eq_of_lt (by omega)
  rw [h1, if_pos h]

/-! ## C1: block write with a short copy from the caller -/

/-- C1, counterexample: on pwm_rgb, with the cursor at offset 0, a block write
whose caller supplies only 2 readable bytes (copy_from_user leaves 2 of the 4
bytes uncopied) does not fail: it returns 4, moves the cursor to 4 and replaces
the word of the register by the two bytes padded with zeros. -/
theorem block_write_two_bytes_is_stored :
    (copy_from_user [0xAA, 0xBB] 4).1 = 2 ∧
    (pwm_rgb.pwm_rgb_write sample_pwm sample_kernel [0xAA, 0xBB] 2 0).ret = 4 ∧
    (pwm_rgb.pwm_rgb_write sample_pwm sample_kernel [0xAA, 0xBB] 2 0).offset = 4 ∧
    ioread32 sample_kernel (sample_pwm.base_addr + 0) = 0x07070707 ∧
    ioread32 (pwm_rgb.pwm_rgb_write sample_pwm sample_kernel [0xAA, 0xBB] 2 0).k
      (sample_pwm.base_addr + 0) = 0xBBAA := by
  decide

/-- C1 (amended): for each of the three drivers, at an aligned cursor inside
the window, a block write that obtains no byte from the caller (copy_from_user
leaves all 4 bytes uncopied) fails with -EFAULT, and the I/O memory and the
cursor are the same after the call as before it. -/
theorem block_write_nothing_copied (pp : pwm_rgb.pwm_rgb_dev) (sp : stop_button.stop_button_dev)
    (wp : ws2811.ws2811_dev)
    (k : kernel) (buf : List Nat) (count : Nat) (offset : Int)
    (h0 : 0 ≤ offset) (h2 : offset % 4 = 0) (hc : (copy_from_user buf 4).1 = 4) :
    (offset < (pwm_rgb.SPAN : Int) →
      (pwm_rgb.pwm_rgb_write pp k buf count offset).ret = -EFAULT ∧
      (pwm_rgb.pwm_rgb_write pp k buf count offset).ret < 0 ∧
      (pwm_rgb.pwm_rgb_write pp k buf count offset).k.mem = k.mem ∧
      (pwm_rgb.pwm_rgb_write pp k buf count offset).offset = offset) ∧
    (offset < (stop_button.SPAN : Int) →
      (stop_button.stop_button_write sp k buf count offset).ret = -EFAULT ∧
      (stop_button.stop_button_write sp k buf count offset).ret < 0 ∧
      (stop_button.stop_button_write sp k buf count offset).k.mem = k.mem ∧
      (stop_button.stop_button_write sp k buf count offset).offset = offset) ∧
    (offset < (ws2811.SPAN : Int) →
      (ws2811.ws2811_write wp k buf count offset).ret = -EFAULT ∧
      (ws2811.ws2811_write wp k buf count offset).ret < 0 ∧
      (ws2811.ws2811_write wp k buf count offset).k.mem = k.mem ∧
      (ws2811.ws2811_write wp k buf count offset).offset = offset) := by
  refine ⟨?_, ?_, ?_⟩
  · intro h1
    rw [pwm_rgb_write_aligned pp k buf count offset h0 h1 h2, if_neg (not_not.mpr hc)]
    exact ⟨rfl, show -EFAULT < 0 by decide, rfl, rfl⟩
  · intro h1
    rw [stop_button_write_aligned sp k buf count offset h0 h1 h2, if_neg (not_not.mpr hc)]
    exact ⟨rfl, show -EFAULT < 0 by decide, rfl, rfl⟩
  · intro h1
    rw [ws2811_write_aligned wp k buf count offset h0 h1 h2, if_neg (not_not.mpr hc)]
    exact ⟨rfl, show -EFAULT < 0 by decide, rfl, rfl⟩

/-- C1 (amended), witness: the theorem applied to a write at offset 4 whose
caller buffer has no readable byte. -/
theorem block_write_nothing_copied_witness :
    (4 : Int) < pwm_rgb.SPAN ∧ (4 : Int) < stop_button.SPAN ∧
    (4 : Int) < ws2811.SPAN ∧
    (0 : Int) ≤ 4 ∧ (4 : Int) % 4 = 0 ∧ (copy_from_user [] 4).1 = 4 ∧
    ((pwm_rgb.pwm_rgb_write sample_pwm sample_kernel [] 2 4).ret = -EFAULT ∧
      (pwm_rgb.pwm_rgb_write sample_pwm sample_kernel [] 2 4).ret < 0 ∧
      (pwm_rgb.pwm_rgb_write sample_pwm sample_kernel [] 2 4).k.mem = sample_kernel.mem ∧
      (pwm_rgb.pwm_rgb_write sample_pwm sample_kernel [] 2 4).offset = 4) ∧
    ((stop_button.stop_button_write sample_button sample_kernel [] 2 4).ret = -EFAULT ∧
      (stop_button.stop_button_write sample_button sample_kernel [] 2 4).ret < 0 ∧
      (stop_button.stop_button_write sample_button sample_kernel [] 2 4).k.mem = sample_kernel.mem ∧
      (stop_button.stop_button_write sample_button sample_kernel [] 2 4).offset = 4) ∧
    ((ws2811.ws2811_write sample_ws sample_kernel [] 2 4).ret = -EFAULT ∧
      (ws2811.ws2811_write sample_ws sample_kernel [] 2 4).ret < 0 ∧
      (ws2811.ws2811_write sample_ws sample_kernel [] 2 4).k.mem = sample_kernel.mem ∧
      (ws2811.ws2811_write sample_ws sample_kernel [] 2 4).offset = 4) :=
  ⟨by decide, by decide, by decide,
    by decide, by decide, by decide,
    (block_write_nothing_copied sample_pwm sample_button sample_ws sample_kernel [] 2 4
      (by decide) (by decide) (by decide)).1 (by decide),
    (block_write_nothing_copied sample_pwm sample_button sample_ws sample_kernel [] 2 4
      (by decide) (by decide) (by decide)).2.1 (by decide),
    (block_write_nothing_copied sample_pwm sample_button sample_ws sample_kernel [] 2 4
      (by decide) (by decide) (by decide)).2.2 (by decide)⟩

/-! ## C2: block write past the end of the window -/

/-- C2, counterexample: with the cursor at offset 16 (the SPAN of pwm_rgb) a
block write of 4 readable bytes returns 0, which is not a negative error
code. -/
theorem block_write_past_end_returns_zero :
    (pwm_rgb.SPAN : Int) ≤ 16 ∧
    (pwm_rgb.pwm_rgb_write sample_pwm sample_kernel [1, 2, 3, 4] 4 16).ret = 0 ∧
    ¬ (pwm_rgb.pwm_rgb_write sample_pwm sample_kernel [1, 2, 3, 4] 4 16).ret < 0 := by
  decide

/-- C2 (amended): for each of the three drivers and every cursor offset at or
past SPAN, a block write returns 0 (no byte written, not an error code),
changes neither the I/O memory nor the lock, and does not move the cursor. -/
theorem block_write_past_end (pp : pwm_rgb.pwm_rgb_dev) (sp : stop_button.stop_button_dev)
    (wp : ws2811.ws2811_dev)
    (k : kernel) (buf : List Nat) (count : Nat) (offset : Int) :
    ((pwm_rgb.SPAN : Int) ≤ offset →
      (pwm_rgb.pwm_rgb_write pp k buf count offset).ret = 0 ∧
      (pwm_rgb.pwm_rgb_write pp k buf count offset).k = k ∧
      (pwm_rgb.pwm_rgb_write pp k buf count offset).priv = pp ∧
      (pwm_rgb.pwm_rgb_write pp k buf count offset).offset = offset) ∧
    ((stop_button.SPAN : Int) ≤ offset →
      (stop_button.stop_button_write sp k buf count offset).ret = 0 ∧
      (stop_button.stop_button_write sp k buf count offset).k = k ∧
      (stop_button.stop_button_write sp k buf count offset).priv = sp ∧
      (stop_button.stop_button_write sp k buf count offset).offset = offset) ∧
    ((ws2811.SPAN : Int) ≤ offset →
      (ws2811.ws2811_write wp k buf count offset).ret = 0 ∧
      (ws2811.ws2811_write wp k buf count offset).k = k ∧
      (ws2811.ws2811_write wp k buf count offset).priv = wp ∧
      (ws2811.ws2811_write wp k buf count offset).offset = offset) := by
  refine ⟨?_, ?_, ?_⟩
  · intro h
    rw [pwm_rgb_write_past_end pp k buf count offset h]
    exact ⟨rfl, rfl, rfl, rfl⟩
  · intro h
    rw [stop_button_write_past_end sp k buf count offset h]
    exact ⟨rfl, rfl, rfl, rfl⟩
  · intro h
    rw [ws2811_write_past_end wp k buf count offset h]
    exact ⟨rfl, rfl, rfl, rfl⟩

/-- C2 (amended), witness: the theorem applied to a write at offset 16. -/
theorem block_write_past_end_witness :
    (pwm_rgb.SPAN : Int) ≤ 16 ∧ (stop_button.SPAN : Int) ≤ 16 ∧
    (ws2811.SPAN : Int) ≤ 16 ∧
    ((pwm_rgb.pwm_rgb_write sample_pwm sample_kernel [1, 2, 3, 4] 4 16).ret = 0 ∧
      (pwm_rgb.pwm_rgb_write sample_pwm sample_kernel [1, 2, 3, 4] 4 16).k = sample_kernel ∧
      (pwm_rgb.pwm_rgb_write sample_pwm sample_kernel [1, 2, 3, 4] 4 16).priv = sample_pwm ∧
      (pwm_rgb.pwm_rgb_write sample_pwm sample_kernel [1, 2, 3, 4] 4 16).offset = 16) ∧
    ((stop_button.stop_button_write sample_button sample_kernel [1, 2, 3, 4] 4 16).ret = 0 ∧
      (stop_button.stop_button_write sample_button sample_kernel [1, 2, 3, 4] 4 16).k = sample_kernel ∧
      (stop_button.stop_button_write sample_button sample_kernel [1, 2, 3, 4] 4 16).priv = sample_button ∧
      (stop_button.stop_button_write sample_button sample_kernel [1, 2, 3, 4] 4 16).offset = 16) ∧
    ((ws2811.ws2811_write sample_ws sample_kernel [1, 2, 3, 4] 4 16).ret = 0 ∧
      (ws2811.ws2811_write sample_ws sample_kernel [1, 2, 3, 4] 4 16).k = sample_kernel ∧
      (ws2811.ws2811_write sample_ws sample_kernel [1, 2, 3, 4] 4 16).priv = sample_ws ∧
      (ws2811.ws2811_write sample_ws sample_kernel [1, 2, 3, 4] 4 16).offset = 16) :=
  ⟨by decide, by decide, by decide,
    (block_write_past_end sample_pwm sample_button sample_ws sample_kernel [1, 2, 3, 4] 4 16).1
      (by decide),
    (block_write_past_end sample_pwm sample_button sample_ws sample_kernel [1, 2, 3, 4] 4 16).2.1
      (by decide),
    (block_write_past_end sample_pwm sample_button sample_ws sample_kernel [1, 2, 3, 4] 4 16).2.2
      (by decide)⟩

/-! ## C3: unaligned cursor -/

/-- C3, counterexample: with the cursor at offset 17, which is not a multiple
of 4 and lies past the SPAN of pwm_rgb, the block read and the block write both
return 0 and not -EFAULT. -/
theorem block_unaligned_past_end_returns_zero :
    (17 : Int) % 4 ≠ 0 ∧ (0 : Int) ≤ 17 ∧
    (pwm_rgb.pwm_rgb_read sample_pwm sample_kernel 4 4 17).ret = 0 ∧
    (pwm_rgb.pwm_rgb_read sample_pwm sample_kernel 4 4 17).ret ≠ -EFAULT ∧
    (pwm_rgb.pwm_rgb_write sample_pwm sample_kernel [1, 2, 3, 4] 4 17).ret = 0 ∧
    (pwm_rgb.pwm_rgb_write sample_pwm sample_kernel [1, 2, 3, 4] 4 17).ret ≠ -EFAULT := by
  decide

/-- C3 (amended): for each of the three drivers and every non-negative cursor
offset that is not a multiple of 4: when offset < SPAN both the block read and
the block write fail with -EFAULT; when offset >= SPAN both return 0, the end
of the window being tested before the alignment. -/
theorem block_unaligned_in_window (pp : pwm_rgb.pwm_rgb_dev) (sp : stop_button.stop_button_dev)
    (wp : ws2811.ws2811_dev)
    (k : kernel) (room : Nat) (buf : List Nat) (count : Nat) (offset : Int)
    (h0 : 0 ≤ offset) (h2 : offset % 4 ≠ 0) :
    (offset < (pwm_rgb.SPAN : Int) →
      (pwm_rgb.pwm_rgb_read pp k room count offset).ret = -EFAULT ∧
      (pwm_rgb.pwm_rgb_write pp k buf count offset).ret = -EFAULT) ∧
    ((pwm_rgb.SPAN : Int) ≤ offset →
      (pwm_rgb.pwm_rgb_read pp k room count offset).ret = 0 ∧
      (pwm_rgb.pwm_rgb_write pp k buf count offset).ret = 0) ∧
    (offset < (stop_button.SPAN : Int) →
      (stop_button.stop_button_read sp k room count offset).ret = -EFAULT ∧
      (stop_button.stop_button_write sp k buf count offset).ret = -EFAULT) ∧
    ((stop_button.SPAN : Int) ≤ offset →
      (stop_button.stop_button_read sp k room count offset).ret = 0 ∧
      (stop_button.stop_button_write sp k buf count offset).ret = 0) ∧
    (offset < (ws2811.SPAN : Int) →
      (ws2811.ws2811_read wp k room count offset).ret = -EFAULT ∧
      (ws2811.ws2811_write wp k buf count offset).ret = -EFAULT) ∧
    ((ws2811.SPAN : Int) ≤ offset →
      (ws2811.ws2811_read wp k room count offset).ret = 0 ∧
      (ws2811.ws2811_write wp k buf count offset).ret = 0) := by
  refine ⟨?_, ?_, ?_, ?_, ?_, ?_⟩
  · intro h1
    rw [pwm_rgb_read_unaligned pp k room count offset h0 h1 h2,
      pwm_rgb_write_unaligned pp k buf count offset h0 h1 h2]
    exact ⟨rfl, rfl⟩
  · intro h
    rw [pwm_rgb_read_past_end pp k room count offset h,
      pwm_rgb_write_past_end pp k buf count offset h]
    exact ⟨rfl, rfl⟩
  · intro h1
    rw [stop_button_read_unaligned sp k room count offset h0 h1 h2,
      stop_button_write_unaligned sp k buf count offset h0 h1 h2]
    exact ⟨rfl, rfl⟩
  · intro h
    rw [stop_button_read_past_end sp k room count offset h,
      stop_button_write_past_end sp k buf count offset h]
    exact ⟨rfl, rfl⟩
  · intro h1
    rw [ws2811_read_unaligned wp k room count offset h0 h1 h2,
      ws2811_write_unaligned wp k buf count offset h0 h1 h2]
    exact ⟨rfl, rfl⟩
  · intro h
    rw [ws2811_read_past_end wp k room count offset h,
      ws2811_write_past_end wp k buf count offset h]
    exact ⟨rfl, rfl⟩

/-- C3 (amended), witness: the theorem applied to the cursor 6, inside the
window of each driver. -/
theorem block_unaligned_in_window_witness :
    (6 : Int) < pwm_rgb.SPAN ∧ (6 : Int) < stop_button.SPAN ∧
    (6 : Int) < ws2811.SPAN ∧
    (0 : Int) ≤ 6 ∧ (6 : Int) % 4 ≠ 0 ∧
    ((pwm_rgb.pwm_rgb_read sample_pwm sample_kernel 4 4 6).ret = -EFAULT ∧
      (pwm_rgb.pwm_rgb_write sample_pwm sample_kernel [1, 2, 3, 4] 4 6).ret = -EFAULT) ∧
    ((stop_button.stop_button_read sample_button sample_kernel 4 4 6).ret = -EFAULT ∧
      (stop_button.stop_button_write sample_button sample_kernel [1, 2, 3, 4] 4 6).ret = -EFAULT) ∧
    ((ws2811.ws2811_read sample_ws sample_kernel 4 4 6).ret = -EFAULT ∧
      (ws2811.ws2811_write sample_ws sample_kernel [1, 2, 3, 4] 4 6).ret = -EFAULT) :=
  ⟨by decide, by decide, by decide,
    by decide, by decide,
    (block_unaligned_in_window sample_pwm sample_button sample_ws sample_kernel 4
      [1, 2, 3, 4] 4 6 (by decide) (by decide)).1 (by decide),
    (block_unaligned_in_window sample_pwm sample_button sample_ws sample_kernel 4
      [1, 2, 3, 4] 4 6 (by decide) (by decide)).2.2.1 (by decide),
    (block_unaligned_in_window sample_pwm sample_button sample_ws sample_kernel 4
      [1, 2, 3, 4] 4 6 (by decide) (by decide)).2.2.2.2.1 (by decide)⟩

/-! ## C4: register offsets -/

/-- C4, the code at the failing register: BASE_PERIOD_OFFSET of pwm_rgb is
0x12 = 18, which is neither below SPAN = 16 nor a multiple of 4, and the probe
places the base_period register at base + 18; the register map of pwm_rgb
therefore fails the check that the maps of stop_button and ws2811 pass, and
that the three duty registers pass. -/
theorem base_period_offset_outside_window :
    pwm_rgb.BASE_PERIOD_OFFSET = 18 ∧ pwm_rgb.SPAN = 16 ∧
    ¬ pwm_rgb.BASE_PERIOD_OFFSET < pwm_rgb.SPAN ∧
    pwm_rgb.BASE_PERIOD_OFFSET % 4 = 2 ∧
    (pwm_rgb.pwm_rgb_probe sample_kernel true (Except.ok 4096) 0).drvdata.map
      (fun p => p.base_period - p.base_addr) = some 18 ∧
    registers_ok pwm_rgb.SPAN pwm_rgb.registers = false ∧
    registers_ok pwm_rgb.SPAN (pwm_rgb.registers.take 3) = true ∧
    registers_ok stop_button.SPAN stop_button.registers = true ∧
    registers_ok ws2811.SPAN ws2811.registers = true := by
  decide

/-! ## C5: block read past the end of the window -/

/-- C5: for each of the three drivers and every cursor offset at or past SPAN,
a block read returns 0, delivers no byte to the caller, and leaves the cursor,
the I/O memory and the private data unchanged. -/
theorem block_read_past_end (pp : pwm_rgb.pwm_rgb_dev) (sp : stop_button.stop_button_dev)
    (wp : ws2811.ws2811_dev)
    (k : kernel) (room count : Nat) (offset : Int) :
    ((pwm_rgb.SPAN : Int) ≤ offset →
      (pwm_rgb.pwm_rgb_read pp k room count offset).ret = 0 ∧
      (pwm_rgb.pwm_rgb_read pp k room count offset).user = [] ∧
      (pwm_rgb.pwm_rgb_read pp k room count offset).offset = offset ∧
      (pwm_rgb.pwm_rgb_read pp k room count offset).k = k ∧
      (pwm_rgb.pwm_rgb_read pp k room count offset).priv = pp) ∧
    ((stop_button.SPAN : Int) ≤ offset →
      (stop_button.stop_button_read sp k room count offset).ret = 0 ∧
      (stop_button.stop_button_read sp k room count offset).user = [] ∧
      (stop_button.stop_button_read sp k room count offset).offset = offset ∧
      (stop_button.stop_button_read sp k room count offset).k = k ∧
      (stop_button.stop_button_read sp k room count offset).priv = sp) ∧
    ((ws2811.SPAN : Int) ≤ offset →
      (ws2811.ws2811_read wp k room count offset).ret = 0 ∧
      (ws2811.ws2811_read wp k room count offset).user = [] ∧
      (ws2811.ws2811_read wp k room count offset).offset = offset ∧
      (ws2811.ws2811_read wp k room count offset).k = k ∧
      (ws2811.ws2811_read wp k room count offset).priv = wp) := by
  refine ⟨?_, ?_, ?_⟩
  · intro h
    rw [pwm_rgb_read_past_end pp k room count offset h]
    exact ⟨rfl, rfl, rfl, rfl, rfl⟩
  · intro h
    rw [stop_button_read_past_end sp k room count offset h]
    exact ⟨rfl, rfl, rfl, rfl, rfl⟩
  · intro h
    rw [ws2811_read_past_end wp k room count offset h]
    exact ⟨rfl, rfl, rfl, rfl, rfl⟩

/-- C5, witness: the theorem applied to a read at offset 16. -/
theorem block_read_past_end_witness :
    (pwm_rgb.SPAN : Int) ≤ 16 ∧ (stop_button.SPAN : Int) ≤ 16 ∧
    (ws2811.SPAN : Int) ≤ 16 ∧
    ((pwm_rgb.pwm_rgb_read sample_pwm sample_kernel 4 4 16).ret = 0 ∧
      (pwm_rgb.pwm_rgb_read sample_pwm sample_kernel 4 4 16).user = [] ∧
      (pwm_rgb.pwm_rgb_read sample_pwm sample_kernel 4 4 16).offset = 16 ∧
      (pwm_rgb.pwm_rgb_read sample_pwm sample_kernel 4 4 16).k = sample_kernel ∧
      (pwm_rgb.pwm_rgb_read sample_pwm sample_kernel 4 4 16).priv = sample_pwm) ∧
    ((stop_button.stop_button_read sample_button sample_kernel 4 4 16).ret = 0 ∧
      (stop_button.stop_button_read sample_button sample_kernel 4 4 16).user = [] ∧
      (stop_button.stop_button_read sample_button sample_kernel 4 4 16).offset = 16 ∧
      (stop_button.stop_button_read sample_button sample_kernel 4 4 16).k = sample_kernel ∧
      (stop_button.stop_button_read sample_button sample_kernel 4 4 16).priv = sample_button) ∧
    ((ws2811.ws2811_read sample_ws sample_kernel 4 4 16).ret = 0 ∧
      (ws2811.ws2811_read sample_ws sample_kernel 4 4 16).user = [] ∧
      (ws2811.ws2811_read sample_ws sample_kernel 4 4 16).offset = 16 ∧
      (ws2811.ws2811_read sample_ws sample_kernel 4 4 16).k = sample_kernel ∧
      (ws2811.ws2811_read sample_ws sample_kernel 4 4 16).priv = sample_ws) :=
  ⟨by decide, by decide, by decide,
    (block_read_past_end sample_pwm sample_button sample_ws sample_kernel 4 4 16).1 (by decide),
    (block_read_past_end sample_pwm sample_button sample_ws sample_kernel 4 4 16).2.1
      (by decide),
    (block_read_past_end sample_pwm sample_button sample_ws sample_kernel 4 4 16).2.2
      (by decide)⟩

/-! ## C6: block read inside the window -/

/-- C6: for each of the three drivers, every aligned cursor inside the window
and every requested length: when copy_to_user copies all 4 bytes, the block
read delivers exactly the 32-bit word stored at base + offset, returns 4,
moves the cursor to offset + 4 and changes neither the I/O memory nor the
private data. For every input at all the returned value is at most 4, and the
outcome does not depend on the requested length. -/
theorem block_read_delivers_word (pp : pwm_rgb.pwm_rgb_dev) (sp : stop_button.stop_button_dev)
    (wp : ws2811.ws2811_dev)
    (k : kernel) (room count count2 : Nat) (offset : Int) :
    (0 ≤ offset → offset < (pwm_rgb.SPAN : Int) → offset % 4 = 0 →
      (copy_to_user room (u32_bytes (ioread32 k (pp.base_addr + offset.toNat))) 4).1 = 0 →
      (pwm_rgb.pwm_rgb_read pp k room count offset).user = u32_bytes (ioread32 k (pp.base_addr + offset.toNat)) ∧
      bytes_u32 (pwm_rgb.pwm_rgb_read pp k room count offset).user = ioread32 k (pp.base_addr + offset.toNat) ∧
      (pwm_rgb.pwm_rgb_read pp k room count offset).ret = 4 ∧
      (pwm_rgb.pwm_rgb_read pp k room count offset).offset = offset + 4 ∧
      (pwm_rgb.pwm_rgb_read pp k room count offset).k = k ∧
      (pwm_rgb.pwm_rgb_read pp k room count offset).priv = pp) ∧
    (pwm_rgb.pwm_rgb_read pp k room count offset).ret ≤ 4 ∧
    pwm_rgb.pwm_rgb_read pp k room count2 offset = pwm_rgb.pwm_rgb_read pp k room count offset ∧
    (0 ≤ offset → offset < (stop_button.SPAN : Int) → offset % 4 = 0 →
      (copy_to_user room (u32_bytes (ioread32 k (sp.base_addr + offset.toNat))) 4).1 = 0 →
      (stop_button.stop_button_read sp k room count offset).user = u32_bytes (ioread32 k (sp.base_addr + offset.toNat)) ∧
      bytes_u32 (stop_button.stop_button_read sp k room count offset).user = ioread32 k (sp.base_addr + offset.toNat) ∧
      (stop_button.stop_button_read sp k room count offset).ret = 4 ∧
      (stop_button.stop_button_read sp k room count offset).offset = offset + 4 ∧
      (stop_button.stop_button_read sp k room count offset).k = k ∧
      (stop_button.stop_button_read sp k room count offset).priv = sp) ∧
    (stop_button.stop_button_read sp k room count offset).ret ≤ 4 ∧
    stop_button.stop_button_read sp k room count2 offset = stop_button.stop_button_read sp k room count offset ∧
    (0 ≤ offset → offset < (ws2811.SPAN : Int) → offset % 4 = 0 →
      (copy_to_user room (u32_bytes (ioread32 k (wp.base_addr + offset.toNat))) 4).1 = 0 →
      (ws2811.ws2811_read wp k room count offset).user = u32_bytes (ioread32 k (wp.base_addr + offset.toNat)) ∧
      bytes_u32 (ws2811.ws2811_read wp k room count offset).user = ioread32 k (wp.base_addr + offset.toNat) ∧
      (ws2811.ws2811_read wp k room count offset).ret = 4 ∧
      (ws2811.ws2811_read wp k room count offset).offset = offset + 4 ∧
      (ws2811.ws2811_read wp k room count offset).k = k ∧
      (ws2811.ws2811_read wp k room count offset).priv = wp) ∧
    (ws2811.ws2811_read wp k room count offset).ret ≤ 4 ∧
    ws2811.ws2811_read wp k room count2 offset = ws2811.ws2811_read wp k room count offset := by
  refine ⟨?_, ?_, ?_, ?_, ?_, ?_, ?_, ?_, ?_⟩
  · intro h0 h1 h2 hc
    have hcp := copy_to_user_all room _ hc
    rw [pwm_rgb_read_aligned pp k room count offset h0 h1 h2, if_neg hcp.1]
    simp only [hcp.2]
    refine ⟨trivial, ?_, trivial, trivial, trivial, trivial⟩
    rw [bytes_u32_u32_bytes]
    exact Nat.mod_eq_of_lt (ioread32_lt _ _)
  · unfold pwm_rgb.pwm_rgb_read
    dsimp only
    split_ifs <;> simp [EINVAL, EFAULT]
  · rfl
  · intro h0 h1 h2 hc
    have hcp := copy_to_user_all room _ hc
    rw [stop_button_read_aligned sp k room count offset h0 h1 h2, if_neg hcp.1]
    simp only [hcp.2]
    refine ⟨trivial, ?_, trivial, trivial, trivial, trivial⟩
    rw [bytes_u32_u32_bytes]
    exact Nat.mod_eq_of_lt (ioread32_lt _ _)
  · unfold stop_button.stop_button_read
    dsimp only
    split_ifs <;> simp [EINVAL, EFAULT]
  · rfl
  · intro h0 h1 h2 hc
    have hcp := copy_to_user_all room _ hc
    rw [ws2811_read_aligned wp k room count offset h0 h1 h2, if_neg hcp.1]
    simp only [hcp.2]
    refine ⟨trivial, ?_, trivial, trivial, trivial, trivial⟩
    rw [bytes_u32_u32_bytes]
    exact Nat.mod_eq_of_lt (ioread32_lt _ _)
  · unfold ws2811.ws2811_read
    dsimp only
    split_ifs <;> simp [EINVAL, EFAULT]
  · rfl

/-- C6, witness: the theorem applied to a read of 1 requested byte with the
cursor at offset 4 and a caller buffer of 4 writable bytes. -/
theorem block_read_delivers_word_witness :
    (4 : Int) < pwm_rgb.SPAN ∧ (4 : Int) < stop_button.SPAN ∧
    (4 : Int) < ws2811.SPAN ∧
    (0 : Int) ≤ 4 ∧ (4 : Int) % 4 = 0 ∧
    ((copy_to_user 4 (u32_bytes (ioread32 sample_kernel (sample_pwm.base_addr + (4 : Int).toNat)))
        4).1 = 0 ∧
      (pwm_rgb.pwm_rgb_read sample_pwm sample_kernel 4 1 4).user = [7, 7, 7, 7] ∧
      (pwm_rgb.pwm_rgb_read sample_pwm sample_kernel 4 1 4).ret = 4 ∧
      (pwm_rgb.pwm_rgb_read sample_pwm sample_kernel 4 1 4).offset = 4 + 4) ∧
    ((copy_to_user 4 (u32_bytes (ioread32 sample_kernel (sample_button.base_addr + (4 : Int).toNat)))
        4).1 = 0 ∧
      (stop_button.stop_button_read sample_button sample_kernel 4 1 4).user = [7, 7, 7, 7] ∧
      (stop_button.stop_button_read sample_button sample_kernel 4 1 4).ret = 4 ∧
      (stop_button.stop_button_read sample_button sample_kernel 4 1 4).offset = 4 + 4) ∧
    ((copy_to_user 4 (u32_bytes (ioread32 sample_kernel (sample_ws.base_addr + (4 : Int).toNat)))
        4).1 = 0 ∧
      (ws2811.ws2811_read sample_ws sample_kernel 4 1 4).user = [7, 7, 7, 7] ∧
      (ws2811.ws2811_read sample_ws sample_kernel 4 1 4).ret = 4 ∧
      (ws2811.ws2811_read sample_ws sample_kernel 4 1 4).offset = 4 + 4) :=
  ⟨by decide, by decide, by decide,
    by decide, by decide,
    ⟨by decide,
      by
        have h := (block_read_delivers_word sample_pwm sample_button sample_ws sample_kernel
          4 1 9 4).1 (by decide) (by decide) (by decide) (by decide)
        exact ⟨h.1.trans (by decide), h.2.2.1, h.2.2.2.1⟩⟩,
    ⟨by decide,
      by
        have h := (block_read_delivers_word sample_pwm sample_button sample_ws sample_kernel
          4 1 9 4).2.2.2.1 (by decide) (by decide) (by decide) (by decide)
        exact ⟨h.1.trans (by decide), h.2.2.1, h.2.2.2.1⟩⟩,
    ⟨by decide,
      by
        have h := (block_read_delivers_word sample_pwm sample_button sample_ws sample_kernel
          4 1 9 4).2.2.2.2.2.2.1 (by decide) (by decide) (by decide) (by decide)
        exact ⟨h.1.trans (by decide), h.2.2.1, h.2.2.2.1⟩⟩⟩

/-! ## C7: block write inside the window -/

/-- C7: for each of the three drivers, every aligned cursor inside the window
and every 32-bit value v: a block write whose caller buffer starts with the 4
bytes of v (all of them copied) stores v in the word at base + offset, returns
4, moves the cursor to offset + 4, and leaves every other aligned word, and
indeed every byte outside the 4 bytes written, unchanged. -/
theorem block_write_stores_word (pp : pwm_rgb.pwm_rgb_dev) (sp : stop_button.stop_button_dev)
    (wp : ws2811.ws2811_dev)
    (k : kernel) (v : Nat) (extra : List Nat) (count : Nat) (offset : Int)
    (hv : v < 4294967296) (h0 : 0 ≤ offset) (h2 : offset % 4 = 0) :
    (offset < (pwm_rgb.SPAN : Int) →
      ioread32 (pwm_rgb.pwm_rgb_write pp k (u32_bytes v ++ extra) count offset).k
        (pp.base_addr + offset.toNat) = v ∧
      (pwm_rgb.pwm_rgb_write pp k (u32_bytes v ++ extra) count offset).ret = 4 ∧
      (pwm_rgb.pwm_rgb_write pp k (u32_bytes v ++ extra) count offset).offset = offset + 4 ∧
      (∀ off : Nat, off % 4 = 0 → (off : Int) ≠ offset →
        ioread32 (pwm_rgb.pwm_rgb_write pp k (u32_bytes v ++ extra) count offset).k
          (pp.base_addr + off) = ioread32 k (pp.base_addr + off)) ∧
      (∀ a : Nat, a < pp.base_addr + offset.toNat ∨ pp.base_addr + offset.toNat + 4 ≤ a →
        (pwm_rgb.pwm_rgb_write pp k (u32_bytes v ++ extra) count offset).k.mem a = k.mem a)) ∧
    (offset < (stop_button.SPAN : Int) →
      ioread32 (stop_button.stop_button_write sp k (u32_bytes v ++ extra) count offset).k
        (sp.base_addr + offset.toNat) = v ∧
      (stop_button.stop_button_write sp k (u32_bytes v ++ extra) count offset).ret = 4 ∧
      (stop_button.stop_button_write sp k (u32_bytes v ++ extra) count offset).offset = offset + 4 ∧
      (∀ off : Nat, off % 4 = 0 → (off : Int) ≠ offset →
        ioread32 (stop_button.stop_button_write sp k (u32_bytes v ++ extra) count offset).k
          (sp.base_addr + off) = ioread32 k (sp.base_addr + off)) ∧
      (∀ a : Nat, a < sp.base_addr + offset.toNat ∨ sp.base_addr + offset.toNat + 4 ≤ a →
        (stop_button.stop_button_write sp k (u32_bytes v ++ extra) count offset).k.mem a = k.mem a)) ∧
    (offset < (ws2811.SPAN : Int) →
      ioread32 (ws2811.ws2811_write wp k (u32_bytes v ++ extra) count offset).k
        (wp.base_addr + offset.toNat) = v ∧
      (ws2811.ws2811_write wp k (u32_bytes v ++ extra) count offset).ret = 4 ∧
      (ws2811.ws2811_write wp k (u32_bytes v ++ extra) count offset).offset = offset + 4 ∧
      (∀ off : Nat, off % 4 = 0 → (off : Int) ≠ offset →
        ioread32 (ws2811.ws2811_write wp k (u32_bytes v ++ extra) count offset).k
          (wp.base_addr + off) = ioread32 k (wp.base_addr + off)) ∧
      (∀ a : Nat, a < wp.base_addr + offset.toNat ∨ wp.base_addr + offset.toNat + 4 ≤ a →
        (ws2811.ws2811_write wp k (u32_bytes v ++ extra) count offset).k.mem a = k.mem a)) := by
  refine ⟨?_, ?_, ?_⟩
  · intro h1
    rw [pwm_rgb_write_aligned pp k _ count offset h0 h1 h2, copy_from_user_word]
    simp only [ne_eq, OfNat.zero_ne_ofNat, not_false_eq_true, if_true, bytes_u32_u32_bytes,
      Nat.mod_eq_of_lt hv]
    refine ⟨?_, trivial, trivial, ?_, ?_⟩
    · have e := ioread32_iowrite32_same v (pp.base_addr + offset.toNat) k
      rw [Nat.mod_eq_of_lt hv] at e
      exact e
    · intro off ho hne
      have e := ioread32_iowrite32_disjoint v (pp.base_addr + offset.toNat)
        (pp.base_addr + off) k (by omega)
      exact e
    · intro a ha
      exact iowrite32_mem_outside v (pp.base_addr + offset.toNat) a k ha
  · intro h1
    rw [stop_button_write_aligned sp k _ count offset h0 h1 h2, copy_from_user_word]
    simp only [ne_eq, OfNat.zero_ne_ofNat, not_false_eq_true, if_true, bytes_u32_u32_bytes,
      Nat.mod_eq_of_lt hv]
    refine ⟨?_, trivial, trivial, ?_, ?_⟩
    · have e := ioread32_iowrite32_same v (sp.base_addr + offset.toNat) k
      rw [Nat.mod_eq_of_lt hv] at e
      exact e
    · intro off ho hne
      have e := ioread32_iowrite32_disjoint v (sp.base_addr + offset.toNat)
        (sp.base_addr + off) k (by omega)
      exact e
    · intro a ha
      exact iowrite32_mem_outside v (sp.base_addr + offset.toNat) a k ha
  · intro h1
    rw [ws2811_write_aligned wp k _ count offset h0 h1 h2, copy_from_user_word]
    simp only [ne_eq, OfNat.zero_ne_ofNat, not_false_eq_true, if_true, bytes_u32_u32_bytes,
      Nat.mod_eq_of_lt hv]
    refine ⟨?_, trivial, trivial, ?_, ?_⟩
    · have e := ioread32_iowrite32_same v (wp.base_addr + offset.toNat) k
      rw [Nat.mod_eq_of_lt hv] at e
      exact e
    · intro off ho hne
      have e := ioread32_iowrite32_disjoint v (wp.base_addr + offset.toNat)
        (wp.base_addr + off) k (by omega)
      exact e
    · intro a ha
      exact iowrite32_mem_outside v (wp.base_addr + offset.toNat) a k ha

/-- C7, witness: the theorem applied to the value 0x12345678 written with the
cursor at offset 8. -/
theorem block_write_stores_word_witness :
    (8 : Int) < pwm_rgb.SPAN ∧ (8 : Int) < stop_button.SPAN ∧
    (8 : Int) < ws2811.SPAN ∧
    305419896 < 4294967296 ∧ (0 : Int) ≤ 8 ∧ (8 : Int) % 4 = 0 ∧
    (ioread32 (pwm_rgb.pwm_rgb_write sample_pwm sample_kernel (u32_bytes 305419896 ++ []) 4 8).k
        (sample_pwm.base_addr + (8 : Int).toNat) = 305419896 ∧
      (pwm_rgb.pwm_rgb_write sample_pwm sample_kernel (u32_bytes 305419896 ++ []) 4 8).ret = 4 ∧
      (pwm_rgb.pwm_rgb_write sample_pwm sample_kernel (u32_bytes 305419896 ++ []) 4 8).offset = 8 + 4) ∧
    (ioread32 (stop_button.stop_button_write sample_button sample_kernel (u32_bytes 305419896 ++ []) 4 8).k
        (sample_button.base_addr + (8 : Int).toNat) = 305419896 ∧
      (stop_button.stop_button_write sample_button sample_kernel (u32_bytes 305419896 ++ []) 4 8).ret = 4 ∧
      (stop_button.stop_button_write sample_button sample_kernel (u32_bytes 305419896 ++ []) 4 8).offset = 8 + 4) ∧
    (ioread32 (ws2811.ws2811_write sample_ws sample_kernel (u32_bytes 305419896 ++ []) 4 8).k
        (sample_ws.base_addr + (8 : Int).toNat) = 305419896 ∧
      (ws2811.ws2811_write sample_ws sample_kernel (u32_bytes 305419896 ++ []) 4 8).ret = 4 ∧
      (ws2811.ws2811_write sample_ws sample_kernel (u32_bytes 305419896 ++ []) 4 8).offset = 8 + 4) :=
  ⟨by decide, by decide, by decide,
    by decide, by decide, by decide,
    by
      have h := (block_write_stores_word sample_pwm sample_button sample_ws sample_kernel
        305419896 [] 4 8 (by decide) (by decide) (by decide)).1 (by decide)
      exact ⟨h.1, h.2.1, h.2.2.1⟩,
    by
      have h := (block_write_stores_word sample_pwm sample_button sample_ws sample_kernel
        305419896 [] 4 8 (by decide) (by decide) (by decide)).2.1 (by decide)
      exact ⟨h.1, h.2.1, h.2.2.1⟩,
    by
      have h := (block_write_stores_word sample_pwm sample_button sample_ws sample_kernel
        305419896 [] 4 8 (by decide) (by decide) (by decide)).2.2 (by decide)
      exact ⟨h.1, h.2.1, h.2.2.1⟩⟩

/-! ## C8: round trip of a block write and a block read -/

/-- C8: for each of the three drivers, every aligned cursor inside the window
and every 32-bit value v: after a successful block write of v with the cursor
at offset, a block read with the cursor back at offset (the caller buffer
taking all 4 bytes) delivers exactly v. -/
theorem block_write_then_read (pp : pwm_rgb.pwm_rgb_dev) (sp : stop_button.stop_button_dev)
    (wp : ws2811.ws2811_dev)
    (k : kernel) (v : Nat) (extra : List Nat) (count count2 room : Nat) (offset : Int)
    (hv : v < 4294967296) (h0 : 0 ≤ offset) (h2 : offset % 4 = 0) (hroom : 4 ≤ room) :
    (offset < (pwm_rgb.SPAN : Int) →
      (pwm_rgb.pwm_rgb_write pp k (u32_bytes v ++ extra) count offset).ret = 4 ∧
      (pwm_rgb.pwm_rgb_read (pwm_rgb.pwm_rgb_write pp k (u32_bytes v ++ extra) count offset).priv
        (pwm_rgb.pwm_rgb_write pp k (u32_bytes v ++ extra) count offset).k room count2 offset).ret = 4 ∧
      (pwm_rgb.pwm_rgb_read (pwm_rgb.pwm_rgb_write pp k (u32_bytes v ++ extra) count offset).priv
        (pwm_rgb.pwm_rgb_write pp k (u32_bytes v ++ extra) count offset).k room count2 offset).user = u32_bytes v ∧
      bytes_u32 (pwm_rgb.pwm_rgb_read (pwm_rgb.pwm_rgb_write pp k (u32_bytes v ++ extra) count offset).priv
        (pwm_rgb.pwm_rgb_write pp k (u32_bytes v ++ extra) count offset).k room count2 offset).user = v) ∧
    (offset < (stop_button.SPAN : Int) →
      (stop_button.stop_button_write sp k (u32_bytes v ++ extra) count offset).ret = 4 ∧
      (stop_button.stop_button_read (stop_button.stop_button_write sp k (u32_bytes v ++ extra) count offset).priv
        (stop_button.stop_button_write sp k (u32_bytes v ++ extra) count offset).k room count2 offset).ret = 4 ∧
      (stop_button.stop_button_read (stop_button.stop_button_write sp k (u32_bytes v ++ extra) count offset).priv
        (stop_button.stop_button_write sp k (u32_bytes v ++ extra) count offset).k room count2 offset).user = u32_bytes v ∧
      bytes_u32 (stop_button.stop_button_read (stop_button.stop_button_write sp k (u32_bytes v ++ extra) count offset).priv
        (stop_button.stop_button_write sp k (u32_bytes v ++ extra) count offset).k room count2 offset).user = v) ∧
    (offset < (ws2811.SPAN : Int) →
      (ws2811.ws2811_write wp k (u32_bytes v ++ extra) count offset).ret = 4 ∧
      (ws2811.ws2811_read (ws2811.ws2811_write wp k (u32_bytes v ++ extra) count offset).priv
        (ws2811.ws2811_write wp k (u32_bytes v ++ extra) count offset).k room count2 offset).ret = 4 ∧
      (ws2811.ws2811_read (ws2811.ws2811_write wp k (u32_bytes v ++ extra) count offset).priv
        (ws2811.ws2811_write wp k (u32_bytes v ++ extra) count offset).k room count2 offset).user = u32_bytes v ∧
      bytes_u32 (ws2811.ws2811_read (ws2811.ws2811_write wp k (u32_bytes v ++ extra) count offset).priv
        (ws2811.ws2811_write wp k (u32_bytes v ++ extra) count offset).k room count2 offset).user = v) := by
  refine ⟨?_, ?_, ?_⟩
  · intro h1
    have hw : (pwm_rgb.pwm_rgb_write pp k (u32_bytes v ++ extra) count offset).ret = 4 ∧
        (pwm_rgb.pwm_rgb_write pp k (u32_bytes v ++ extra) count offset).priv.base_addr
          = pp.base_addr ∧
        ioread32 (pwm_rgb.pwm_rgb_write pp k (u32_bytes v ++ extra) count offset).k
          (pp.base_addr + offset.toNat) = v := by
      rw [pwm_rgb_write_aligned pp k _ count offset h0 h1 h2, copy_from_user_word]
      simp only [ne_eq, OfNat.zero_ne_ofNat, not_false_eq_true, if_true, bytes_u32_u32_bytes,
        Nat.mod_eq_of_lt hv]
      refine ⟨trivial, trivial, ?_⟩
      have e := ioread32_iowrite32_same v (pp.base_addr + offset.toNat) k
      rw [Nat.mod_eq_of_lt hv] at e
      exact e
    have hcp : (copy_to_user room (u32_bytes v) 4).1 = 0 := by
      simp only [copy_to_user]
      omega
    have hall := copy_to_user_all room v hcp
    rw [pwm_rgb_read_aligned _ _ room count2 offset h0 h1 h2, hw.2.1, hw.2.2, if_neg hall.1]
    simp only [hall.2]
    refine ⟨hw.1, trivial, trivial, ?_⟩
    rw [bytes_u32_u32_bytes]
    exact Nat.mod_eq_of_lt hv
  · intro h1
    have hw : (stop_button.stop_button_write sp k (u32_bytes v ++ extra) count offset).ret = 4 ∧
        (stop_button.stop_button_write sp k (u32_bytes v ++ extra) count offset).priv.base_addr
          = sp.base_addr ∧
        ioread32 (stop_button.stop_button_write sp k (u32_bytes v ++ extra) count offset).k
          (sp.base_addr + offset.toNat) = v := by
      rw [stop_button_write_aligned sp k _ count offset h0 h1 h2, copy_from_user_word]
      simp only [ne_eq, OfNat.zero_ne_ofNat, not_false_eq_true, if_true, bytes_u32_u32_bytes,
        Nat.mod_eq_of_lt hv]
      refine ⟨trivial, trivial, ?_⟩
      have e := ioread32_iowrite32_same v (sp.base_addr + offset.toNat) k
      rw [Nat.mod_eq_of_lt hv] at e
      exact e
    have hcp : (copy_to_user room (u32_bytes v) 4).1 = 0 := by
      simp only [copy_to_user]
      omega
    have hall := copy_to_user_all room v hcp
    rw [stop_button_read_aligned _ _ room count2 offset h0 h1 h2, hw.2.1, hw.2.2, if_neg hall.1]
    simp only [hall.2]
    refine ⟨hw.1, trivial, trivial, ?_⟩
    rw [bytes_u32_u32_bytes]
    exact Nat.mod_eq_of_lt hv
  · intro h1
    have hw : (ws2811.ws2811_write wp k (u32_bytes v ++ extra) count offset).ret = 4 ∧
        (ws2811.ws2811_write wp k (u32_bytes v ++ extra) count offset).priv.base_addr
          = wp.base_addr ∧
        ioread32 (ws2811.ws2811_write wp k (u32_bytes v ++ extra) count offset).k
          (wp.base_addr + offset.toNat) = v := by
      rw [ws2811_write_aligned wp k _ count offset h0 h1 h2, copy_from_user_word]
      simp only [ne_eq, OfNat.zero_ne_ofNat, not_false_eq_true, if_true, bytes_u32_u32_bytes,
        Nat.mod_eq_of_lt hv]
      refine ⟨trivial, trivial, ?_⟩
      have e := ioread32_iowrite32_same v (wp.base_addr + offset.toNat) k
      rw [Nat.mod_eq_of_lt hv] at e
      exact e
    have hcp : (copy_to_user room (u32_bytes v) 4).1 = 0 := by
      simp only [copy_to_user]
      omega
    have hall := copy_to_user_all room v hcp
    rw [ws2811_read_aligned _ _ room count2 offset h0 h1 h2, hw.2.1, hw.2.2, if_neg hall.1]
    simp only [hall.2]
    refine ⟨hw.1, trivial, trivial, ?_⟩
    rw [bytes_u32_u32_bytes]
    exact Nat.mod_eq_of_lt hv

/-- C8, witness: the theorem applied to the value 4096 written and read back
at offset 0. -/
theorem block_write_then_read_witness :
    (0 : Int) < pwm_rgb.SPAN ∧ (0 : Int) < stop_button.SPAN ∧
    (0 : Int) < ws2811.SPAN ∧
    4096 < 4294967296 ∧ (0 : Int) ≤ 0 ∧ (0 : Int) % 4 = 0 ∧ 4 ≤ 4 ∧
    ((pwm_rgb.pwm_rgb_write sample_pwm sample_kernel (u32_bytes 4096 ++ []) 4 0).ret = 4 ∧
      (pwm_rgb.pwm_rgb_read (pwm_rgb.pwm_rgb_write sample_pwm sample_kernel (u32_bytes 4096 ++ []) 4 0).priv
        (pwm_rgb.pwm_rgb_write sample_pwm sample_kernel (u32_bytes 4096 ++ []) 4 0).k 4 4 0).ret = 4 ∧
      (pwm_rgb.pwm_rgb_read (pwm_rgb.pwm_rgb_write sample_pwm sample_kernel (u32_bytes 4096 ++ []) 4 0).priv
        (pwm_rgb.pwm_rgb_write sample_pwm sample_kernel (u32_bytes 4096 ++ []) 4 0).k 4 4 0).user = u32_bytes 4096 ∧
      bytes_u32 (pwm_rgb.pwm_rgb_read (pwm_rgb.pwm_rgb_write sample_pwm sample_kernel (u32_bytes 4096 ++ []) 4 0).priv
        (pwm_rgb.pwm_rgb_write sample_pwm sample_kernel (u32_bytes 4096 ++ []) 4 0).k 4 4 0).user = 4096) ∧
    ((stop_button.stop_button_write sample_button sample_kernel (u32_bytes 4096 ++ []) 4 0).ret = 4 ∧
      (stop_button.stop_button_read (stop_button.stop_button_write sample_button sample_kernel (u32_bytes 4096 ++ []) 4 0).priv
        (stop_button.stop_button_write sample_button sample_kernel (u32_bytes 4096 ++ []) 4 0).k 4 4 0).ret = 4 ∧
      (stop_button.stop_button_read (stop_button.stop_button_write sample_button sample_kernel (u32_bytes 4096 ++ []) 4 0).priv
        (stop_button.stop_button_write sample_button sample_kernel (u32_bytes 4096 ++ []) 4 0).k 4 4 0).user = u32_bytes 4096 ∧
      bytes_u32 (stop_button.stop_button_read (stop_button.stop_button_write sample_button sample_kernel (u32_bytes 4096 ++ []) 4 0).priv
        (stop_button.stop_button_write sample_button sample_kernel (u32_bytes 4096 ++ []) 4 0).k 4 4 0).user = 4096) ∧
    ((ws2811.ws2811_write sample_ws sample_kernel (u32_bytes 4096 ++ []) 4 0).ret = 4 ∧
      (ws2811.ws2811_read (ws2811.ws2811_write sample_ws sample_kernel (u32_bytes 4096 ++ []) 4 0).priv
        (ws2811.ws2811_write sample_ws sample_kernel (u32_bytes 4096 ++ []) 4 0).k 4 4 0).ret = 4 ∧
      (ws2811.ws2811_read (ws2811.ws2811_write sample_ws sample_kernel (u32_bytes 4096 ++ []) 4 0).priv
        (ws2811.ws2811_write sample_ws sample_kernel (u32_bytes 4096 ++ []) 4 0).k 4 4 0).user = u32_bytes 4096 ∧
      bytes_u32 (ws2811.ws2811_read (ws2811.ws2811_write sample_ws sample_kernel (u32_bytes 4096 ++ []) 4 0).priv
        (ws2811.ws2811_write sample_ws sample_kernel (u32_bytes 4096 ++ []) 4 0).k 4 4 0).user = 4096) :=
  ⟨by decide, by decide, by decide,
    by decide, by decide, by decide, by decide,
    (block_write_then_read sample_pwm sample_button sample_ws sample_kernel 4096 [] 4 4 4 0
      (by decide) (by decide) (by decide) (by decide)).1 (by decide),
    (block_write_then_read sample_pwm sample_button sample_ws sample_kernel 4096 [] 4 4 4 0
      (by decide) (by decide) (by decide) (by decide)).2.1 (by decide),
    (block_write_then_read sample_pwm sample_button sample_ws sample_kernel 4096 [] 4 4 4 0
      (by decide) (by decide) (by decide) (by decide)).2.2 (by decide)⟩

/-! ## C9: a call that returns an error leaves the state alone -/

/-- C9: for each of the three drivers, whenever a block read or a block write
returns a negative value the I/O memory and the cursor are the same after the
call as before it, and whenever an attribute store handler (given at most one
page of text, as sysfs does) returns a negative value the machine is the same
after the call as before it. -/
theorem error_leaves_state (pp : pwm_rgb.pwm_rgb_dev) (sp : stop_button.stop_button_dev)
    (wp : ws2811.ws2811_dev)
    (k : kernel) (room : Nat) (buf : List Nat) (text : List Char) (size count : Nat)
    (offset : Int) :
    ((pwm_rgb.pwm_rgb_read pp k room count offset).ret < 0 →
      (pwm_rgb.pwm_rgb_read pp k room count offset).k.mem = k.mem ∧
      (pwm_rgb.pwm_rgb_read pp k room count offset).offset = offset) ∧
    ((pwm_rgb.pwm_rgb_write pp k buf count offset).ret < 0 →
      (pwm_rgb.pwm_rgb_write pp k buf count offset).k.mem = k.mem ∧
      (pwm_rgb.pwm_rgb_write pp k buf count offset).offset = offset) ∧
    (size ≤ PAGE_SIZE → (pwm_rgb.duty_red_store pp k text size).ret < 0 →
      (pwm_rgb.duty_red_store pp k text size).k = k) ∧
    (size ≤ PAGE_SIZE → (pwm_rgb.duty_green_store pp k text size).ret < 0 →
      (pwm_rgb.duty_green_store pp k text size).k = k) ∧
    (size ≤ PAGE_SIZE → (pwm_rgb.duty_blue_store pp k text size).ret < 0 →
      (pwm_rgb.duty_blue_store pp k text size).k = k) ∧
    (size ≤ PAGE_SIZE → (pwm_rgb.base_period_store pp k text size).ret < 0 →
      (pwm_rgb.base_period_store pp k text size).k = k) ∧
    ((stop_button.stop_button_read sp k room count offset).ret < 0 →
      (stop_button.stop_button_read sp k room count offset).k.mem = k.mem ∧
      (stop_button.stop_button_read sp k room count offset).offset = offset) ∧
    ((stop_button.stop_button_write sp k buf count offset).ret < 0 →
      (stop_button.stop_button_write sp k buf count offset).k.mem = k.mem ∧
      (stop_button.stop_button_write sp k buf count offset).offset = offset) ∧
    (size ≤ PAGE_SIZE → (stop_button.stop_button_store sp k text size).ret < 0 →
      (stop_button.stop_button_store sp k text size).k = k) ∧
    ((ws2811.ws2811_read wp k room count offset).ret < 0 →
      (ws2811.ws2811_read wp k room count offset).k.mem = k.mem ∧
      (ws2811.ws2811_read wp k room count offset).offset = offset) ∧
    ((ws2811.ws2811_write wp k buf count offset).ret < 0 →
      (ws2811.ws2811_write wp k buf count offset).k.mem = k.mem ∧
      (ws2811.ws2811_write wp k buf count offset).offset = offset) ∧
    (size ≤ PAGE_SIZE → (ws2811.rgb_all_store wp k text size).ret < 0 →
      (ws2811.rgb_all_store wp k text size).k = k) ∧
    (size ≤ PAGE_SIZE → (ws2811.rgb_single_store wp k text size).ret < 0 →
      (ws2811.rgb_single_store wp k text size).k = k) ∧
    (size ≤ PAGE_SIZE → (ws2811.strip_index_store wp k text size).ret < 0 →
      (ws2811.strip_index_store wp k text size).k = k) := by
  refine ⟨?_, ?_, ?_, ?_, ?_, ?_, ?_, ?_, ?_, ?_, ?_, ?_, ?_, ?_⟩
  · unfold pwm_rgb.pwm_rgb_read
    dsimp only
    split_ifs <;> simp [pr_warn]
  · intro hneg
    rcases lt_or_le offset 0 with hn | h0
    · rw [pwm_rgb_write_negative pp k buf count offset hn]
      exact ⟨rfl, rfl⟩
    rcases le_or_lt (pwm_rgb.SPAN : Int) offset with hs | h1
    · rw [pwm_rgb_write_past_end pp k buf count offset hs]
      exact ⟨rfl, rfl⟩
    by_cases h2 : offset % 4 = 0
    · rw [pwm_rgb_write_aligned pp k buf count offset h0 h1 h2] at hneg ⊢
      split_ifs at hneg ⊢ with hc
      · simp at hneg
      · exact ⟨rfl, rfl⟩
    · rw [pwm_rgb_write_unaligned pp k buf count offset h0 h1 h2]
      exact ⟨rfl, rfl⟩
  · intro hsz hneg
    unfold pwm_rgb.duty_red_store at hneg ⊢
    dsimp only at hneg ⊢
    split_ifs at hneg ⊢ with hp
    · rfl
    · rw [to_ssize_t_small size (by unfold PAGE_SIZE at hsz; omega)] at hneg
      exact absurd hneg (not_lt.mpr (Int.ofNat_nonneg size))
  · intro hsz hneg
    unfold pwm_rgb.duty_green_store at hneg ⊢
    dsimp only at hneg ⊢
    split_ifs at hneg ⊢ with hp
    · rfl
    · rw [to_ssize_t_small size (by unfold PAGE_SIZE at hsz; omega)] at hneg
      exact absurd hneg (not_lt.mpr (Int.ofNat_nonneg size))
  · intro hsz hneg
    unfold pwm_rgb.duty_blue_store at hneg ⊢
    dsimp only at hneg ⊢
    split_ifs at hneg ⊢ with hp
    · rfl
    · rw [to_ssize_t_small size (by unfold PAGE_SIZE at hsz; omega)] at hneg
      exact absurd hneg (not_lt.mpr (Int.ofNat_nonneg size))
  · intro hsz hneg
    unfold pwm_rgb.base_period_store at hneg ⊢
    dsimp only at hneg ⊢
    split_ifs at hneg ⊢ with hp
    · rfl
    · rw [to_ssize_t_small size (by unfold PAGE_SIZE at hsz; omega)] at hneg
      exact absurd hneg (not_lt.mpr (Int.ofNat_nonneg size))
  · unfold stop_button.stop_button_read
    dsimp only
    split_ifs <;> simp [pr_warn]
  · intro hneg
    rcases lt_or_le offset 0 with hn | h0
    · rw [stop_button_write_negative sp k buf count offset hn]
      exact ⟨rfl, rfl⟩
    rcases le_or_lt (stop_button.SPAN : Int) offset with hs | h1
    · rw [stop_button_write_past_end sp k buf count offset hs]
      exact ⟨rfl, rfl⟩
    by_cases h2 : offset % 4 = 0
    · rw [stop_button_write_aligned sp k buf count offset h0 h1 h2] at hneg ⊢
      split_ifs at hneg ⊢ with hc
      · simp at hneg
      · exact ⟨rfl, rfl⟩
    · rw [stop_button_write_unaligned sp k buf count offset h0 h1 h2]
      exact ⟨rfl, rfl⟩
  · intro hsz hneg
    unfold stop_button.stop_button_store at hneg ⊢
    dsimp only at hneg ⊢
    split_ifs at hneg ⊢ with hp
    · rfl
    · rw [to_ssize_t_small size (by unfold PAGE_SIZE at hsz; omega)] at hneg
      exact absurd hneg (not_lt.mpr (Int.ofNat_nonneg size))
  · unfold ws2811.ws2811_read
    dsimp only
    split_ifs <;> simp [pr_warn]
  · intro hneg
    rcases lt_or_le offset 0 with hn | h0
    · rw [ws2811_write_negative wp k buf count offset hn]
      exact ⟨rfl, rfl⟩
    rcases le_or_lt (ws2811.SPAN : Int) offset with hs | h1
    · rw [ws2811_write_past_end wp k buf count offset hs]
      exact ⟨rfl, rfl⟩
    by_cases h2 : offset % 4 = 0
    · rw [ws2811_write_aligned wp k buf count offset h0 h1 h2] at hneg ⊢
      split_ifs at hneg ⊢ with hc
      · simp at hneg
      · exact ⟨rfl, rfl⟩
    · rw [ws2811_write_unaligned wp k buf count offset h0 h1 h2]
      exact ⟨rfl, rfl⟩
  · intro hsz hneg
    unfold ws2811.rgb_all_store at hneg ⊢
    dsimp only at hneg ⊢
    split_ifs at hneg ⊢ with hp
    · rfl
    · rw [to_ssize_t_small size (by unfold PAGE_SIZE at hsz; omega)] at hneg
      exact absurd hneg (not_lt.mpr (Int.ofNat_nonneg size))
  · intro hsz hneg
    unfold ws2811.rgb_single_store at hneg ⊢
    dsimp only at hneg ⊢
    split_ifs at hneg ⊢ with hp
    · rfl
    · rw [to_ssize_t_small size (by unfold PAGE_SIZE at hsz; omega)] at hneg
      exact absurd hneg (not_lt.mpr (Int.ofNat_nonneg size))
  · intro hsz hneg
    unfold ws2811.strip_index_store at hneg ⊢
    dsimp only at hneg ⊢
    split_ifs at hneg ⊢ with hp
    · rfl
    · rw [to_ssize_t_small size (by unfold PAGE_SIZE at hsz; omega)] at hneg
      exact absurd hneg (not_lt.mpr (Int.ofNat_nonneg size))

/-- C9, witness: the theorem applied to a read at the unaligned offset 2, to a
write at offset 4 that obtains no byte from the caller, and to a store of the
text x, which is not a number. -/
theorem error_leaves_state_witness :
    1 ≤ PAGE_SIZE ∧
    ((pwm_rgb.pwm_rgb_read sample_pwm sample_kernel 4 4 2).ret < 0 ∧
      (pwm_rgb.pwm_rgb_read sample_pwm sample_kernel 4 4 2).k.mem = sample_kernel.mem ∧
      (pwm_rgb.pwm_rgb_read sample_pwm sample_kernel 4 4 2).offset = 2) ∧
    ((pwm_rgb.pwm_rgb_write sample_pwm sample_kernel [] 4 4).ret < 0 ∧
      (pwm_rgb.pwm_rgb_write sample_pwm sample_kernel [] 4 4).k.mem = sample_kernel.mem ∧
      (pwm_rgb.pwm_rgb_write sample_pwm sample_kernel [] 4 4).offset = 4) ∧
    ((pwm_rgb.duty_red_store sample_pwm sample_kernel [Char.ofNat 120] 1).ret < 0 ∧
      (pwm_rgb.duty_red_store sample_pwm sample_kernel [Char.ofNat 120] 1).k = sample_kernel) ∧
    ((pwm_rgb.duty_green_store sample_pwm sample_kernel [Char.ofNat 120] 1).ret < 0 ∧
      (pwm_rgb.duty_green_store sample_pwm sample_kernel [Char.ofNat 120] 1).k = sample_kernel) ∧
    ((pwm_rgb.duty_blue_store sample_pwm sample_kernel [Char.ofNat 120] 1).ret < 0 ∧
      (pwm_rgb.duty_blue_store sample_pwm sample_kernel [Char.ofNat 120] 1).k = sample_kernel) ∧
    ((pwm_rgb.base_period_store sample_pwm sample_kernel [Char.ofNat 120] 1).ret < 0 ∧
      (pwm_rgb.base_period_store sample_pwm sample_kernel [Char.ofNat 120] 1).k = sample_kernel) ∧
    ((stop_button.stop_button_read sample_button sample_kernel 4 4 2).ret < 0 ∧
      (stop_button.stop_button_read sample_button sample_kernel 4 4 2).k.mem = sample_kernel.mem ∧
      (stop_button.stop_button_read sample_button sample_kernel 4 4 2).offset = 2) ∧
    ((stop_button.stop_button_write sample_button sample_kernel [] 4 4).ret < 0 ∧
      (stop_button.stop_button_write sample_button sample_kernel [] 4 4).k.mem = sample_kernel.mem ∧
      (stop_button.stop_button_write sample_button sample_kernel [] 4 4).offset = 4) ∧
    ((stop_button.stop_button_store sample_button sample_kernel [Char.ofNat 120] 1).ret < 0 ∧
      (stop_button.stop_button_store sample_button sample_kernel [Char.ofNat 120] 1).k = sample_kernel) ∧
    ((ws2811.ws2811_read sample_ws sample_kernel 4 4 2).ret < 0 ∧
      (ws2811.ws2811_read sample_ws sample_kernel 4 4 2).k.mem = sample_kernel.mem ∧
      (ws2811.ws2811_read sample_ws sample_kernel 4 4 2).offset = 2) ∧
    ((ws2811.ws2811_write sample_ws sample_kernel [] 4 4).ret < 0 ∧
      (ws2811.ws2811_write sample_ws sample_kernel [] 4 4).k.mem = sample_kernel.mem ∧
      (ws2811.ws2811_write sample_ws sample_kernel [] 4 4).offset = 4) ∧
    ((ws2811.rgb_all_store sample_ws sample_kernel [Char.ofNat 120] 1).ret < 0 ∧
      (ws2811.rgb_all_store sample_ws sample_kernel [Char.ofNat 120] 1).k = sample_kernel) ∧
    ((ws2811.rgb_single_store sample_ws sample_kernel [Char.ofNat 120] 1).ret < 0 ∧
      (ws2811.rgb_single_store sample_ws sample_kernel [Char.ofNat 120] 1).k = sample_kernel) ∧
    ((ws2811.strip_index_store sample_ws sample_kernel [Char.ofNat 120] 1).ret < 0 ∧
      (ws2811.strip_index_store sample_ws sample_kernel [Char.ofNat 120] 1).k = sample_kernel) :=
  ⟨by decide,
    ⟨by decide,
      ((error_leaves_state sample_pwm sample_button sample_ws sample_kernel 4 [] [Char.ofNat 120]
        1 4 2)).1 (by decide)⟩,
    ⟨by decide,
      ((error_leaves_state sample_pwm sample_button sample_ws sample_kernel 4 [] [Char.ofNat 120]
        1 4 4)).2.1 (by decide)⟩,
    ⟨by decide,
      ((error_leaves_state sample_pwm sample_button sample_ws sample_kernel 4 [] [Char.ofNat 120]
        1 4 4)).2.2.1 (by decide) (by decide)⟩,
    ⟨by decide,
      ((error_leaves_state sample_pwm sample_button sample_ws sample_kernel 4 [] [Char.ofNat 120]
        1 4 4)).2.2.2.1 (by decide) (by decide)⟩,
    ⟨by decide,
      ((error_leaves_state sample_pwm sample_button sample_ws sample_kernel 4 [] [Char.ofNat 120]
        1 4 4)).2.2.2.2.1 (by decide) (by decide)⟩,
    ⟨by decide,
      ((error_leaves_state sample_pwm sample_button sample_ws sample_kernel 4 [] [Char.ofNat 120]
        1 4 4)).2.2.2.2.2.1 (by decide) (by decide)⟩,
    ⟨by decide,
      ((error_leaves_state sample_pwm sample_button sample_ws sample_kernel 4 [] [Char.ofNat 120]
        1 4 2)).2.2.2.2.2.2.1 (by decide)⟩,
    ⟨by decide,
      ((error_leaves_state sample_pwm sample_button sample_ws sample_kernel 4 [] [Char.ofNat 120]
        1 4 4)).2.2.2.2.2.2.2.1 (by decide)⟩,
    ⟨by decide,
      ((error_leaves_state sample_pwm sample_button sample_ws sample_kernel 4 [] [Char.ofNat 120]
        1 4 4)).2.2.2.2.2.2.2.2.1 (by decide) (by decide)⟩,
    ⟨by decide,
      ((error_leaves_state sample_pwm sample_button sample_ws sample_kernel 4 [] [Char.ofNat 120]
        1 4 2)).2.2.2.2.2.2.2.2.2.1 (by decide)⟩,
    ⟨by decide,
      ((error_leaves_state sample_pwm sample_button sample_ws sample_kernel 4 [] [Char.ofNat 120]
        1 4 4)).2.2.2.2.2.2.2.2.2.2.1 (by decide)⟩,
    ⟨by decide,
      ((error_leaves_state sample_pwm sample_button sample_ws sample_kernel 4 [] [Char.ofNat 120]
        1 4 4)).2.2.2.2.2.2.2.2.2.2.2.1 (by decide) (by decide)⟩,
    ⟨by decide,
      ((error_leaves_state sample_pwm sample_button sample_ws sample_kernel 4 [] [Char.ofNat 120]
        1 4 4)).2.2.2.2.2.2.2.2.2.2.2.2.1 (by decide) (by decide)⟩,
    ⟨by decide,
      ((error_leaves_state sample_pwm sample_button sample_ws sample_kernel 4 [] [Char.ofNat 120]
        1 4 4)).2.2.2.2.2.2.2.2.2.2.2.2.2 (by decide) (by decide)⟩⟩

/-! ## C10: power-on values written by pwm_rgb_probe -/

/-- C10: when the allocation, the mapping (at any base address) and the
registration of the misc device all succeed, pwm_rgb_probe returns 0, attaches
the private data, and, whatever the I/O memory held before, the registers then
read back as duty_red = 0xffff, duty_green = 0, duty_blue = 0 and
base_period = 0x1000. -/
theorem pwm_rgb_probe_power_on (k : kernel) (base : Nat) :
    (pwm_rgb.pwm_rgb_probe k true (Except.ok base) 0).ret = 0 ∧
    (pwm_rgb.pwm_rgb_probe k true (Except.ok base) 0).registered = true ∧
    ∃ priv : pwm_rgb.pwm_rgb_dev,
      (pwm_rgb.pwm_rgb_probe k true (Except.ok base) 0).drvdata = some priv ∧
      priv.base_addr = base ∧
      ioread32 (pwm_rgb.pwm_rgb_probe k true (Except.ok base) 0).k priv.duty_red = 0xffff ∧
      ioread32 (pwm_rgb.pwm_rgb_probe k true (Except.ok base) 0).k priv.duty_green = 0 ∧
      ioread32 (pwm_rgb.pwm_rgb_probe k true (Except.ok base) 0).k priv.duty_blue = 0 ∧
      ioread32 (pwm_rgb.pwm_rgb_probe k true (Except.ok base) 0).k priv.base_period = 0x1000 := by
  have hz : to_size_t 0 = 0 := by decide
  simp only [pwm_rgb.pwm_rgb_probe, hz, ne_eq, not_true_eq_false, if_false, Bool.not_eq_true,
    Bool.true_eq_false, pwm_rgb.DUTY_RED_OFFSET, pwm_rgb.DUTY_GREEN_OFFSET,
    pwm_rgb.DUTY_BLUE_OFFSET, pwm_rgb.BASE_PERIOD_OFFSET]
  refine ⟨trivial, trivial, _, rfl, rfl, ?_, ?_, ?_, ?_⟩ <;> dsimp only
  · rw [ioread32_iowrite32_disjoint _ _ _ _ (by omega),
      ioread32_iowrite32_disjoint _ _ _ _ (by omega),
      ioread32_iowrite32_disjoint _ _ _ _ (by omega), ioread32_iowrite32_same]
  · rw [ioread32_iowrite32_disjoint _ _ _ _ (by omega),
      ioread32_iowrite32_disjoint _ _ _ _ (by omega), ioread32_iowrite32_same]
  · rw [ioread32_iowrite32_disjoint _ _ _ _ (by omega), ioread32_iowrite32_same]
  · rw [ioread32_iowrite32_same]

/-! ### Facts about the parser and the printer -/

theorem radix_text_cons (base : Nat) (c : Char) (cs : List Char) :
    radix_text base (c :: cs) = true ↔
      (∃ d, digit_val c = some d ∧ d < base) ∧ radix_text base cs = true := by
  unfold radix_text
  rw [List.all_cons, Bool.and_eq_true]
  cases h : digit_val c with
  | none => simp
  | some d => simp

theorem radix_text_append (base : Nat) (as bs : List Char) :
    radix_text base (as ++ bs) = (radix_text base as && radix_text base bs) := by
  unfold radix_text
  rw [List.all_append]

theorem radix_fold_ge (base : Nat) (hb : 1 ≤ base) (cs : List Char) :
    ∀ res : Nat, res ≤ cs.foldl (fun r c => r * base + (digit_val c).getD 0) res := by
  induction cs with
  | nil => intro res; exact le_rfl
  | cons c cs ih =>
    intro res
    rw [List.foldl_cons]
    have h1 : res ≤ res * base + (digit_val c).getD 0 :=
      le_trans (Nat.le_mul_of_pos_right res hb) (Nat.le_add_right _ _)
    exact le_trans h1 (ih _)

theorem parse_integer_digits (base : Nat) (hb : 1 ≤ base) (cs : List Char) :
    ∀ (res rv : Nat) (ov : Bool), radix_text base cs = true →
      cs.foldl (fun r c => r * base + (digit_val c).getD 0) res < 2 ^ 60 →
      parse_integer cs base res rv ov =
        (cs.foldl (fun r c => r * base + (digit_val c).getD 0) res, rv + cs.length, ov) := by
  induction cs with
  | nil =>
    intro res rv ov _ _
    simp [parse_integer]
  | cons c cs ih =>
    intro res rv ov ht hlt
    rw [radix_text_cons] at ht
    obtain ⟨⟨d, hd, hdb⟩, hcs⟩ := ht
    rw [List.foldl_cons] at hlt ⊢
    have hge := radix_fold_ge base hb cs (res * base + (digit_val c).getD 0)
    have hd0 : (digit_val c).getD 0 = d := by rw [hd]; rfl
    rw [hd0] at hlt hge ⊢
    have hres : res < 2 ^ 60 := by
      have : res ≤ res * base + d :=
        le_trans (Nat.le_mul_of_pos_right res hb) (Nat.le_add_right _ _)
      omega
    have hmod : (res * base + d) % 2 ^ 64 = res * base + d := Nat.mod_eq_of_lt (by omega)
    have hov : (ov || (decide (res ≥ 2 ^ 60) && decide (res > (2 ^ 64 - 1 - d) / base))) = ov := by
      have : decide (res ≥ 2 ^ 60) = false := by
        rw [decide_eq_false_iff_not]
        omega
      rw [this]
      simp
    rw [parse_integer, hd]
    simp only [ge_iff_le, not_le.mpr hdb, if_false, hmod]
    rw [hov, ih (res * base + d) (rv + 1) ov hcs hlt, List.length_cons]
    congr 2
    omega

theorem digit_val_dec (d : Nat) (h : d < 10) :
    digit_val (Char.ofNat (48 + d)) = some d ∧ (Char.ofNat (48 + d)).toNat = 48 + d := by
  interval_cases d <;> exact ⟨rfl, rfl⟩

theorem put_dec_length (fuel : Nat) :
    ∀ (n : Nat) (acc : List Char), (put_dec fuel n acc).length ≤ fuel + acc.length := by
  induction fuel with
  | zero => intro n acc; simp [put_dec]
  | succ fuel ih =>
    intro n acc
    rw [put_dec]
    split_ifs
    · simp only [List.length_cons]
      omega
    · have := ih (n / 10) (Char.ofNat (48 + n % 10) :: acc)
      simp only [List.length_cons] at this
      omega

theorem put_dec_digits (fuel : Nat) :
    ∀ (n : Nat) (acc : List Char), n < 10 ^ fuel → n ≠ 0 →
      ∃ (c : Char) (cs : List Char), put_dec fuel n acc = (c :: cs) ++ acc ∧
        radix_text 10 (c :: cs) = true ∧ radix_value 10 (c :: cs) = n ∧
        49 ≤ c.toNat ∧ c.toNat ≤ 57 := by
  induction fuel with
  | zero =>
    intro n acc h h0
    simp at h
    exact absurd h h0
  | succ fuel ih =>
    intro n acc h h0
    have hd := digit_val_dec (n % 10) (Nat.mod_lt _ (by norm_num))
    rw [put_dec]
    split_ifs with hq
    · have hn : n % 10 = n := by omega
      refine ⟨Char.ofNat (48 + n % 10), [], rfl, ?_, ?_, ?_, ?_⟩
      · rw [radix_text_cons]
        exact ⟨⟨n % 10, hd.1, Nat.mod_lt _ (by norm_num)⟩, rfl⟩
      · simp only [radix_value, List.foldl_cons, List.foldl_nil, hd.1, Option.getD_some]
        omega
      · rw [hd.2]; omega
      · rw [hd.2]; omega
    · have hlt : n / 10 < 10 ^ fuel := by
        rw [Nat.div_lt_iff_lt_mul (by norm_num)]
        rw [pow_succ] at h
        exact h
      obtain ⟨c, cs, he, ht, hv, hc1, hc2⟩ := ih (n / 10) (Char.ofNat (48 + n % 10) :: acc) hlt hq
      refine ⟨c, cs ++ [Char.ofNat (48 + n % 10)], ?_, ?_, ?_, hc1, hc2⟩
      · rw [he]
        simp
      · have : c :: (cs ++ [Char.ofNat (48 + n % 10)]) = (c :: cs) ++ [Char.ofNat (48 + n % 10)] :=
          rfl
        rw [this, radix_text_append, ht, Bool.true_and, radix_text_cons]
        exact ⟨⟨n % 10, hd.1, Nat.mod_lt _ (by norm_num)⟩, rfl⟩
      · have : c :: (cs ++ [Char.ofNat (48 + n % 10)]) = (c :: cs) ++ [Char.ofNat (48 + n % 10)] :=
          rfl
        rw [this]
        unfold radix_value at hv ⊢
        rw [List.foldl_append, hv]
        simp only [List.foldl_cons, List.foldl_nil, hd.1, Option.getD_some]
        omega

theorem kstrtouint_of_fixup (s text : List Char) (base : Nat)
    (hplus : s.getD 0 (Char.ofNat 0) ≠ Char.ofNat 43)
    (hfix : parse_integer_fixup_radix s 0 = (text, base)) (hb : 1 ≤ base)
    (hne : text ≠ []) (ht : radix_text base text = true)
    (hv : radix_value base text < 4294967296) :
    kstrtouint s 0 = (0, radix_value base text) := by
  have hp : parse_integer text base 0 0 false = (radix_value base text, 0 + text.length, false) :=
    parse_integer_digits base hb text 0 0 false ht (by unfold radix_value at hv; omega)
  have hlen : 0 + text.length ≠ 0 := by
    have := List.length_pos.mpr hne
    omega
  have hdrop : List.drop (0 + text.length) text = [] := by
    rw [Nat.zero_add, List.drop_length]
  have hmod : radix_value base text % 4294967296 = radix_value base text :=
    Nat.mod_eq_of_lt hv
  unfold kstrtouint kstrtoull
  simp only [if_neg hplus, hfix, hp, hdrop, hlen, if_false, List.getD_nil, List.drop_nil,
    ne_eq, not_true_eq_false, Bool.false_eq_true, ite_self]
  simp only [lt_self_iff_false, if_false, hmod, not_true_eq_false]

theorem kstrtouint_decimal (c : Char) (cs : List Char) (hc1 : 49 ≤ c.toNat)
    (ht : radix_text 10 (c :: cs) = true) (hv : radix_value 10 (c :: cs) < 4294967296) :
    kstrtouint (c :: cs) 0 = (0, radix_value 10 (c :: cs)) := by
  have hplus : (c :: cs).getD 0 (Char.ofNat 0) ≠ Char.ofNat 43 := by
    intro h
    simp only [List.getD_cons_zero] at h
    rw [h] at hc1
    revert hc1
    decide
  have hfix : parse_integer_fixup_radix (c :: cs) 0 = (c :: cs, 10) := by
    have h48 : c.toNat ≠ 48 := by omega
    simp [parse_integer_fixup_radix, h48]
  exact kstrtouint_of_fixup (c :: cs) (c :: cs) 10 hplus hfix (by norm_num)
    (List.cons_ne_nil c cs) ht hv

theorem octal_digit_not_x (c : Char) (d : Nat) (h : digit_val c = some d) (hd : d < 8) :
    (c.toNat ||| 0x20) ≠ 120 := by
  unfold digit_val at h
  dsimp only at h
  split_ifs at h with h1 h2
  · obtain ⟨h1a, h1b⟩ := h1
    have hn : c.toNat ≤ 55 := by
      simp only [Option.some.injEq] at h
      omega
    generalize c.toNat = n at h1a hn
    interval_cases n <;> decide
  · simp only [Option.some.injEq] at h
    omega

theorem kstrtouint_octal (cs : List Char) (ht : radix_text 8 cs = true)
    (hv : radix_value 8 (Char.ofNat 48 :: cs) < 4294967296) :
    kstrtouint (Char.ofNat 48 :: cs) 0 = (0, radix_value 8 (Char.ofNat 48 :: cs)) := by
  have hplus : (Char.ofNat 48 :: cs).getD 0 (Char.ofNat 0) ≠ Char.ofNat 43 := by
    simp only [List.getD_cons_zero]
    decide
  have h0 : (Char.ofNat 48).toNat = 48 := rfl
  have hx : ((List.getD (Char.ofNat 48 :: cs) 1 (Char.ofNat 0)).toNat ||| 0x20) ≠ 120 := by
    cases cs with
    | nil => decide
    | cons c cs =>
      rw [radix_text_cons] at ht
      obtain ⟨⟨d, hd, hd8⟩, _⟩ := ht
      simpa using octal_digit_not_x c d hd hd8
  have hfix : parse_integer_fixup_radix (Char.ofNat 48 :: cs) 0 = (Char.ofNat 48 :: cs, 8) := by
    unfold parse_integer_fixup_radix
    simp only [List.getD_cons_zero, h0, hx, false_and, if_true, if_false, and_false]
  have ht2 : radix_text 8 (Char.ofNat 48 :: cs) = true := by
    rw [radix_text_cons]
    exact ⟨⟨0, rfl, by norm_num⟩, ht⟩
  exact kstrtouint_of_fixup _ _ 8 hplus hfix (by norm_num) (List.cons_ne_nil _ _) ht2 hv

theorem kstrtouint_hex (x c : Char) (cs : List Char)
    (hx : x = Char.ofNat 120 ∨ x = Char.ofNat 88)
    (ht : radix_text 16 (c :: cs) = true) (hv : radix_value 16 (c :: cs) < 4294967296) :
    kstrtouint (Char.ofNat 48 :: x :: c :: cs) 0 = (0, radix_value 16 (c :: cs)) := by
  have hplus : (Char.ofNat 48 :: x :: c :: cs).getD 0 (Char.ofNat 0) ≠ Char.ofNat 43 := by
    simp only [List.getD_cons_zero]
    decide
  have h0 : (Char.ofNat 48).toNat = 48 := rfl
  have hx2 : (x.toNat ||| 0x20) = 120 := by
    rcases hx with h | h <;> rw [h] <;> rfl
  have hc : (digit_val c).isSome = true := by
    rw [radix_text_cons] at ht
    obtain ⟨⟨d, hd, _⟩, _⟩ := ht
    rw [hd]
    rfl
  have hfix : parse_integer_fixup_radix (Char.ofNat 48 :: x :: c :: cs) 0 = (c :: cs, 16) := by
    unfold parse_integer_fixup_radix
    simp [h0, hx2, hc]
  exact kstrtouint_of_fixup _ _ 16 hplus hfix (by norm_num) (List.cons_ne_nil _ _) ht hv

theorem kstrtouint_ok_lt (s : List Char) (base v : Nat) (h : kstrtouint s base = (0, v)) :
    v < 4294967296 := by
  unfold kstrtouint at h
  dsimp only at h
  split_ifs at h with h1 h2
  · simp only [Prod.mk.injEq] at h
    omega
  · simp only [Prod.mk.injEq] at h
    exact absurd h.1 (by decide)
  · simp only [Prod.mk.injEq] at h
    rw [← h.2]
    have : (kstrtoull s base).2 = (kstrtoull s base).2 % 4294967296 := not_not.mp h2
    omega

theorem kstrtouint_fmt_u (v : Nat) (hv : v < 4294967296) : kstrtouint (fmt_u v) 0 = (0, v) := by
  by_cases h0 : v = 0
  · rw [h0]
    decide
  · have hlt : v % 4294967296 < 10 ^ 10 := by
      rw [Nat.mod_eq_of_lt hv]
      omega
    have hne : v % 4294967296 ≠ 0 := by
      rw [Nat.mod_eq_of_lt hv]
      exact h0
    obtain ⟨c, cs, he, ht, hval, hc1, _⟩ := put_dec_digits 10 (v % 4294967296) [] hlt hne
    have hf : fmt_u v = c :: cs := by
      unfold fmt_u
      rw [he, List.append_nil]
    rw [hf, kstrtouint_decimal c cs hc1 ht (by rw [hval]; exact Nat.mod_lt _ (by norm_num)),
      hval, Nat.mod_eq_of_lt hv]

theorem fmt_u_length (v : Nat) : (fmt_u v).length ≤ 10 := by
  have := put_dec_length 10 (v % 4294967296) []
  simpa [fmt_u] using this

/-! ### Paths of the attribute surface -/

theorem scnprintf_fmt_u (w : Nat) :
    scnprintf PAGE_SIZE (fmt_u w ++ [Char.ofNat 10]) =
      (fmt_u w ++ [Char.ofNat 10], (fmt_u w).length + 1) := by
  have hl := fmt_u_length w
  have hlen : (fmt_u w ++ [Char.ofNat 10]).length = (fmt_u w).length + 1 := by
    rw [List.length_append]
    rfl
  unfold scnprintf
  rw [List.take_of_length_le (by rw [hlen]; unfold PAGE_SIZE; omega), hlen]

theorem fmt_u_value (v : Nat) (hv : v < 4294967296) :
    radix_text 10 (fmt_u v) = true ∧ radix_value 10 (fmt_u v) = v := by
  by_cases h0 : v = 0
  · rw [h0]
    decide
  · have hm : v % 4294967296 = v := Nat.mod_eq_of_lt hv
    obtain ⟨c, cs, he, ht, hval, _, _⟩ :=
      put_dec_digits 10 (v % 4294967296) [] (by rw [hm]; omega) (by rw [hm]; exact h0)
    have hf : fmt_u v = c :: cs := by
      unfold fmt_u
      rw [he, List.append_nil]
    rw [hf]
    exact ⟨ht, by rw [hval, hm]⟩

theorem duty_red_store_ok (priv : pwm_rgb.pwm_rgb_dev) (k : kernel) (text : List Char) (size v : Nat)
    (h : kstrtouint text 0 = (0, v)) :
    pwm_rgb.duty_red_store priv k text size =
      { ret := to_ssize_t size, k := iowrite32 v priv.duty_red k } := by
  unfold pwm_rgb.duty_red_store
  simp only [h, lt_self_iff_false, if_false]

theorem duty_red_store_err (priv : pwm_rgb.pwm_rgb_dev) (k : kernel) (text : List Char) (size : Nat)
    (h : (kstrtouint text 0).1 < 0) :
    pwm_rgb.duty_red_store priv k text size = { ret := (kstrtouint text 0).1, k := k } := by
  unfold pwm_rgb.duty_red_store
  simp only [h, if_true]

theorem duty_red_show_eq (priv : pwm_rgb.pwm_rgb_dev) (k : kernel) :
    pwm_rgb.duty_red_show priv k =
      { ret := (((fmt_u (ioread32 k priv.duty_red)).length + 1 : Nat) : Int),
        buf := fmt_u (ioread32 k priv.duty_red) ++ [Char.ofNat 10] } := by
  unfold pwm_rgb.duty_red_show
  simp only [scnprintf_fmt_u]

theorem duty_green_store_ok (priv : pwm_rgb.pwm_rgb_dev) (k : kernel) (text : List Char) (size v : Nat)
    (h : kstrtouint text 0 = (0, v)) :
    pwm_rgb.duty_green_store priv k text size =
      { ret := to_ssize_t size, k := iowrite32 v priv.duty_green k } := by
  unfold pwm_rgb.duty_green_store
  simp only [h, lt_self_iff_false, if_false]

theorem duty_green_store_err (priv : pwm_rgb.pwm_rgb_dev) (k : kernel) (text : List Char) (size : Nat)
    (h : (kstrtouint text 0).1 < 0) :
    pwm_rgb.duty_green_store priv k text size = { ret := (kstrtouint text 0).1, k := k } := by
  unfold pwm_rgb.duty_green_store
  simp only [h, if_true]

theorem duty_green_show_eq (priv : pwm_rgb.pwm_rgb_dev) (k : kernel) :
    pwm_rgb.duty_green_show priv k =
      { ret := (((fmt_u (ioread32 k priv.duty_green)).length + 1 : Nat) : Int),
        buf := fmt_u (ioread32 k priv.duty_green) ++ [Char.ofNat 10] } := by
  unfold pwm_rgb.duty_green_show
  simp only [scnprintf_fmt_u]

theorem duty_blue_store_ok (priv : pwm_rgb.pwm_rgb_dev) (k : kernel) (text : List Char) (size v : Nat)
    (h : kstrtouint text 0 = (0, v)) :
    pwm_rgb.duty_blue_store priv k text size =
      { ret := to_ssize_t size, k := iowrite32 v priv.duty_blue k } := by
  unfold pwm_rgb.duty_blue_store
  simp only [h, lt_self_iff_false, if_false]

theorem duty_blue_store_err (priv : pwm_rgb.pwm_rgb_dev) (k : kernel) (text : List Char) (size : Nat)
    (h : (kstrtouint text 0).1 < 0) :
    pwm_rgb.duty_blue_store priv k text size = { ret := (kstrtouint text 0).1, k := k } := by
  unfold pwm_rgb.duty_blue_store
  simp only [h, if_true]

theorem duty_blue_show_eq (priv : pwm_rgb.pwm_rgb_dev) (k : kernel) :
    pwm_rgb.duty_blue_show priv k =
      { ret := (((fmt_u (ioread32 k priv.duty_blue)).length + 1 : Nat) : Int),
        buf := fmt_u (ioread32 k priv.duty_blue) ++ [Char.ofNat 10] } := by
  unfold pwm_rgb.duty_blue_show
  simp only [scnprintf_fmt_u]

theorem base_period_store_ok (priv : pwm_rgb.pwm_rgb_dev) (k : kernel) (text : List Char) (size v : Nat)
    (h : kstrtouint text 0 = (0, v)) :
    pwm_rgb.base_period_store priv k text size =
      { ret := to_ssize_t size, k := iowrite32 v priv.base_period k } := by
  unfold pwm_rgb.base_period_store
  simp only [h, lt_self_iff_false, if_false]

theorem base_period_store_err (priv : pwm_rgb.pwm_rgb_dev) (k : kernel) (text : List Char) (size : Nat)
    (h : (kstrtouint text 0).1 < 0) :
    pwm_rgb.base_period_store priv k text size = { ret := (kstrtouint text 0).1, k := k } := by
  unfold pwm_rgb.base_period_store
  simp only [h, if_true]

theorem base_period_show_eq (priv : pwm_rgb.pwm_rgb_dev) (k : kernel) :
    pwm_rgb.base_period_show priv k =
      { ret := (((fmt_u (ioread32 k priv.base_period)).length + 1 : Nat) : Int),
        buf := fmt_u (ioread32 k priv.base_period) ++ [Char.ofNat 10] } := by
  unfold pwm_rgb.base_period_show
  simp only [scnprintf_fmt_u]

theorem stop_button_store_ok (priv : stop_button.stop_button_dev) (k : kernel) (text : List Char) (size v : Nat)
    (h : kstrtouint text 0 = (0, v)) :
    stop_button.stop_button_store priv k text size =
      { ret := to_ssize_t size, k := iowrite32 v priv.stop_button k } := by
  unfold stop_button.stop_button_store
  simp only [h, lt_self_iff_false, if_false]

theorem stop_button_store_err (priv : stop_button.stop_button_dev) (k : kernel) (text : List Char) (size : Nat)
    (h : (kstrtouint text 0).1 < 0) :
    stop_button.stop_button_store priv k text size = { ret := (kstrtouint text 0).1, k := k } := by
  unfold stop_button.stop_button_store
  simp only [h, if_true]

theorem stop_button_show_eq (priv : stop_button.stop_button_dev) (k : kernel) :
    stop_button.stop_button_show priv k =
      { ret := (((fmt_u (ioread32 k priv.stop_button)).length + 1 : Nat) : Int),
        buf := fmt_u (ioread32 k priv.stop_button) ++ [Char.ofNat 10] } := by
  unfold stop_button.stop_button_show
  simp only [scnprintf_fmt_u]

theorem rgb_all_store_ok (priv : ws2811.ws2811_dev) (k : kernel) (text : List Char) (size v : Nat)
    (h : kstrtouint text 0 = (0, v)) :
    ws2811.rgb_all_store priv k text size =
      { ret := to_ssize_t size, k := iowrite32 v priv.rgb_all k } := by
  unfold ws2811.rgb_all_store
  simp only [h, lt_self_iff_false, if_false]

theorem rgb_all_store_err (priv : ws2811.ws2811_dev) (k : kernel) (text : List Char) (size : Nat)
    (h : (kstrtouint text 0).1 < 0) :
    ws2811.rgb_all_store priv k text size = { ret := (kstrtouint text 0).1, k := k } := by
  unfold ws2811.rgb_all_store
  simp only [h, if_true]

theorem rgb_all_show_eq (priv : ws2811.ws2811_dev) (k : kernel) :
    ws2811.rgb_all_show priv k =
      { ret := (((fmt_u (ioread32 k priv.rgb_all)).length + 1 : Nat) : Int),
        buf := fmt_u (ioread32 k priv.rgb_all) ++ [Char.ofNat 10] } := by
  unfold ws2811.rgb_all_show
  simp only [scnprintf_fmt_u]

theorem rgb_single_store_ok (priv : ws2811.ws2811_dev) (k : kernel) (text : List Char) (size v : Nat)
    (h : kstrtouint text 0 = (0, v)) :
    ws2811.rgb_single_store priv k text size =
      { ret := to_ssize_t size, k := iowrite32 v priv.rgb_single k } := by
  unfold ws2811.rgb_single_store
  simp only [h, lt_self_iff_false, if_false]

theorem rgb_single_store_err (priv : ws2811.ws2811_dev) (k : kernel) (text : List Char) (size : Nat)
    (h : (kstrtouint text 0).1 < 0) :
    ws2811.rgb_single_store priv k text size = { ret := (kstrtouint text 0).1, k := k } := by
  unfold ws2811.rgb_single_store
  simp only [h, if_true]

theorem rgb_single_show_eq (priv : ws2811.ws2811_dev) (k : kernel) :
    ws2811.rgb_single_show priv k =
      { ret := (((fmt_u (ioread32 k priv.rgb_single)).length + 1 : Nat) : Int),
        buf := fmt_u (ioread32 k priv.rgb_single) ++ [Char.ofNat 10] } := by
  unfold ws2811.rgb_single_show
  simp only [scnprintf_fmt_u]

theorem strip_index_store_ok (priv : ws2811.ws2811_dev) (k : kernel) (text : List Char) (size v : Nat)
    (h : kstrtouint text 0 = (0, v)) :
    ws2811.strip_index_store priv k text size =
      { ret := to_ssize_t size, k := iowrite32 v priv.strip_index k } := by
  unfold ws2811.strip_index_store
  simp only [h, lt_self_iff_false, if_false]

theorem strip_index_store_err (priv : ws2811.ws2811_dev) (k : kernel) (text : List Char) (size : Nat)
    (h : (kstrtouint text 0).1 < 0) :
    ws2811.strip_index_store priv k text size = { ret := (kstrtouint text 0).1, k := k } := by
  unfold ws2811.strip_index_store
  simp only [h, if_true]

theorem strip_index_show_eq (priv : ws2811.ws2811_dev) (k : kernel) :
    ws2811.strip_index_show priv k =
      { ret := (((fmt_u (ioread32 k priv.strip_index)).length + 1 : Nat) : Int),
        buf := fmt_u (ioread32 k priv.strip_index) ++ [Char.ofNat 10] } := by
  unfold ws2811.strip_index_show
  simp only [scnprintf_fmt_u]

/-! ## C11: attribute store followed by attribute show -/

/-- C11: for every register of the three drivers and every 32-bit value v, the
`%u` text of v is made of decimal digits whose value is v, and an attribute
store of that text followed by an attribute show of the same register leaves
in the page exactly that text followed by one newline, show returning the
length of the page text. -/
theorem attribute_store_then_show (pp : pwm_rgb.pwm_rgb_dev) (sp : stop_button.stop_button_dev)
    (wp : ws2811.ws2811_dev)
    (k : kernel) (v size : Nat) (hv : v < 4294967296) :
    radix_text 10 (fmt_u v) = true ∧ radix_value 10 (fmt_u v) = v ∧
    ((pwm_rgb.duty_red_show pp (pwm_rgb.duty_red_store pp k (fmt_u v) size).k).buf =
        fmt_u v ++ [Char.ofNat 10] ∧
      (pwm_rgb.duty_red_show pp (pwm_rgb.duty_red_store pp k (fmt_u v) size).k).ret =
        (((fmt_u v ++ [Char.ofNat 10]).length : Nat) : Int)) ∧
    ((pwm_rgb.duty_green_show pp (pwm_rgb.duty_green_store pp k (fmt_u v) size).k).buf =
        fmt_u v ++ [Char.ofNat 10] ∧
      (pwm_rgb.duty_green_show pp (pwm_rgb.duty_green_store pp k (fmt_u v) size).k).ret =
        (((fmt_u v ++ [Char.ofNat 10]).length : Nat) : Int)) ∧
    ((pwm_rgb.duty_blue_show pp (pwm_rgb.duty_blue_store pp k (fmt_u v) size).k).buf =
        fmt_u v ++ [Char.ofNat 10] ∧
      (pwm_rgb.duty_blue_show pp (pwm_rgb.duty_blue_store pp k (fmt_u v) size).k).ret =
        (((fmt_u v ++ [Char.ofNat 10]).length : Nat) : Int)) ∧
    ((pwm_rgb.base_period_show pp (pwm_rgb.base_period_store pp k (fmt_u v) size).k).buf =
        fmt_u v ++ [Char.ofNat 10] ∧
      (pwm_rgb.base_period_show pp (pwm_rgb.base_period_store pp k (fmt_u v) size).k).ret =
        (((fmt_u v ++ [Char.ofNat 10]).length : Nat) : Int)) ∧
    ((stop_button.stop_button_show sp (stop_button.stop_button_store sp k (fmt_u v) size).k).buf =
        fmt_u v ++ [Char.ofNat 10] ∧
      (stop_button.stop_button_show sp (stop_button.stop_button_store sp k (fmt_u v) size).k).ret =
        (((fmt_u v ++ [Char.ofNat 10]).length : Nat) : Int)) ∧
    ((ws2811.rgb_all_show wp (ws2811.rgb_all_store wp k (fmt_u v) size).k).buf =
        fmt_u v ++ [Char.ofNat 10] ∧
      (ws2811.rgb_all_show wp (ws2811.rgb_all_store wp k (fmt_u v) size).k).ret =
        (((fmt_u v ++ [Char.ofNat 10]).length : Nat) : Int)) ∧
    ((ws2811.rgb_single_show wp (ws2811.rgb_single_store wp k (fmt_u v) size).k).buf =
        fmt_u v ++ [Char.ofNat 10] ∧
      (ws2811.rgb_single_show wp (ws2811.rgb_single_store wp k (fmt_u v) size).k).ret =
        (((fmt_u v ++ [Char.ofNat 10]).length : Nat) : Int)) ∧
    ((ws2811.strip_index_show wp (ws2811.strip_index_store wp k (fmt_u v) size).k).buf =
        fmt_u v ++ [Char.ofNat 10] ∧
      (ws2811.strip_index_show wp (ws2811.strip_index_store wp k (fmt_u v) size).k).ret =
        (((fmt_u v ++ [Char.ofNat 10]).length : Nat) : Int)) := by
  have hk := kstrtouint_fmt_u v hv
  have hm : v % 4294967296 = v := Nat.mod_eq_of_lt hv
  refine ⟨(fmt_u_value v hv).1, (fmt_u_value v hv).2, ?_, ?_, ?_, ?_, ?_, ?_, ?_, ?_⟩
  · rw [duty_red_store_ok pp k (fmt_u v) size v hk, duty_red_show_eq]
    simp only [ioread32_iowrite32_same, hm, List.length_append, List.length_singleton]
    exact ⟨trivial, trivial⟩
  · rw [duty_green_store_ok pp k (fmt_u v) size v hk, duty_green_show_eq]
    simp only [ioread32_iowrite32_same, hm, List.length_append, List.length_singleton]
    exact ⟨trivial, trivial⟩
  · rw [duty_blue_store_ok pp k (fmt_u v) size v hk, duty_blue_show_eq]
    simp only [ioread32_iowrite32_same, hm, List.length_append, List.length_singleton]
    exact ⟨trivial, trivial⟩
  · rw [base_period_store_ok pp k (fmt_u v) size v hk, base_period_show_eq]
    simp only [ioread32_iowrite32_same, hm, List.length_append, List.length_singleton]
    exact ⟨trivial, trivial⟩
  · rw [stop_button_store_ok sp k (fmt_u v) size v hk, stop_button_show_eq]
    simp only [ioread32_iowrite32_same, hm, List.length_append, List.length_singleton]
    exact ⟨trivial, trivial⟩
  · rw [rgb_all_store_ok wp k (fmt_u v) size v hk, rgb_all_show_eq]
    simp only [ioread32_iowrite32_same, hm, List.length_append, List.length_singleton]
    exact ⟨trivial, trivial⟩
  · rw [rgb_single_store_ok wp k (fmt_u v) size v hk, rgb_single_show_eq]
    simp only [ioread32_iowrite32_same, hm, List.length_append, List.length_singleton]
    exact ⟨trivial, trivial⟩
  · rw [strip_index_store_ok wp k (fmt_u v) size v hk, strip_index_show_eq]
    simp only [ioread32_iowrite32_same, hm, List.length_append, List.length_singleton]
    exact ⟨trivial, trivial⟩

/-- C11, witness: the theorem applied to the value 4096, whose text is 4096:
show then yields 4096 followed by a newline, 5 characters. -/
theorem attribute_store_then_show_witness :
    4096 < 4294967296 ∧ fmt_u 4096 = ['4', '0', '9', '6'] ∧
    ((pwm_rgb.duty_red_show sample_pwm (pwm_rgb.duty_red_store sample_pwm sample_kernel ['4', '0', '9', '6'] 4).k).buf =
        ['4', '0', '9', '6', Char.ofNat 10] ∧
      (pwm_rgb.duty_red_show sample_pwm (pwm_rgb.duty_red_store sample_pwm sample_kernel ['4', '0', '9', '6'] 4).k).ret = 5) ∧
    ((pwm_rgb.duty_green_show sample_pwm (pwm_rgb.duty_green_store sample_pwm sample_kernel ['4', '0', '9', '6'] 4).k).buf =
        ['4', '0', '9', '6', Char.ofNat 10] ∧
      (pwm_rgb.duty_green_show sample_pwm (pwm_rgb.duty_green_store sample_pwm sample_kernel ['4', '0', '9', '6'] 4).k).ret = 5) ∧
    ((pwm_rgb.duty_blue_show sample_pwm (pwm_rgb.duty_blue_store sample_pwm sample_kernel ['4', '0', '9', '6'] 4).k).buf =
        ['4', '0', '9', '6', Char.ofNat 10] ∧
      (pwm_rgb.duty_blue_show sample_pwm (pwm_rgb.duty_blue_store sample_pwm sample_kernel ['4', '0', '9', '6'] 4).k).ret = 5) ∧
    ((pwm_rgb.base_period_show sample_pwm (pwm_rgb.base_period_store sample_pwm sample_kernel ['4', '0', '9', '6'] 4).k).buf =
        ['4', '0', '9', '6', Char.ofNat 10] ∧
      (pwm_rgb.base_period_show sample_pwm (pwm_rgb.base_period_store sample_pwm sample_kernel ['4', '0', '9', '6'] 4).k).ret = 5) ∧
    ((stop_button.stop_button_show sample_button (stop_button.stop_button_store sample_button sample_kernel ['4', '0', '9', '6'] 4).k).buf =
        ['4', '0', '9', '6', Char.ofNat 10] ∧
      (stop_button.stop_button_show sample_button (stop_button.stop_button_store sample_button sample_kernel ['4', '0', '9', '6'] 4).k).ret = 5) ∧
    ((ws2811.rgb_all_show sample_ws (ws2811.rgb_all_store sample_ws sample_kernel ['4', '0', '9', '6'] 4).k).buf =
        ['4', '0', '9', '6', Char.ofNat 10] ∧
      (ws2811.rgb_all_show sample_ws (ws2811.rgb_all_store sample_ws sample_kernel ['4', '0', '9', '6'] 4).k).ret = 5) ∧
    ((ws2811.rgb_single_show sample_ws (ws2811.rgb_single_store sample_ws sample_kernel ['4', '0', '9', '6'] 4).k).buf =
        ['4', '0', '9', '6', Char.ofNat 10] ∧
      (ws2811.rgb_single_show sample_ws (ws2811.rgb_single_store sample_ws sample_kernel ['4', '0', '9', '6'] 4).k).ret = 5) ∧
    ((ws2811.strip_index_show sample_ws (ws2811.strip_index_store sample_ws sample_kernel ['4', '0', '9', '6'] 4).k).buf =
        ['4', '0', '9', '6', Char.ofNat 10] ∧
      (ws2811.strip_index_show sample_ws (ws2811.strip_index_store sample_ws sample_kernel ['4', '0', '9', '6'] 4).k).ret = 5) :=
  ⟨by decide, by decide,
    (attribute_store_then_show sample_pwm sample_button sample_ws sample_kernel 4096 4
      (by decide)).2.2.1,
    (attribute_store_then_show sample_pwm sample_button sample_ws sample_kernel 4096 4
      (by decide)).2.2.2.1,
    (attribute_store_then_show sample_pwm sample_button sample_ws sample_kernel 4096 4
      (by decide)).2.2.2.2.1,
    (attribute_store_then_show sample_pwm sample_button sample_ws sample_kernel 4096 4
      (by decide)).2.2.2.2.2.1,
    (attribute_store_then_show sample_pwm sample_button sample_ws sample_kernel 4096 4
      (by decide)).2.2.2.2.2.2.1,
    (attribute_store_then_show sample_pwm sample_button sample_ws sample_kernel 4096 4
      (by decide)).2.2.2.2.2.2.2.1,
    (attribute_store_then_show sample_pwm sample_button sample_ws sample_kernel 4096 4
      (by decide)).2.2.2.2.2.2.2.2.1,
    (attribute_store_then_show sample_pwm sample_button sample_ws sample_kernel 4096 4
      (by decide)).2.2.2.2.2.2.2.2.2⟩

/-! ## C12: attribute store of a text that does not parse -/

/-- C12: a text that is not a number is rejected by kstrtouint with -EINVAL
and one whose value does not fit 32 bits with -ERANGE; for every attribute
store handler of the three drivers and every text that kstrtouint rejects, the
handler returns that negative code itself and the machine (I/O memory and the
log of stores) is the same after the call as before it. -/
theorem store_rejects_bad_text (pp : pwm_rgb.pwm_rgb_dev) (sp : stop_button.stop_button_dev)
    (wp : ws2811.ws2811_dev)
    (k : kernel) (text : List Char) (size : Nat) :
    kstrtouint ['a', 'b', 'c'] 0 = (-EINVAL, 0) ∧
    kstrtouint ['4', '2', '9', '4', '9', '6', '7', '2', '9', '6'] 0 = (-ERANGE, 0) ∧
    ((kstrtouint text 0).1 < 0 →
      (pwm_rgb.duty_red_store pp k text size).ret = (kstrtouint text 0).1 ∧
      (pwm_rgb.duty_red_store pp k text size).ret < 0 ∧
      (pwm_rgb.duty_red_store pp k text size).k = k) ∧
    ((kstrtouint text 0).1 < 0 →
      (pwm_rgb.duty_green_store pp k text size).ret = (kstrtouint text 0).1 ∧
      (pwm_rgb.duty_green_store pp k text size).ret < 0 ∧
      (pwm_rgb.duty_green_store pp k text size).k = k) ∧
    ((kstrtouint text 0).1 < 0 →
      (pwm_rgb.duty_blue_store pp k text size).ret = (kstrtouint text 0).1 ∧
      (pwm_rgb.duty_blue_store pp k text size).ret < 0 ∧
      (pwm_rgb.duty_blue_store pp k text size).k = k) ∧
    ((kstrtouint text 0).1 < 0 →
      (pwm_rgb.base_period_store pp k text size).ret = (kstrtouint text 0).1 ∧
      (pwm_rgb.base_period_store pp k text size).ret < 0 ∧
      (pwm_rgb.base_period_store pp k text size).k = k) ∧
    ((kstrtouint text 0).1 < 0 →
      (stop_button.stop_button_store sp k text size).ret = (kstrtouint text 0).1 ∧
      (stop_button.stop_button_store sp k text size).ret < 0 ∧
      (stop_button.stop_button_store sp k text size).k = k) ∧
    ((kstrtouint text 0).1 < 0 →
      (ws2811.rgb_all_store wp k text size).ret = (kstrtouint text 0).1 ∧
      (ws2811.rgb_all_store wp k text size).ret < 0 ∧
      (ws2811.rgb_all_store wp k text size).k = k) ∧
    ((kstrtouint text 0).1 < 0 →
      (ws2811.rgb_single_store wp k text size).ret = (kstrtouint text 0).1 ∧
      (ws2811.rgb_single_store wp k text size).ret < 0 ∧
      (ws2811.rgb_single_store wp k text size).k = k) ∧
    ((kstrtouint text 0).1 < 0 →
      (ws2811.strip_index_store wp k text size).ret = (kstrtouint text 0).1 ∧
      (ws2811.strip_index_store wp k text size).ret < 0 ∧
      (ws2811.strip_index_store wp k text size).k = k) := by
  refine ⟨by decide, by decide, ?_, ?_, ?_, ?_, ?_, ?_, ?_, ?_⟩
  · intro h
    rw [duty_red_store_err pp k text size h]
    exact ⟨rfl, h, rfl⟩
  · intro h
    rw [duty_green_store_err pp k text size h]
    exact ⟨rfl, h, rfl⟩
  · intro h
    rw [duty_blue_store_err pp k text size h]
    exact ⟨rfl, h, rfl⟩
  · intro h
    rw [base_period_store_err pp k text size h]
    exact ⟨rfl, h, rfl⟩
  · intro h
    rw [stop_button_store_err sp k text size h]
    exact ⟨rfl, h, rfl⟩
  · intro h
    rw [rgb_all_store_err wp k text size h]
    exact ⟨rfl, h, rfl⟩
  · intro h
    rw [rgb_single_store_err wp k text size h]
    exact ⟨rfl, h, rfl⟩
  · intro h
    rw [strip_index_store_err wp k text size h]
    exact ⟨rfl, h, rfl⟩

/-- C12, witness: the theorem applied to the text abc. -/
theorem store_rejects_bad_text_witness :
    (kstrtouint ['a', 'b', 'c'] 0).1 < 0 ∧
    ((pwm_rgb.duty_red_store sample_pwm sample_kernel ['a', 'b', 'c'] 3).ret = -EINVAL ∧
      (pwm_rgb.duty_red_store sample_pwm sample_kernel ['a', 'b', 'c'] 3).k = sample_kernel) ∧
    ((pwm_rgb.duty_green_store sample_pwm sample_kernel ['a', 'b', 'c'] 3).ret = -EINVAL ∧
      (pwm_rgb.duty_green_store sample_pwm sample_kernel ['a', 'b', 'c'] 3).k = sample_kernel) ∧
    ((pwm_rgb.duty_blue_store sample_pwm sample_kernel ['a', 'b', 'c'] 3).ret = -EINVAL ∧
      (pwm_rgb.duty_blue_store sample_pwm sample_kernel ['a', 'b', 'c'] 3).k = sample_kernel) ∧
    ((pwm_rgb.base_period_store sample_pwm sample_kernel ['a', 'b', 'c'] 3).ret = -EINVAL ∧
      (pwm_rgb.base_period_store sample_pwm sample_kernel ['a', 'b', 'c'] 3).k = sample_kernel) ∧
    ((stop_button.stop_button_store sample_button sample_kernel ['a', 'b', 'c'] 3).ret = -EINVAL ∧
      (stop_button.stop_button_store sample_button sample_kernel ['a', 'b', 'c'] 3).k = sample_kernel) ∧
    ((ws2811.rgb_all_store sample_ws sample_kernel ['a', 'b', 'c'] 3).ret = -EINVAL ∧
      (ws2811.rgb_all_store sample_ws sample_kernel ['a', 'b', 'c'] 3).k = sample_kernel) ∧
    ((ws2811.rgb_single_store sample_ws sample_kernel ['a', 'b', 'c'] 3).ret = -EINVAL ∧
      (ws2811.rgb_single_store sample_ws sample_kernel ['a', 'b', 'c'] 3).k = sample_kernel) ∧
    ((ws2811.strip_index_store sample_ws sample_kernel ['a', 'b', 'c'] 3).ret = -EINVAL ∧
      (ws2811.strip_index_store sample_ws sample_kernel ['a', 'b', 'c'] 3).k = sample_kernel) :=
  ⟨by decide,
    by
      have h := (store_rejects_bad_text sample_pwm sample_button sample_ws sample_kernel
        ['a', 'b', 'c'] 3).2.2.1 (by decide)
      exact ⟨h.1.trans (by decide), h.2.2⟩,
    by
      have h := (store_rejects_bad_text sample_pwm sample_button sample_ws sample_kernel
        ['a', 'b', 'c'] 3).2.2.2.1 (by decide)
      exact ⟨h.1.trans (by decide), h.2.2⟩,
    by
      have h := (store_rejects_bad_text sample_pwm sample_button sample_ws sample_kernel
        ['a', 'b', 'c'] 3).2.2.2.2.1 (by decide)
      exact ⟨h.1.trans (by decide), h.2.2⟩,
    by
      have h := (store_rejects_bad_text sample_pwm sample_button sample_ws sample_kernel
        ['a', 'b', 'c'] 3).2.2.2.2.2.1 (by decide)
      exact ⟨h.1.trans (by decide), h.2.2⟩,
    by
      have h := (store_rejects_bad_text sample_pwm sample_button sample_ws sample_kernel
        ['a', 'b', 'c'] 3).2.2.2.2.2.2.1 (by decide)
      exact ⟨h.1.trans (by decide), h.2.2⟩,
    by
      have h := (store_rejects_bad_text sample_pwm sample_button sample_ws sample_kernel
        ['a', 'b', 'c'] 3).2.2.2.2.2.2.2.1 (by decide)
      exact ⟨h.1.trans (by decide), h.2.2⟩,
    by
      have h := (store_rejects_bad_text sample_pwm sample_button sample_ws sample_kernel
        ['a', 'b', 'c'] 3).2.2.2.2.2.2.2.2.1 (by decide)
      exact ⟨h.1.trans (by decide), h.2.2⟩,
    by
      have h := (store_rejects_bad_text sample_pwm sample_button sample_ws sample_kernel
        ['a', 'b', 'c'] 3).2.2.2.2.2.2.2.2.2 (by decide)
      exact ⟨h.1.trans (by decide), h.2.2⟩⟩

/-! ## C13: how an attribute store reads its text -/

/-- C13, counterexample: the text 010 carries no 0x prefix, yet it is not read
in base 10: kstrtouint with base 0 reads a text with a leading 0 in base 8, so
duty_red_store stores 8 and not 10. -/
theorem store_leading_zero_is_octal :
    kstrtouint ['0', '1', '0'] 0 = (0, 8) ∧
    ioread32 (pwm_rgb.duty_red_store sample_pwm sample_kernel ['0', '1', '0'] 3).k
      sample_pwm.duty_red = 8 ∧
    ioread32 (pwm_rgb.duty_red_store sample_pwm sample_kernel ['0', '1', '0'] 3).k
      sample_pwm.duty_red ≠ 10 := by
  decide

/-- C13 (amended): a text of digits whose value fits 32 bits is read in base
16 when it carries a 0x (or 0X) prefix, in base 8 when it starts with another
0, and in base 10 when it starts with a digit 1 to 9; and for every attribute
store handler and every text that kstrtouint accepts with value v, the handler
performs exactly one store, of v into the named register (every byte outside
that register is unchanged), and returns size. -/
theorem store_reads_text_by_radix (pp : pwm_rgb.pwm_rgb_dev) (sp : stop_button.stop_button_dev)
    (wp : ws2811.ws2811_dev)
    (k : kernel) (text : List Char) (size v : Nat) (x c : Char) (cs : List Char) :
    ((x = Char.ofNat 120 ∨ x = Char.ofNat 88) → radix_text 16 (c :: cs) = true →
      radix_value 16 (c :: cs) < 4294967296 →
      kstrtouint (Char.ofNat 48 :: x :: c :: cs) 0 = (0, radix_value 16 (c :: cs))) ∧
    (radix_text 8 cs = true → radix_value 8 (Char.ofNat 48 :: cs) < 4294967296 →
      kstrtouint (Char.ofNat 48 :: cs) 0 = (0, radix_value 8 (Char.ofNat 48 :: cs))) ∧
    (49 ≤ c.toNat → radix_text 10 (c :: cs) = true →
      radix_value 10 (c :: cs) < 4294967296 →
      kstrtouint (c :: cs) 0 = (0, radix_value 10 (c :: cs))) ∧
    (kstrtouint text 0 = (0, v) → size ≤ PAGE_SIZE →
      ioread32 (pwm_rgb.duty_red_store pp k text size).k pp.duty_red = v ∧
      (∀ a : Nat, a < pp.duty_red ∨ pp.duty_red + 4 ≤ a →
        (pwm_rgb.duty_red_store pp k text size).k.mem a = k.mem a) ∧
      (pwm_rgb.duty_red_store pp k text size).k.trace =
        k.trace ++ [event.iowrite32 v pp.duty_red] ∧
      (pwm_rgb.duty_red_store pp k text size).ret = (size : Int)) ∧
    (kstrtouint text 0 = (0, v) → size ≤ PAGE_SIZE →
      ioread32 (pwm_rgb.duty_green_store pp k text size).k pp.duty_green = v ∧
      (∀ a : Nat, a < pp.duty_green ∨ pp.duty_green + 4 ≤ a →
        (pwm_rgb.duty_green_store pp k text size).k.mem a = k.mem a) ∧
      (pwm_rgb.duty_green_store pp k text size).k.trace =
        k.trace ++ [event.iowrite32 v pp.duty_green] ∧
      (pwm_rgb.duty_green_store pp k text size).ret = (size : Int)) ∧
    (kstrtouint text 0 = (0, v) → size ≤ PAGE_SIZE →
      ioread32 (pwm_rgb.duty_blue_store pp k text size).k pp.duty_blue = v ∧
      (∀ a : Nat, a < pp.duty_blue ∨ pp.duty_blue + 4 ≤ a →
        (pwm_rgb.duty_blue_store pp k text size).k.mem a = k.mem a) ∧
      (pwm_rgb.duty_blue_store pp k text size).k.trace =
        k.trace ++ [event.iowrite32 v pp.duty_blue] ∧
      (pwm_rgb.duty_blue_store pp k text size).ret = (size : Int)) ∧
    (kstrtouint text 0 = (0, v) → size ≤ PAGE_SIZE →
      ioread32 (pwm_rgb.base_period_store pp k text size).k pp.base_period = v ∧
      (∀ a : Nat, a < pp.base_period ∨ pp.base_period + 4 ≤ a →
        (pwm_rgb.base_period_store pp k text size).k.mem a = k.mem a) ∧
      (pwm_rgb.base_period_store pp k text size).k.trace =
        k.trace ++ [event.iowrite32 v pp.base_period] ∧
      (pwm_rgb.base_period_store pp k text size).ret = (size : Int)) ∧
    (kstrtouint text 0 = (0, v) → size ≤ PAGE_SIZE →
      ioread32 (stop_button.stop_button_store sp k text size).k sp.stop_button = v ∧
      (∀ a : Nat, a < sp.stop_button ∨ sp.stop_button + 4 ≤ a →
        (stop_button.stop_button_store sp k text size).k.mem a = k.mem a) ∧
      (stop_button.stop_button_store sp k text size).k.trace =
        k.trace ++ [event.iowrite32 v sp.stop_button] ∧
      (stop_button.stop_button_store sp k text size).ret = (size : Int)) ∧
    (kstrtouint text 0 = (0, v) → size ≤ PAGE_SIZE →
      ioread32 (ws2811.rgb_all_store wp k text size).k wp.rgb_all = v ∧
      (∀ a : Nat, a < wp.rgb_all ∨ wp.rgb_all + 4 ≤ a →
        (ws2811.rgb_all_store wp k text size).k.mem a = k.mem a) ∧
      (ws2811.rgb_all_store wp k text size).k.trace =
        k.trace ++ [event.iowrite32 v wp.rgb_all] ∧
      (ws2811.rgb_all_store wp k text size).ret = (size : Int)) ∧
    (kstrtouint text 0 = (0, v) → size ≤ PAGE_SIZE →
      ioread32 (ws2811.rgb_single_store wp k text size).k wp.rgb_single = v ∧
      (∀ a : Nat, a < wp.rgb_single ∨ wp.rgb_single + 4 ≤ a →
        (ws2811.rgb_single_store wp k text size).k.mem a = k.mem a) ∧
      (ws2811.rgb_single_store wp k text size).k.trace =
        k.trace ++ [event.iowrite32 v wp.rgb_single] ∧
      (ws2811.rgb_single_store wp k text size).ret = (size : Int)) ∧
    (kstrtouint text 0 = (0, v) → size ≤ PAGE_SIZE →
      ioread32 (ws2811.strip_index_store wp k text size).k wp.strip_index = v ∧
      (∀ a : Nat, a < wp.strip_index ∨ wp.strip_index + 4 ≤ a →
        (ws2811.strip_index_store wp k text size).k.mem a = k.mem a) ∧
      (ws2811.strip_index_store wp k text size).k.trace =
        k.trace ++ [event.iowrite32 v wp.strip_index] ∧
      (ws2811.strip_index_store wp k text size).ret = (size : Int)) := by
  refine ⟨?_, ?_, ?_, ?_, ?_, ?_, ?_, ?_, ?_, ?_, ?_⟩
  · intro hx ht hv
    exact kstrtouint_hex x c cs hx ht hv
  · intro ht hv
    exact kstrtouint_octal cs ht hv
  · intro hc ht hv
    exact kstrtouint_decimal c cs hc ht hv
  · intro h hs
    have hv := kstrtouint_ok_lt text 0 v h
    have hm : v % 4294967296 = v := Nat.mod_eq_of_lt hv
    rw [duty_red_store_ok pp k text size v h]
    refine ⟨?_, ?_, ?_, ?_⟩
    · rw [ioread32_iowrite32_same, hm]
    · intro a ha
      exact iowrite32_mem_outside v pp.duty_red a k ha
    · simp only [iowrite32, hm]
    · exact to_ssize_t_small size (by unfold PAGE_SIZE at hs; omega)
  · intro h hs
    have hv := kstrtouint_ok_lt text 0 v h
    have hm : v % 4294967296 = v := Nat.mod_eq_of_lt hv
    rw [duty_green_store_ok pp k text size v h]
    refine ⟨?_, ?_, ?_, ?_⟩
    · rw [ioread32_iowrite32_same, hm]
    · intro a ha
      exact iowrite32_mem_outside v pp.duty_green a k ha
    · simp only [iowrite32, hm]
    · exact to_ssize_t_small size (by unfold PAGE_SIZE at hs; omega)
  · intro h hs
    have hv := kstrtouint_ok_lt text 0 v h
    have hm : v % 4294967296 = v := Nat.mod_eq_of_lt hv
    rw [duty_blue_store_ok pp k text size v h]
    refine ⟨?_, ?_, ?_, ?_⟩
    · rw [ioread32_iowrite32_same, hm]
    · intro a ha
      exact iowrite32_mem_outside v pp.duty_blue a k ha
    · simp only [iowrite32, hm]
    · exact to_ssize_t_small size (by unfold PAGE_SIZE at hs; omega)
  · intro h hs
    have hv := kstrtouint_ok_lt text 0 v h
    have hm : v % 4294967296 = v := Nat.mod_eq_of_lt hv
    rw [base_period_store_ok pp k text size v h]
    refine ⟨?_, ?_, ?_, ?_⟩
    · rw [ioread32_iowrite32_same, hm]
    · intro a ha
      exact iowrite32_mem_outside v pp.base_period a k ha
    · simp only [iowrite32, hm]
    · exact to_ssize_t_small size (by unfold PAGE_SIZE at hs; omega)
  · intro h hs
    have hv := kstrtouint_ok_lt text 0 v h
    have hm : v % 4294967296 = v := Nat.mod_eq_of_lt hv
    rw [stop_button_store_ok sp k text size v h]
    refine ⟨?_, ?_, ?_, ?_⟩
    · rw [ioread32_iowrite32_same, hm]
    · intro a ha
      exact iowrite32_mem_outside v sp.stop_button a k ha
    · simp only [iowrite32, hm]
    · exact to_ssize_t_small size (by unfold PAGE_SIZE at hs; omega)
  · intro h hs
    have hv := kstrtouint_ok_lt text 0 v h
    have hm : v % 4294967296 = v := Nat.mod_eq_of_lt hv
    rw [rgb_all_store_ok wp k text size v h]
    refine ⟨?_, ?_, ?_, ?_⟩
    · rw [ioread32_iowrite32_same, hm]
    · intro a ha
      exact iowrite32_mem_outside v wp.rgb_all a k ha
    · simp only [iowrite32, hm]
    · exact to_ssize_t_small size (by unfold PAGE_SIZE at hs; omega)
  · intro h hs
    have hv := kstrtouint_ok_lt text 0 v h
    have hm : v % 4294967296 = v := Nat.mod_eq_of_lt hv
    rw [rgb_single_store_ok wp k text size v h]
    refine ⟨?_, ?_, ?_, ?_⟩
    · rw [ioread32_iowrite32_same, hm]
    · intro a ha
      exact iowrite32_mem_outside v wp.rgb_single a k ha
    · simp only [iowrite32, hm]
    · exact to_ssize_t_small size (by unfold PAGE_SIZE at hs; omega)
  · intro h hs
    have hv := kstrtouint_ok_lt text 0 v h
    have hm : v % 4294967296 = v := Nat.mod_eq_of_lt hv
    rw [strip_index_store_ok wp k text size v h]
    refine ⟨?_, ?_, ?_, ?_⟩
    · rw [ioread32_iowrite32_same, hm]
    · intro a ha
      exact iowrite32_mem_outside v wp.strip_index a k ha
    · simp only [iowrite32, hm]
    · exact to_ssize_t_small size (by unfold PAGE_SIZE at hs; omega)

/-- C13 (amended), witness: the theorem applied to the texts 0x10 (base 16,
value 16), 010 (base 8, value 8) and 10 (base 10, value 10), and to a store of
0x10 by each handler. -/
theorem store_reads_text_by_radix_witness :
    kstrtouint ['0', 'x', '1', '0'] 0 = (0, 16) ∧
    kstrtouint ['0', '1', '0'] 0 = (0, 8) ∧
    kstrtouint ['1', '0'] 0 = (0, 10) ∧
    4 ≤ PAGE_SIZE ∧
    (ioread32 (pwm_rgb.duty_red_store sample_pwm sample_kernel ['0', 'x', '1', '0'] 4).k sample_pwm.duty_red = 16 ∧
      (pwm_rgb.duty_red_store sample_pwm sample_kernel ['0', 'x', '1', '0'] 4).ret = 4) ∧
    (ioread32 (pwm_rgb.duty_green_store sample_pwm sample_kernel ['0', 'x', '1', '0'] 4).k sample_pwm.duty_green = 16 ∧
      (pwm_rgb.duty_green_store sample_pwm sample_kernel ['0', 'x', '1', '0'] 4).ret = 4) ∧
    (ioread32 (pwm_rgb.duty_blue_store sample_pwm sample_kernel ['0', 'x', '1', '0'] 4).k sample_pwm.duty_blue = 16 ∧
      (pwm_rgb.duty_blue_store sample_pwm sample_kernel ['0', 'x', '1', '0'] 4).ret = 4) ∧
    (ioread32 (pwm_rgb.base_period_store sample_pwm sample_kernel ['0', 'x', '1', '0'] 4).k sample_pwm.base_period = 16 ∧
      (pwm_rgb.base_period_store sample_pwm sample_kernel ['0', 'x', '1', '0'] 4).ret = 4) ∧
    (ioread32 (stop_button.stop_button_store sample_button sample_kernel ['0', 'x', '1', '0'] 4).k sample_button.stop_button = 16 ∧
      (stop_button.stop_button_store sample_button sample_kernel ['0', 'x', '1', '0'] 4).ret = 4) ∧
    (ioread32 (ws2811.rgb_all_store sample_ws sample_kernel ['0', 'x', '1', '0'] 4).k sample_ws.rgb_all = 16 ∧
      (ws2811.rgb_all_store sample_ws sample_kernel ['0', 'x', '1', '0'] 4).ret = 4) ∧
    (ioread32 (ws2811.rgb_single_store sample_ws sample_kernel ['0', 'x', '1', '0'] 4).k sample_ws.rgb_single = 16 ∧
      (ws2811.rgb_single_store sample_ws sample_kernel ['0', 'x', '1', '0'] 4).ret = 4) ∧
    (ioread32 (ws2811.strip_index_store sample_ws sample_kernel ['0', 'x', '1', '0'] 4).k sample_ws.strip_index = 16 ∧
      (ws2811.strip_index_store sample_ws sample_kernel ['0', 'x', '1', '0'] 4).ret = 4) :=
  ⟨((store_reads_text_by_radix sample_pwm sample_button sample_ws sample_kernel
        ['0', 'x', '1', '0'] 4 16 'x' '1' ['0']).1 (by decide) (by decide) (by decide)).trans
      (by decide),
    ((store_reads_text_by_radix sample_pwm sample_button sample_ws sample_kernel
        ['0', 'x', '1', '0'] 4 16 'x' '1' ['1', '0']).2.1 (by decide) (by decide)).trans
      (by decide),
    ((store_reads_text_by_radix sample_pwm sample_button sample_ws sample_kernel
        ['0', 'x', '1', '0'] 4 16 'x' '1' ['0']).2.2.1 (by decide) (by decide)
        (by decide)).trans (by decide),
    by decide,
    by
      have h := (store_reads_text_by_radix sample_pwm sample_button sample_ws sample_kernel
        ['0', 'x', '1', '0'] 4 16 'x' '1' ['0']).2.2.2.1 (by decide) (by decide)
      exact ⟨h.1, h.2.2.2⟩,
    by
      have h := (store_reads_text_by_radix sample_pwm sample_button sample_ws sample_kernel
        ['0', 'x', '1', '0'] 4 16 'x' '1' ['0']).2.2.2.2.1 (by decide) (by decide)
      exact ⟨h.1, h.2.2.2⟩,
    by
      have h := (store_reads_text_by_radix sample_pwm sample_button sample_ws sample_kernel
        ['0', 'x', '1', '0'] 4 16 'x' '1' ['0']).2.2.2.2.2.1 (by decide) (by decide)
      exact ⟨h.1, h.2.2.2⟩,
    by
      have h := (store_reads_text_by_radix sample_pwm sample_button sample_ws sample_kernel
        ['0', 'x', '1', '0'] 4 16 'x' '1' ['0']).2.2.2.2.2.2.1 (by decide) (by decide)
      exact ⟨h.1, h.2.2.2⟩,
    by
      have h := (store_reads_text_by_radix sample_pwm sample_button sample_ws sample_kernel
        ['0', 'x', '1', '0'] 4 16 'x' '1' ['0']).2.2.2.2.2.2.2.1 (by decide) (by decide)
      exact ⟨h.1, h.2.2.2⟩,
    by
      have h := (store_reads_text_by_radix sample_pwm sample_button sample_ws sample_kernel
        ['0', 'x', '1', '0'] 4 16 'x' '1' ['0']).2.2.2.2.2.2.2.2.1 (by decide) (by decide)
      exact ⟨h.1, h.2.2.2⟩,
    by
      have h := (store_reads_text_by_radix sample_pwm sample_button sample_ws sample_kernel
        ['0', 'x', '1', '0'] 4 16 'x' '1' ['0']).2.2.2.2.2.2.2.2.2.1 (by decide) (by decide)
      exact ⟨h.1, h.2.2.2⟩,
    by
      have h := (store_reads_text_by_radix sample_pwm sample_button sample_ws sample_kernel
        ['0', 'x', '1', '0'] 4 16 'x' '1' ['0']).2.2.2.2.2.2.2.2.2.2 (by decide) (by decide)
      exact ⟨h.1, h.2.2.2⟩⟩

/-! ### Paths of the probe routines -/

theorem int_round_trip (m : Int) (h : fits_int m = true) : to_ssize_t (to_size_t m) = m := by
  unfold fits_int at h
  rw [decide_eq_true_iff] at h
  unfold to_ssize_t to_size_t
  split_ifs <;> omega

theorem to_size_t_eq_zero (m : Int) (h : fits_int m = true) : to_size_t m = 0 ↔ m = 0 := by
  unfold fits_int at h
  rw [decide_eq_true_iff] at h
  unfold to_size_t
  omega

theorem pwm_rgb_probe_nomem (k : kernel) (io : Except Int Nat) (m : Int) :
    pwm_rgb.pwm_rgb_probe k false io m =
      { ret := -ENOMEM, drvdata := none, registered := false, k := k } := by
  simp [pwm_rgb.pwm_rgb_probe]

theorem pwm_rgb_probe_maperr (k : kernel) (e m : Int) :
    pwm_rgb.pwm_rgb_probe k true (Except.error e) m =
      { ret := e, drvdata := none, registered := false, k := k } := by
  simp [pwm_rgb.pwm_rgb_probe]

theorem pwm_rgb_probe_regfail (k : kernel) (base : Nat) (m : Int)
    (hm : fits_int m = true) (h0 : m ≠ 0) :
    pwm_rgb.pwm_rgb_probe k true (Except.ok base) m =
      { ret := m, drvdata := none, registered := false,
        k := (iowrite32 0x1000 (base + pwm_rgb.BASE_PERIOD_OFFSET)
          (iowrite32 0x0 (base + pwm_rgb.DUTY_BLUE_OFFSET)
            (iowrite32 0x0 (base + pwm_rgb.DUTY_GREEN_OFFSET)
              (iowrite32 0xffff (base + pwm_rgb.DUTY_RED_OFFSET) k)))) } := by
  have hz : to_size_t m ≠ 0 := fun h => h0 ((to_size_t_eq_zero m hm).mp h)
  simp only [pwm_rgb.pwm_rgb_probe, Bool.not_eq_true, Bool.true_eq_false, if_false, ne_eq, hz,
    not_false_eq_true, if_true, int_round_trip m hm, not_true_eq_false]

theorem pwm_rgb_probe_ok (k : kernel) (base : Nat) :
    pwm_rgb.pwm_rgb_probe k true (Except.ok base) 0 =
      { ret := 0, drvdata := some (pwm_rgb.mapped base), registered := true,
        k := (iowrite32 0x1000 (base + pwm_rgb.BASE_PERIOD_OFFSET)
          (iowrite32 0x0 (base + pwm_rgb.DUTY_BLUE_OFFSET)
            (iowrite32 0x0 (base + pwm_rgb.DUTY_GREEN_OFFSET)
              (iowrite32 0xffff (base + pwm_rgb.DUTY_RED_OFFSET) k)))) } := by
  have hz : to_size_t 0 = 0 := by decide
  simp only [pwm_rgb.pwm_rgb_probe, Bool.not_eq_true, Bool.true_eq_false, if_false, ne_eq, hz,
    not_true_eq_false, pwm_rgb.mapped]

theorem stop_button_probe_nomem (k : kernel) (io : Except Int Nat) (m : Int) (duty_red : Nat) :
    stop_button.stop_button_probe k false io m duty_red =
      { ret := -ENOMEM, drvdata := none, registered := false, k := k } := by
  simp [stop_button.stop_button_probe]

theorem stop_button_probe_maperr (k : kernel) (e m : Int) (duty_red : Nat) :
    stop_button.stop_button_probe k true (Except.error e) m duty_red =
      { ret := e, drvdata := none, registered := false, k := k } := by
  simp [stop_button.stop_button_probe]

theorem stop_button_probe_regfail (k : kernel) (base : Nat) (m : Int) (duty_red : Nat)
    (hm : fits_int m = true) (h0 : m ≠ 0) :
    stop_button.stop_button_probe k true (Except.ok base) m duty_red =
      { ret := m, drvdata := none, registered := false,
        k := (iowrite32 0x0 duty_red k) } := by
  have hz : to_size_t m ≠ 0 := fun h => h0 ((to_size_t_eq_zero m hm).mp h)
  simp only [stop_button.stop_button_probe, Bool.not_eq_true, Bool.true_eq_false, if_false, ne_eq, hz,
    not_false_eq_true, if_true, int_round_trip m hm, not_true_eq_false]

theorem stop_button_probe_ok (k : kernel) (base : Nat) (duty_red : Nat) :
    stop_button.stop_button_probe k true (Except.ok base) 0 duty_red =
      { ret := 0, drvdata := some (stop_button.mapped base), registered := true,
        k := (iowrite32 0x0 duty_red k) } := by
  have hz : to_size_t 0 = 0 := by decide
  simp only [stop_button.stop_button_probe, Bool.not_eq_true, Bool.true_eq_false, if_false, ne_eq, hz,
    not_true_eq_false, stop_button.mapped]

theorem ws2811_probe_nomem (k : kernel) (io : Except Int Nat) (m : Int) :
    ws2811.ws2811_probe k false io m =
      { ret := -ENOMEM, drvdata := none, registered := false, k := k } := by
  simp [ws2811.ws2811_probe]

theorem ws2811_probe_maperr (k : kernel) (e m : Int) :
    ws2811.ws2811_probe k true (Except.error e) m =
      { ret := e, drvdata := none, registered := false, k := k } := by
  simp [ws2811.ws2811_probe]

theorem ws2811_probe_regfail (k : kernel) (base : Nat) (m : Int)
    (hm : fits_int m = true) (h0 : m ≠ 0) :
    ws2811.ws2811_probe k true (Except.ok base) m =
      { ret := m, drvdata := none, registered := false,
        k := (iowrite32 0x0 (base + ws2811.STRIP_INDEX)
          (iowrite32 0x0 (base + ws2811.RGB_SINGLE)
            (iowrite32 0xffff (base + ws2811.RGB_ALL) k))) } := by
  have hz : to_size_t m ≠ 0 := fun h => h0 ((to_size_t_eq_zero m hm).mp h)
  simp only [ws2811.ws2811_probe, Bool.not_eq_true, Bool.true_eq_false, if_false, ne_eq, hz,
    not_false_eq_true, if_true, int_round_trip m hm, not_true_eq_false]

theorem ws2811_probe_ok (k : kernel) (base : Nat) :
    ws2811.ws2811_probe k true (Except.ok base) 0 =
      { ret := 0, drvdata := some (ws2811.mapped base), registered := true,
        k := (iowrite32 0x0 (base + ws2811.STRIP_INDEX)
          (iowrite32 0x0 (base + ws2811.RGB_SINGLE)
            (iowrite32 0xffff (base + ws2811.RGB_ALL) k))) } := by
  have hz : to_size_t 0 = 0 := by decide
  simp only [ws2811.ws2811_probe, Bool.not_eq_true, Bool.true_eq_false, if_false, ne_eq, hz,
    not_true_eq_false, ws2811.mapped]

/-! ## C14: removal drives the outputs to zero -/

/-- C14: the private data that a successful probe attaches is the one of a
window mapped at the base address, and on it, whatever the I/O memory holds
before removal: after stop_button_remove the stop_button register reads 0;
after ws2811_remove rgb_all, rgb_single and strip_index read 0; after
pwm_rgb_remove duty_red, duty_green and duty_blue read 0 and base_period reads
what it read before. Each remove routine returns 0 and leaves the misc device
deregistered. -/
theorem remove_clears_outputs (k k0 : kernel) (base duty_red : Nat) :
    ((stop_button.stop_button_probe k0 true (Except.ok base) 0 duty_red).drvdata =
        some (stop_button.mapped base) ∧
      (stop_button.stop_button_remove (stop_button.mapped base) k).ret = 0 ∧
      (stop_button.stop_button_remove (stop_button.mapped base) k).registered = false ∧
      ioread32 (stop_button.stop_button_remove (stop_button.mapped base) k).k
        (stop_button.mapped base).stop_button = 0) ∧
    ((ws2811.ws2811_probe k0 true (Except.ok base) 0).drvdata = some (ws2811.mapped base) ∧
      (ws2811.ws2811_remove (ws2811.mapped base) k).ret = 0 ∧
      (ws2811.ws2811_remove (ws2811.mapped base) k).registered = false ∧
      ioread32 (ws2811.ws2811_remove (ws2811.mapped base) k).k
        (ws2811.mapped base).rgb_all = 0 ∧
      ioread32 (ws2811.ws2811_remove (ws2811.mapped base) k).k
        (ws2811.mapped base).rgb_single = 0 ∧
      ioread32 (ws2811.ws2811_remove (ws2811.mapped base) k).k
        (ws2811.mapped base).strip_index = 0) ∧
    ((pwm_rgb.pwm_rgb_probe k0 true (Except.ok base) 0).drvdata = some (pwm_rgb.mapped base) ∧
      (pwm_rgb.pwm_rgb_remove (pwm_rgb.mapped base) k).ret = 0 ∧
      (pwm_rgb.pwm_rgb_remove (pwm_rgb.mapped base) k).registered = false ∧
      ioread32 (pwm_rgb.pwm_rgb_remove (pwm_rgb.mapped base) k).k
        (pwm_rgb.mapped base).duty_red = 0 ∧
      ioread32 (pwm_rgb.pwm_rgb_remove (pwm_rgb.mapped base) k).k
        (pwm_rgb.mapped base).duty_green = 0 ∧
      ioread32 (pwm_rgb.pwm_rgb_remove (pwm_rgb.mapped base) k).k
        (pwm_rgb.mapped base).duty_blue = 0 ∧
      ioread32 (pwm_rgb.pwm_rgb_remove (pwm_rgb.mapped base) k).k
        (pwm_rgb.mapped base).base_period = ioread32 k (pwm_rgb.mapped base).base_period) := by
  refine ⟨⟨?_, rfl, rfl, ?_⟩, ⟨?_, rfl, rfl, ?_, ?_, ?_⟩, ⟨?_, rfl, rfl, ?_, ?_, ?_, ?_⟩⟩
  · rw [stop_button_probe_ok]
  · simp only [stop_button.stop_button_remove, stop_button.mapped]
    rw [ioread32_iowrite32_same]
  · rw [ws2811_probe_ok]
  · simp only [ws2811.ws2811_remove, ws2811.mapped, ws2811.RGB_ALL, ws2811.RGB_SINGLE,
      ws2811.STRIP_INDEX]
    rw [ioread32_iowrite32_disjoint _ _ _ _ (by omega),
      ioread32_iowrite32_disjoint _ _ _ _ (by omega), ioread32_iowrite32_same]
  · simp only [ws2811.ws2811_remove, ws2811.mapped, ws2811.RGB_ALL, ws2811.RGB_SINGLE,
      ws2811.STRIP_INDEX]
    rw [ioread32_iowrite32_disjoint _ _ _ _ (by omega), ioread32_iowrite32_same]
  · simp only [ws2811.ws2811_remove, ws2811.mapped, ws2811.RGB_ALL, ws2811.RGB_SINGLE,
      ws2811.STRIP_INDEX]
    rw [ioread32_iowrite32_same]
  · rw [pwm_rgb_probe_ok]
  · simp only [pwm_rgb.pwm_rgb_remove, pwm_rgb.mapped, pwm_rgb.DUTY_RED_OFFSET,
      pwm_rgb.DUTY_GREEN_OFFSET, pwm_rgb.DUTY_BLUE_OFFSET, pwm_rgb.BASE_PERIOD_OFFSET]
    rw [ioread32_iowrite32_disjoint _ _ _ _ (by omega),
      ioread32_iowrite32_disjoint _ _ _ _ (by omega), ioread32_iowrite32_same]
  · simp only [pwm_rgb.pwm_rgb_remove, pwm_rgb.mapped, pwm_rgb.DUTY_RED_OFFSET,
      pwm_rgb.DUTY_GREEN_OFFSET, pwm_rgb.DUTY_BLUE_OFFSET, pwm_rgb.BASE_PERIOD_OFFSET]
    rw [ioread32_iowrite32_disjoint _ _ _ _ (by omega), ioread32_iowrite32_same]
  · simp only [pwm_rgb.pwm_rgb_remove, pwm_rgb.mapped, pwm_rgb.DUTY_RED_OFFSET,
      pwm_rgb.DUTY_GREEN_OFFSET, pwm_rgb.DUTY_BLUE_OFFSET, pwm_rgb.BASE_PERIOD_OFFSET]
    rw [ioread32_iowrite32_same]
  · simp only [pwm_rgb.pwm_rgb_remove, pwm_rgb.mapped, pwm_rgb.DUTY_RED_OFFSET,
      pwm_rgb.DUTY_GREEN_OFFSET, pwm_rgb.DUTY_BLUE_OFFSET, pwm_rgb.BASE_PERIOD_OFFSET]
    rw [ioread32_iowrite32_disjoint _ _ _ _ (by omega),
      ioread32_iowrite32_disjoint _ _ _ _ (by omega),
      ioread32_iowrite32_disjoint _ _ _ _ (by omega)]

/-! ## C15: the store that stop_button_probe performs -/

/-- C15, the code at the failing input: `struct stop_button_dev` declares no
member duty_red, the name through which stop_button_probe performs its only
store. With the window mapped at 8192 over a memory of bytes 7, and
`priv->duty_red` standing for the address 4096 (the duty_red register of the
sample pwm_rgb device), the probe succeeds, the stop_button register still
reads 0x07070707 and not 0, and the word at 4096, which belongs to another
peripheral, has been cleared. -/
theorem stop_button_probe_store_misses_register :
    (stop_button.members.contains "duty_red") = false ∧
    (stop_button.members.contains "stop_button") = true ∧
    (stop_button.stop_button_probe sample_kernel true (Except.ok 8192) 0 4096).ret = 0 ∧
    (stop_button.stop_button_probe sample_kernel true (Except.ok 8192) 0 4096).drvdata =
      some sample_button ∧
    (stop_button.stop_button_probe sample_kernel true (Except.ok 8192) 0 4096).k.trace =
      [event.iowrite32 0 4096] ∧
    ioread32 sample_kernel sample_button.stop_button = 0x07070707 ∧
    ioread32 (stop_button.stop_button_probe sample_kernel true (Except.ok 8192) 0 4096).k
      sample_button.stop_button = 0x07070707 ∧
    ioread32 sample_kernel sample_pwm.duty_red = 0x07070707 ∧
    ioread32 (stop_button.stop_button_probe sample_kernel true (Except.ok 8192) 0 4096).k
      sample_pwm.duty_red = 0 := by
  decide

/-! ## C16: probe and the mapping of the window -/

/-- C16: for each of the three probe routines, when the allocation succeeds
and the mapping of the window fails with the error e, probe returns e, leaves
the machine untouched (no register store), registers no misc device and
attaches no private data; and, for a mapping outcome that is an address or an
error pointer and a registration result that fits an int, probe returns 0 if
and only if the allocation, the mapping and the registration all succeed. -/
theorem probe_needs_mapping (k : kernel) (e m : Int) (kz : Bool) (io : Except Int Nat)
    (duty_red : Nat) (hio : valid_ioremap io = true) (hm : fits_int m = true) :
    ((pwm_rgb.pwm_rgb_probe k true (Except.error e) m).ret = e ∧
      (pwm_rgb.pwm_rgb_probe k true (Except.error e) m).k = k ∧
      (pwm_rgb.pwm_rgb_probe k true (Except.error e) m).registered = false ∧
      (pwm_rgb.pwm_rgb_probe k true (Except.error e) m).drvdata = none) ∧
    ((stop_button.stop_button_probe k true (Except.error e) m duty_red).ret = e ∧
      (stop_button.stop_button_probe k true (Except.error e) m duty_red).k = k ∧
      (stop_button.stop_button_probe k true (Except.error e) m duty_red).registered = false ∧
      (stop_button.stop_button_probe k true (Except.error e) m duty_red).drvdata = none) ∧
    ((ws2811.ws2811_probe k true (Except.error e) m).ret = e ∧
      (ws2811.ws2811_probe k true (Except.error e) m).k = k ∧
      (ws2811.ws2811_probe k true (Except.error e) m).registered = false ∧
      (ws2811.ws2811_probe k true (Except.error e) m).drvdata = none) ∧
    ((pwm_rgb.pwm_rgb_probe k kz io m).ret = 0 ↔
      kz = true ∧ (∃ base, io = Except.ok base) ∧ m = 0) ∧
    ((stop_button.stop_button_probe k kz io m duty_red).ret = 0 ↔
      kz = true ∧ (∃ base, io = Except.ok base) ∧ m = 0) ∧
    ((ws2811.ws2811_probe k kz io m).ret = 0 ↔
      kz = true ∧ (∃ base, io = Except.ok base) ∧ m = 0) := by
  refine ⟨?_, ?_, ?_, ?_, ?_, ?_⟩
  · rw [pwm_rgb_probe_maperr]
    exact ⟨rfl, rfl, rfl, rfl⟩
  · rw [stop_button_probe_maperr]
    exact ⟨rfl, rfl, rfl, rfl⟩
  · rw [ws2811_probe_maperr]
    exact ⟨rfl, rfl, rfl, rfl⟩
  · cases kz with
    | false =>
      rw [pwm_rgb_probe_nomem]
      simp [ENOMEM]
    | true =>
      cases io with
      | error e2 =>
        rw [pwm_rgb_probe_maperr]
        have he : e2 < 0 := by
          simp only [valid_ioremap, decide_eq_true_eq] at hio
          exact hio.2
        constructor
        · intro h
          exact absurd h (ne_of_lt he)
        · rintro ⟨_, ⟨b, hb⟩, _⟩
          exact absurd hb (by simp)
      | ok b =>
        by_cases h0 : m = 0
        · subst h0
          rw [pwm_rgb_probe_ok]
          exact ⟨fun _ => ⟨rfl, ⟨b, rfl⟩, rfl⟩, fun _ => rfl⟩
        · rw [pwm_rgb_probe_regfail k b m hm h0]
          exact ⟨fun h => absurd h h0, fun h => absurd h.2.2 h0⟩
  · cases kz with
    | false =>
      rw [stop_button_probe_nomem]
      simp [ENOMEM]
    | true =>
      cases io with
      | error e2 =>
        rw [stop_button_probe_maperr]
        have he : e2 < 0 := by
          simp only [valid_ioremap, decide_eq_true_eq] at hio
          exact hio.2
        constructor
        · intro h
          exact absurd h (ne_of_lt he)
        · rintro ⟨_, ⟨b, hb⟩, _⟩
          exact absurd hb (by simp)
      | ok b =>
        by_cases h0 : m = 0
        · subst h0
          rw [stop_button_probe_ok]
          exact ⟨fun _ => ⟨rfl, ⟨b, rfl⟩, rfl⟩, fun _ => rfl⟩
        · rw [stop_button_probe_regfail k b m duty_red hm h0]
          exact ⟨fun h => absurd h h0, fun h => absurd h.2.2 h0⟩
  · cases kz with
    | false =>
      rw [ws2811_probe_nomem]
      simp [ENOMEM]
    | true =>
      cases io with
      | error e2 =>
        rw [ws2811_probe_maperr]
        have he : e2 < 0 := by
          simp only [valid_ioremap, decide_eq_true_eq] at hio
          exact hio.2
        constructor
        · intro h
          exact absurd h (ne_of_lt he)
        · rintro ⟨_, ⟨b, hb⟩, _⟩
          exact absurd hb (by simp)
      | ok b =>
        by_cases h0 : m = 0
        · subst h0
          rw [ws2811_probe_ok]
          exact ⟨fun _ => ⟨rfl, ⟨b, rfl⟩, rfl⟩, fun _ => rfl⟩
        · rw [ws2811_probe_regfail k b m hm h0]
          exact ⟨fun h => absurd h h0, fun h => absurd h.2.2 h0⟩

/-- C16, witness: the theorem applied to a mapping at 4096 and a registration
that returns 0, and to a mapping that fails with -16. -/
theorem probe_needs_mapping_witness :
    valid_ioremap (Except.ok 4096) = true ∧ fits_int 0 = true ∧
    ((pwm_rgb.pwm_rgb_probe sample_kernel true (Except.error (-16)) 0).ret = -16 ∧
      (pwm_rgb.pwm_rgb_probe sample_kernel true (Except.error (-16)) 0).k = sample_kernel ∧
      (pwm_rgb.pwm_rgb_probe sample_kernel true (Except.error (-16)) 0).registered = false ∧
      (pwm_rgb.pwm_rgb_probe sample_kernel true (Except.error (-16)) 0).drvdata = none) ∧
    ((stop_button.stop_button_probe sample_kernel true (Except.error (-16)) 0 4096).ret = -16 ∧
      (stop_button.stop_button_probe sample_kernel true (Except.error (-16)) 0 4096).k = sample_kernel ∧
      (stop_button.stop_button_probe sample_kernel true (Except.error (-16)) 0 4096).registered = false ∧
      (stop_button.stop_button_probe sample_kernel true (Except.error (-16)) 0 4096).drvdata = none) ∧
    ((ws2811.ws2811_probe sample_kernel true (Except.error (-16)) 0).ret = -16 ∧
      (ws2811.ws2811_probe sample_kernel true (Except.error (-16)) 0).k = sample_kernel ∧
      (ws2811.ws2811_probe sample_kernel true (Except.error (-16)) 0).registered = false ∧
      (ws2811.ws2811_probe sample_kernel true (Except.error (-16)) 0).drvdata = none) ∧
    (pwm_rgb.pwm_rgb_probe sample_kernel true (Except.ok 4096) 0).ret = 0 ∧
    (stop_button.stop_button_probe sample_kernel true (Except.ok 4096) 0 4096).ret = 0 ∧
    (ws2811.ws2811_probe sample_kernel true (Except.ok 4096) 0).ret = 0 :=
  ⟨by decide, by decide,
    (probe_needs_mapping sample_kernel (-16) 0 true (Except.ok 4096) 4096 (by decide) (by decide)).1,
    (probe_needs_mapping sample_kernel (-16) 0 true (Except.ok 4096) 4096 (by decide) (by decide)).2.1,
    (probe_needs_mapping sample_kernel (-16) 0 true (Except.ok 4096) 4096 (by decide) (by decide)).2.2.1,
    (probe_needs_mapping sample_kernel (-16) 0 true (Except.ok 4096) 4096 (by decide) (by decide)).2.2.2.1.mpr
      ⟨rfl, ⟨4096, rfl⟩, rfl⟩,
    (probe_needs_mapping sample_kernel (-16) 0 true (Except.ok 4096) 4096 (by decide) (by decide)).2.2.2.2.1.mpr
      ⟨rfl, ⟨4096, rfl⟩, rfl⟩,
    (probe_needs_mapping sample_kernel (-16) 0 true (Except.ok 4096) 4096 (by decide) (by decide)).2.2.2.2.2.mpr
      ⟨rfl, ⟨4096, rfl⟩, rfl⟩⟩

/-! ## C17: probe when the registration of the misc device fails -/

/-- C17, counterexample: pwm_rgb_probe on a memory of bytes 7 with a
registration that fails with -16 returns -16, and the duty_red register, which
read 0x07070707 before the call, reads the power-on value 0xffff after it: the
stores of the probe are not undone. -/
theorem probe_failure_keeps_power_on_values :
    (pwm_rgb.pwm_rgb_probe sample_kernel true (Except.ok 4096) (-16)).ret = -16 ∧
    ioread32 sample_kernel 4096 = 0x07070707 ∧
    ioread32 (pwm_rgb.pwm_rgb_probe sample_kernel true (Except.ok 4096) (-16)).k 4096 = 0xffff ∧
    ioread32 (pwm_rgb.pwm_rgb_probe sample_kernel true (Except.ok 4096) (-16)).k 4096 ≠
      ioread32 sample_kernel 4096 := by
  decide

/-- C17 (amended): when the allocation and the mapping succeed and the
registration of the misc device fails with the code m, each probe returns m,
attaches no private data and leaves no misc device registered; the stores made
earlier in the probe are not undone: pwm_rgb reads 0xffff, 0, 0 and 0x1000 in
duty_red, duty_green, duty_blue and base_period, ws2811 reads 0xffff, 0 and 0
in rgb_all, rgb_single and strip_index, and the word that stop_button_probe
cleared reads 0. -/
theorem probe_registration_failure (k : kernel) (base duty_red : Nat) (m : Int)
    (hm : fits_int m = true) (h0 : m ≠ 0) :
    ((pwm_rgb.pwm_rgb_probe k true (Except.ok base) m).ret = m ∧
      (pwm_rgb.pwm_rgb_probe k true (Except.ok base) m).drvdata = none ∧
      (pwm_rgb.pwm_rgb_probe k true (Except.ok base) m).registered = false ∧
      ioread32 (pwm_rgb.pwm_rgb_probe k true (Except.ok base) m).k
        (base + pwm_rgb.DUTY_RED_OFFSET) = 0xffff ∧
      ioread32 (pwm_rgb.pwm_rgb_probe k true (Except.ok base) m).k
        (base + pwm_rgb.DUTY_GREEN_OFFSET) = 0 ∧
      ioread32 (pwm_rgb.pwm_rgb_probe k true (Except.ok base) m).k
        (base + pwm_rgb.DUTY_BLUE_OFFSET) = 0 ∧
      ioread32 (pwm_rgb.pwm_rgb_probe k true (Except.ok base) m).k
        (base + pwm_rgb.BASE_PERIOD_OFFSET) = 0x1000) ∧
    ((ws2811.ws2811_probe k true (Except.ok base) m).ret = m ∧
      (ws2811.ws2811_probe k true (Except.ok base) m).drvdata = none ∧
      (ws2811.ws2811_probe k true (Except.ok base) m).registered = false ∧
      ioread32 (ws2811.ws2811_probe k true (Except.ok base) m).k
        (base + ws2811.RGB_ALL) = 0xffff ∧
      ioread32 (ws2811.ws2811_probe k true (Except.ok base) m).k
        (base + ws2811.RGB_SINGLE) = 0 ∧
      ioread32 (ws2811.ws2811_probe k true (Except.ok base) m).k
        (base + ws2811.STRIP_INDEX) = 0) ∧
    ((stop_button.stop_button_probe k true (Except.ok base) m duty_red).ret = m ∧
      (stop_button.stop_button_probe k true (Except.ok base) m duty_red).drvdata = none ∧
      (stop_button.stop_button_probe k true (Except.ok base) m duty_red).registered = false ∧
      ioread32 (stop_button.stop_button_probe k true (Except.ok base) m duty_red).k
        duty_red = 0) := by
  rw [pwm_rgb_probe_regfail k base m hm h0, ws2811_probe_regfail k base m hm h0,
    stop_button_probe_regfail k base m duty_red hm h0]
  simp only [pwm_rgb.DUTY_RED_OFFSET, pwm_rgb.DUTY_GREEN_OFFSET, pwm_rgb.DUTY_BLUE_OFFSET,
    pwm_rgb.BASE_PERIOD_OFFSET, ws2811.RGB_ALL, ws2811.RGB_SINGLE, ws2811.STRIP_INDEX]
  refine ⟨⟨trivial, trivial, trivial, ?_, ?_, ?_, ?_⟩, ⟨trivial, trivial, trivial, ?_, ?_, ?_⟩,
    ⟨trivial, trivial, trivial, ?_⟩⟩
  · rw [ioread32_iowrite32_disjoint _ _ _ _ (by omega),
      ioread32_iowrite32_disjoint _ _ _ _ (by omega),
      ioread32_iowrite32_disjoint _ _ _ _ (by omega), ioread32_iowrite32_same]
  · rw [ioread32_iowrite32_disjoint _ _ _ _ (by omega),
      ioread32_iowrite32_disjoint _ _ _ _ (by omega), ioread32_iowrite32_same]
  · rw [ioread32_iowrite32_disjoint _ _ _ _ (by omega), ioread32_iowrite32_same]
  · rw [ioread32_iowrite32_same]
  · rw [ioread32_iowrite32_disjoint _ _ _ _ (by omega),
      ioread32_iowrite32_disjoint _ _ _ _ (by omega), ioread32_iowrite32_same]
  · rw [ioread32_iowrite32_disjoint _ _ _ _ (by omega), ioread32_iowrite32_same]
  · rw [ioread32_iowrite32_same]
  · rw [ioread32_iowrite32_same]

/-- C17 (amended), witness: the theorem applied to a window at 4096 and a
registration that fails with -16. -/
theorem probe_registration_failure_witness :
    fits_int (-16) = true ∧ (-16 : Int) ≠ 0 ∧
    (pwm_rgb.pwm_rgb_probe sample_kernel true (Except.ok 4096) (-16)).ret = -16 ∧
    (pwm_rgb.pwm_rgb_probe sample_kernel true (Except.ok 4096) (-16)).registered = false ∧
    ioread32 (pwm_rgb.pwm_rgb_probe sample_kernel true (Except.ok 4096) (-16)).k
      (4096 + pwm_rgb.DUTY_RED_OFFSET) = 0xffff ∧
    (ws2811.ws2811_probe sample_kernel true (Except.ok 4096) (-16)).ret = -16 ∧
    ioread32 (ws2811.ws2811_probe sample_kernel true (Except.ok 4096) (-16)).k
      (4096 + ws2811.RGB_ALL) = 0xffff ∧
    (stop_button.stop_button_probe sample_kernel true (Except.ok 4096) (-16) 4096).ret = -16 :=
  ⟨by decide, by decide,
    (probe_registration_failure sample_kernel 4096 4096 (-16) (by decide) (by decide)).1.1,
    (probe_registration_failure sample_kernel 4096 4096 (-16) (by decide) (by decide)).1.2.2.1,
    (probe_registration_failure sample_kernel 4096 4096 (-16) (by decide)
      (by decide)).1.2.2.2.1,
    (probe_registration_failure sample_kernel 4096 4096 (-16) (by decide) (by decide)).2.1.1,
    (probe_registration_failure sample_kernel 4096 4096 (-16) (by decide)
      (by decide)).2.1.2.2.2.1,
    (probe_registration_failure sample_kernel 4096 4096 (-16) (by decide) (by decide)).2.2.1⟩

/-! ## C18: register stores and the lock -/

/-- C18, counterexample: duty_red_store, given the text 1, performs its
iowrite32 with no mutex_lock before it: its log is the single store, which
happens while the lock is not held. -/
theorem attribute_store_takes_no_lock :
    (pwm_rgb.duty_red_store sample_pwm sample_kernel ['1'] 1).k.trace =
      [event.iowrite32 1 sample_pwm.duty_red] ∧
    stores_guarded false
      (pwm_rgb.duty_red_store sample_pwm sample_kernel ['1'] 1).k.trace = false := by
  decide

/-- C18 (amended): for every input, every iowrite32 of a block write of the
three drivers is performed between the mutex_lock and the mutex_unlock of the
call, that is while the lock of the instance is held; an attribute store
handler given a text that parses performs its single iowrite32 without
acquiring the lock (its log holds the store and no lock step). -/
theorem stores_and_the_lock (pp : pwm_rgb.pwm_rgb_dev) (sp : stop_button.stop_button_dev)
    (wp : ws2811.ws2811_dev)
    (mem : Nat → Nat) (buf : List Nat) (count : Nat) (offset : Int) (text : List Char)
    (size v : Nat) :
    stores_guarded false
      (pwm_rgb.pwm_rgb_write pp (kernel.mk mem []) buf count offset).k.trace = true ∧
    stores_guarded false
      (stop_button.stop_button_write sp (kernel.mk mem []) buf count offset).k.trace = true ∧
    stores_guarded false
      (ws2811.ws2811_write wp (kernel.mk mem []) buf count offset).k.trace = true ∧
    (kstrtouint text 0 = (0, v) →
      (pwm_rgb.duty_red_store pp (kernel.mk mem []) text size).k.trace =
        [event.iowrite32 v pp.duty_red] ∧
      stores_guarded false (pwm_rgb.duty_red_store pp (kernel.mk mem []) text size).k.trace = false) ∧
    (kstrtouint text 0 = (0, v) →
      (pwm_rgb.duty_green_store pp (kernel.mk mem []) text size).k.trace =
        [event.iowrite32 v pp.duty_green] ∧
      stores_guarded false (pwm_rgb.duty_green_store pp (kernel.mk mem []) text size).k.trace = false) ∧
    (kstrtouint text 0 = (0, v) →
      (pwm_rgb.duty_blue_store pp (kernel.mk mem []) text size).k.trace =
        [event.iowrite32 v pp.duty_blue] ∧
      stores_guarded false (pwm_rgb.duty_blue_store pp (kernel.mk mem []) text size).k.trace = false) ∧
    (kstrtouint text 0 = (0, v) →
      (pwm_rgb.base_period_store pp (kernel.mk mem []) text size).k.trace =
        [event.iowrite32 v pp.base_period] ∧
      stores_guarded false (pwm_rgb.base_period_store pp (kernel.mk mem []) text size).k.trace = false) ∧
    (kstrtouint text 0 = (0, v) →
      (stop_button.stop_button_store sp (kernel.mk mem []) text size).k.trace =
        [event.iowrite32 v sp.stop_button] ∧
      stores_guarded false (stop_button.stop_button_store sp (kernel.mk mem []) text size).k.trace = false) ∧
    (kstrtouint text 0 = (0, v) →
      (ws2811.rgb_all_store wp (kernel.mk mem []) text size).k.trace =
        [event.iowrite32 v wp.rgb_all] ∧
      stores_guarded false (ws2811.rgb_all_store wp (kernel.mk mem []) text size).k.trace = false) ∧
    (kstrtouint text 0 = (0, v) →
      (ws2811.rgb_single_store wp (kernel.mk mem []) text size).k.trace =
        [event.iowrite32 v wp.rgb_single] ∧
      stores_guarded false (ws2811.rgb_single_store wp (kernel.mk mem []) text size).k.trace = false) ∧
    (kstrtouint text 0 = (0, v) →
      (ws2811.strip_index_store wp (kernel.mk mem []) text size).k.trace =
        [event.iowrite32 v wp.strip_index] ∧
      stores_guarded false (ws2811.strip_index_store wp (kernel.mk mem []) text size).k.trace = false) := by
  refine ⟨?_, ?_, ?_, ?_, ?_, ?_, ?_, ?_, ?_, ?_, ?_⟩
  · rcases lt_or_le offset 0 with hn | h0
    · rw [pwm_rgb_write_negative pp _ buf count offset hn]
      rfl
    rcases le_or_lt (pwm_rgb.SPAN : Int) offset with hs | h1
    · rw [pwm_rgb_write_past_end pp _ buf count offset hs]
      rfl
    by_cases h2 : offset % 4 = 0
    · rw [pwm_rgb_write_aligned pp _ buf count offset h0 h1 h2]
      split_ifs <;> rfl
    · rw [pwm_rgb_write_unaligned pp _ buf count offset h0 h1 h2]
      rfl
  · rcases lt_or_le offset 0 with hn | h0
    · rw [stop_button_write_negative sp _ buf count offset hn]
      rfl
    rcases le_or_lt (stop_button.SPAN : Int) offset with hs | h1
    · rw [stop_button_write_past_end sp _ buf count offset hs]
      rfl
    by_cases h2 : offset % 4 = 0
    · rw [stop_button_write_aligned sp _ buf count offset h0 h1 h2]
      split_ifs <;> rfl
    · rw [stop_button_write_unaligned sp _ buf count offset h0 h1 h2]
      rfl
  · rcases lt_or_le offset 0 with hn | h0
    · rw [ws2811_write_negative wp _ buf count offset hn]
      rfl
    rcases le_or_lt (ws2811.SPAN : Int) offset with hs | h1
    · rw [ws2811_write_past_end wp _ buf count offset hs]
      rfl
    by_cases h2 : offset % 4 = 0
    · rw [ws2811_write_aligned wp _ buf count offset h0 h1 h2]
      split_ifs <;> rfl
    · rw [ws2811_write_unaligned wp _ buf count offset h0 h1 h2]
      rfl
  · intro h
    have hm : v % 4294967296 = v := Nat.mod_eq_of_lt (kstrtouint_ok_lt text 0 v h)
    rw [duty_red_store_ok pp _ text size v h]
    simp only [iowrite32, hm, List.nil_append]
    exact ⟨trivial, rfl⟩
  · intro h
    have hm : v % 4294967296 = v := Nat.mod_eq_of_lt (kstrtouint_ok_lt text 0 v h)
    rw [duty_green_store_ok pp _ text size v h]
    simp only [iowrite32, hm, List.nil_append]
    exact ⟨trivial, rfl⟩
  · intro h
    have hm : v % 4294967296 = v := Nat.mod_eq_of_lt (kstrtouint_ok_lt text 0 v h)
    rw [duty_blue_store_ok pp _ text size v h]
    simp only [iowrite32, hm, List.nil_append]
    exact ⟨trivial, rfl⟩
  · intro h
    have hm : v % 4294967296 = v := Nat.mod_eq_of_lt (kstrtouint_ok_lt text 0 v h)
    rw [base_period_store_ok pp _ text size v h]
    simp only [iowrite32, hm, List.nil_append]
    exact ⟨trivial, rfl⟩
  · intro h
    have hm : v % 4294967296 = v := Nat.mod_eq_of_lt (kstrtouint_ok_lt text 0 v h)
    rw [stop_button_store_ok sp _ text size v h]
    simp only [iowrite32, hm, List.nil_append]
    exact ⟨trivial, rfl⟩
  · intro h
    have hm : v % 4294967296 = v := Nat.mod_eq_of_lt (kstrtouint_ok_lt text 0 v h)
    rw [rgb_all_store_ok wp _ text size v h]
    simp only [iowrite32, hm, List.nil_append]
    exact ⟨trivial, rfl⟩
  · intro h
    have hm : v % 4294967296 = v := Nat.mod_eq_of_lt (kstrtouint_ok_lt text 0 v h)
    rw [rgb_single_store_ok wp _ text size v h]
    simp only [iowrite32, hm, List.nil_append]
    exact ⟨trivial, rfl⟩
  · intro h
    have hm : v % 4294967296 = v := Nat.mod_eq_of_lt (kstrtouint_ok_lt text 0 v h)
    rw [strip_index_store_ok wp _ text size v h]
    simp only [iowrite32, hm, List.nil_append]
    exact ⟨trivial, rfl⟩

/-- C18 (amended), witness: the theorem applied to a block write of 4 bytes
at offset 4 and to a store of the text 1. -/
theorem stores_and_the_lock_witness :
    kstrtouint ['1'] 0 = (0, 1) ∧
    stores_guarded false
      (pwm_rgb.pwm_rgb_write sample_pwm (kernel.mk sample_kernel.mem []) [1, 2, 3, 4] 4 4).k.trace = true ∧
    stores_guarded false
      (stop_button.stop_button_write sample_button (kernel.mk sample_kernel.mem []) [1, 2, 3, 4] 4 4).k.trace = true ∧
    stores_guarded false
      (ws2811.ws2811_write sample_ws (kernel.mk sample_kernel.mem []) [1, 2, 3, 4] 4 4).k.trace = true ∧
    (pwm_rgb.duty_red_store sample_pwm (kernel.mk sample_kernel.mem []) ['1'] 1).k.trace =
      [event.iowrite32 1 sample_pwm.duty_red] ∧
    (pwm_rgb.duty_green_store sample_pwm (kernel.mk sample_kernel.mem []) ['1'] 1).k.trace =
      [event.iowrite32 1 sample_pwm.duty_green] ∧
    (pwm_rgb.duty_blue_store sample_pwm (kernel.mk sample_kernel.mem []) ['1'] 1).k.trace =
      [event.iowrite32 1 sample_pwm.duty_blue] ∧
    (pwm_rgb.base_period_store sample_pwm (kernel.mk sample_kernel.mem []) ['1'] 1).k.trace =
      [event.iowrite32 1 sample_pwm.base_period] ∧
    (stop_button.stop_button_store sample_button (kernel.mk sample_kernel.mem []) ['1'] 1).k.trace =
      [event.iowrite32 1 sample_button.stop_button] ∧
    (ws2811.rgb_all_store sample_ws (kernel.mk sample_kernel.mem []) ['1'] 1).k.trace =
      [event.iowrite32 1 sample_ws.rgb_all] ∧
    (ws2811.rgb_single_store sample_ws (kernel.mk sample_kernel.mem []) ['1'] 1).k.trace =
      [event.iowrite32 1 sample_ws.rgb_single] ∧
    (ws2811.strip_index_store sample_ws (kernel.mk sample_kernel.mem []) ['1'] 1).k.trace =
      [event.iowrite32 1 sample_ws.strip_index] :=
  ⟨by decide,
    (stores_and_the_lock sample_pwm sample_button sample_ws sample_kernel.mem [1, 2, 3, 4] 4 4
      ['1'] 1 1).1,
    (stores_and_the_lock sample_pwm sample_button sample_ws sample_kernel.mem [1, 2, 3, 4] 4 4
      ['1'] 1 1).2.1,
    (stores_and_the_lock sample_pwm sample_button sample_ws sample_kernel.mem [1, 2, 3, 4] 4 4
      ['1'] 1 1).2.2.1,
    ((stores_and_the_lock sample_pwm sample_button sample_ws sample_kernel.mem [1, 2, 3, 4] 4 4
      ['1'] 1 1).2.2.2.1 (by decide)).1,
    ((stores_and_the_lock sample_pwm sample_button sample_ws sample_kernel.mem [1, 2, 3, 4] 4 4
      ['1'] 1 1).2.2.2.2.1 (by decide)).1,
    ((stores_and_the_lock sample_pwm sample_button sample_ws sample_kernel.mem [1, 2, 3, 4] 4 4
      ['1'] 1 1).2.2.2.2.2.1 (by decide)).1,
    ((stores_and_the_lock sample_pwm sample_button sample_ws sample_kernel.mem [1, 2, 3, 4] 4 4
      ['1'] 1 1).2.2.2.2.2.2.1 (by decide)).1,
    ((stores_and_the_lock sample_pwm sample_button sample_ws sample_kernel.mem [1, 2, 3, 4] 4 4
      ['1'] 1 1).2.2.2.2.2.2.2.1 (by decide)).1,
    ((stores_and_the_lock sample_pwm sample_button sample_ws sample_kernel.mem [1, 2, 3, 4] 4 4
      ['1'] 1 1).2.2.2.2.2.2.2.2.1 (by decide)).1,
    ((stores_and_the_lock sample_pwm sample_button sample_ws sample_kernel.mem [1, 2, 3, 4] 4 4
      ['1'] 1 1).2.2.2.2.2.2.2.2.2.1 (by decide)).1,
    ((stores_and_the_lock sample_pwm sample_button sample_ws sample_kernel.mem [1, 2, 3, 4] 4 4
      ['1'] 1 1).2.2.2.2.2.2.2.2.2.2 (by decide)).1⟩

/-! ## C20: a write to the last word, then reads -/

theorem pwm_rgb_session_at_end (reads : List (Nat × Nat)) :
    ∀ r : file_result pwm_rgb.pwm_rgb_dev, (pwm_rgb.SPAN : Int) ≤ r.offset →
      (session_reads pwm_rgb.pwm_rgb_read reads r).offset = r.offset ∧
      (reads ≠ [] →
        (session_reads pwm_rgb.pwm_rgb_read reads r).ret = 0 ∧
        (session_reads pwm_rgb.pwm_rgb_read reads r).user = []) := by
  induction reads with
  | nil =>
    intro r _
    exact ⟨rfl, fun h => absurd rfl h⟩
  | cons c cs ih =>
    intro r hr
    rw [session_reads, pwm_rgb_read_past_end r.priv r.k c.1 c.2 r.offset hr]
    have h := ih { ret := 0, offset := r.offset, priv := r.priv, k := r.k, user := [] } hr
    refine ⟨h.1, fun _ => ?_⟩
    cases cs with
    | nil => exact ⟨rfl, rfl⟩
    | cons d ds => exact h.2 (List.cons_ne_nil d ds)

theorem stop_button_session_at_end (reads : List (Nat × Nat)) :
    ∀ r : file_result stop_button.stop_button_dev, (stop_button.SPAN : Int) ≤ r.offset →
      (session_reads stop_button.stop_button_read reads r).offset = r.offset ∧
      (reads ≠ [] →
        (session_reads stop_button.stop_button_read reads r).ret = 0 ∧
        (session_reads stop_button.stop_button_read reads r).user = []) := by
  induction reads with
  | nil =>
    intro r _
    exact ⟨rfl, fun h => absurd rfl h⟩
  | cons c cs ih =>
    intro r hr
    rw [session_reads, stop_button_read_past_end r.priv r.k c.1 c.2 r.offset hr]
    have h := ih { ret := 0, offset := r.offset, priv := r.priv, k := r.k, user := [] } hr
    refine ⟨h.1, fun _ => ?_⟩
    cases cs with
    | nil => exact ⟨rfl, rfl⟩
    | cons d ds => exact h.2 (List.cons_ne_nil d ds)

theorem ws2811_session_at_end (reads : List (Nat × Nat)) :
    ∀ r : file_result ws2811.ws2811_dev, (ws2811.SPAN : Int) ≤ r.offset →
      (session_reads ws2811.ws2811_read reads r).offset = r.offset ∧
      (reads ≠ [] →
        (session_reads ws2811.ws2811_read reads r).ret = 0 ∧
        (session_reads ws2811.ws2811_read reads r).user = []) := by
  induction reads with
  | nil =>
    intro r _
    exact ⟨rfl, fun h => absurd rfl h⟩
  | cons c cs ih =>
    intro r hr
    rw [session_reads, ws2811_read_past_end r.priv r.k c.1 c.2 r.offset hr]
    have h := ih { ret := 0, offset := r.offset, priv := r.priv, k := r.k, user := [] } hr
    refine ⟨h.1, fun _ => ?_⟩
    cases cs with
    | nil => exact ⟨rfl, rfl⟩
    | cons d ds => exact h.2 (List.cons_ne_nil d ds)

/-- C20: for each driver, a block write of a 32-bit value v, all 4 bytes
copied, with the cursor at the last word of the window (SPAN - 4) returns 4
and leaves the cursor equal to SPAN; on ws2811 that word is offset 8, the
strip_index register, which then reads v. Every sequence of one or more block
reads that the session issues afterwards ends with a read that returns 0,
delivers nothing and leaves the cursor at SPAN. -/
theorem write_last_word_then_end (pp : pwm_rgb.pwm_rgb_dev) (sp : stop_button.stop_button_dev)
    (wp : ws2811.ws2811_dev)
    (k : kernel) (v : Nat) (extra : List Nat) (count base : Nat) (reads : List (Nat × Nat))
    (hv : v < 4294967296) :
    ((pwm_rgb.pwm_rgb_write pp k (u32_bytes v ++ extra) count ((pwm_rgb.SPAN : Int) - 4)).ret = 4 ∧
      (pwm_rgb.pwm_rgb_write pp k (u32_bytes v ++ extra) count ((pwm_rgb.SPAN : Int) - 4)).offset =
        (pwm_rgb.SPAN : Int) ∧
      (reads ≠ [] →
        (session_reads pwm_rgb.pwm_rgb_read reads
          (pwm_rgb.pwm_rgb_write pp k (u32_bytes v ++ extra) count ((pwm_rgb.SPAN : Int) - 4))).ret = 0 ∧
        (session_reads pwm_rgb.pwm_rgb_read reads
          (pwm_rgb.pwm_rgb_write pp k (u32_bytes v ++ extra) count ((pwm_rgb.SPAN : Int) - 4))).user = [] ∧
        (session_reads pwm_rgb.pwm_rgb_read reads
          (pwm_rgb.pwm_rgb_write pp k (u32_bytes v ++ extra) count ((pwm_rgb.SPAN : Int) - 4))).offset =
            (pwm_rgb.SPAN : Int))) ∧
    ((stop_button.stop_button_write sp k (u32_bytes v ++ extra) count ((stop_button.SPAN : Int) - 4)).ret = 4 ∧
      (stop_button.stop_button_write sp k (u32_bytes v ++ extra) count ((stop_button.SPAN : Int) - 4)).offset =
        (stop_button.SPAN : Int) ∧
      (reads ≠ [] →
        (session_reads stop_button.stop_button_read reads
          (stop_button.stop_button_write sp k (u32_bytes v ++ extra) count ((stop_button.SPAN : Int) - 4))).ret = 0 ∧
        (session_reads stop_button.stop_button_read reads
          (stop_button.stop_button_write sp k (u32_bytes v ++ extra) count ((stop_button.SPAN : Int) - 4))).user = [] ∧
        (session_reads stop_button.stop_button_read reads
          (stop_button.stop_button_write sp k (u32_bytes v ++ extra) count ((stop_button.SPAN : Int) - 4))).offset =
            (stop_button.SPAN : Int))) ∧
    ((ws2811.ws2811_write wp k (u32_bytes v ++ extra) count ((ws2811.SPAN : Int) - 4)).ret = 4 ∧
      (ws2811.ws2811_write wp k (u32_bytes v ++ extra) count ((ws2811.SPAN : Int) - 4)).offset =
        (ws2811.SPAN : Int) ∧
      ioread32 (ws2811.ws2811_write wp k (u32_bytes v ++ extra) count ((ws2811.SPAN : Int) - 4)).k
        (wp.base_addr + ws2811.STRIP_INDEX) = v ∧
      (ws2811.mapped base).strip_index = (ws2811.mapped base).base_addr + ws2811.STRIP_INDEX ∧
      (reads ≠ [] →
        (session_reads ws2811.ws2811_read reads
          (ws2811.ws2811_write wp k (u32_bytes v ++ extra) count ((ws2811.SPAN : Int) - 4))).ret = 0 ∧
        (session_reads ws2811.ws2811_read reads
          (ws2811.ws2811_write wp k (u32_bytes v ++ extra) count ((ws2811.SPAN : Int) - 4))).user = [] ∧
        (session_reads ws2811.ws2811_read reads
          (ws2811.ws2811_write wp k (u32_bytes v ++ extra) count ((ws2811.SPAN : Int) - 4))).offset =
            (ws2811.SPAN : Int))) := by
  refine ⟨?_, ?_, ?_⟩
  · have h0 : (0 : Int) ≤ (pwm_rgb.SPAN : Int) - 4 := by decide
    have h1 : (pwm_rgb.SPAN : Int) - 4 < (pwm_rgb.SPAN : Int) := by decide
    have h2 : ((pwm_rgb.SPAN : Int) - 4) % 4 = 0 := by decide
    have hw : (pwm_rgb.pwm_rgb_write pp k (u32_bytes v ++ extra) count ((pwm_rgb.SPAN : Int) - 4)).ret = 4 ∧
        (pwm_rgb.pwm_rgb_write pp k (u32_bytes v ++ extra) count ((pwm_rgb.SPAN : Int) - 4)).offset =
          (pwm_rgb.SPAN : Int) ∧
        ioread32 (pwm_rgb.pwm_rgb_write pp k (u32_bytes v ++ extra) count ((pwm_rgb.SPAN : Int) - 4)).k
          (pp.base_addr + ((pwm_rgb.SPAN : Int) - 4).toNat) = v := by
      rw [pwm_rgb_write_aligned pp k _ count _ h0 h1 h2, copy_from_user_word]
      simp only [ne_eq, OfNat.zero_ne_ofNat, not_false_eq_true, if_true, bytes_u32_u32_bytes,
        Nat.mod_eq_of_lt hv]
      refine ⟨trivial, by decide, ?_⟩
      have e := ioread32_iowrite32_same v (pp.base_addr + ((pwm_rgb.SPAN : Int) - 4).toNat) k
      rw [Nat.mod_eq_of_lt hv] at e
      exact e
    have hs := pwm_rgb_session_at_end reads
      (pwm_rgb.pwm_rgb_write pp k (u32_bytes v ++ extra) count ((pwm_rgb.SPAN : Int) - 4))
      (le_of_eq hw.2.1.symm)
    refine ⟨hw.1, hw.2.1, fun hne => ?_⟩
    exact ⟨(hs.2 hne).1, (hs.2 hne).2, hs.1.trans hw.2.1⟩
  · have h0 : (0 : Int) ≤ (stop_button.SPAN : Int) - 4 := by decide
    have h1 : (stop_button.SPAN : Int) - 4 < (stop_button.SPAN : Int) := by decide
    have h2 : ((stop_button.SPAN : Int) - 4) % 4 = 0 := by decide
    have hw : (stop_button.stop_button_write sp k (u32_bytes v ++ extra) count ((stop_button.SPAN : Int) - 4)).ret = 4 ∧
        (stop_button.stop_button_write sp k (u32_bytes v ++ extra) count ((stop_button.SPAN : Int) - 4)).offset =
          (stop_button.SPAN : Int) ∧
        ioread32 (stop_button.stop_button_write sp k (u32_bytes v ++ extra) count ((stop_button.SPAN : Int) - 4)).k
          (sp.base_addr + ((stop_button.SPAN : Int) - 4).toNat) = v := by
      rw [stop_button_write_aligned sp k _ count _ h0 h1 h2, copy_from_user_word]
      simp only [ne_eq, OfNat.zero_ne_ofNat, not_false_eq_true, if_true, bytes_u32_u32_bytes,
        Nat.mod_eq_of_lt hv]
      refine ⟨trivial, by decide, ?_⟩
      have e := ioread32_iowrite32_same v (sp.base_addr + ((stop_button.SPAN : Int) - 4).toNat) k
      rw [Nat.mod_eq_of_lt hv] at e
      exact e
    have hs := stop_button_session_at_end reads
      (stop_button.stop_button_write sp k (u32_bytes v ++ extra) count ((stop_button.SPAN : Int) - 4))
      (le_of_eq hw.2.1.symm)
    refine ⟨hw.1, hw.2.1, fun hne => ?_⟩
    exact ⟨(hs.2 hne).1, (hs.2 hne).2, hs.1.trans hw.2.1⟩
  · have h0 : (0 : Int) ≤ (ws2811.SPAN : Int) - 4 := by decide
    have h1 : (ws2811.SPAN : Int) - 4 < (ws2811.SPAN : Int) := by decide
    have h2 : ((ws2811.SPAN : Int) - 4) % 4 = 0 := by decide
    have hw : (ws2811.ws2811_write wp k (u32_bytes v ++ extra) count ((ws2811.SPAN : Int) - 4)).ret = 4 ∧
        (ws2811.ws2811_write wp k (u32_bytes v ++ extra) count ((ws2811.SPAN : Int) - 4)).offset =
          (ws2811.SPAN : Int) ∧
        ioread32 (ws2811.ws2811_write wp k (u32_bytes v ++ extra) count ((ws2811.SPAN : Int) - 4)).k
          (wp.base_addr + ((ws2811.SPAN : Int) - 4).toNat) = v := by
      rw [ws2811_write_aligned wp k _ count _ h0 h1 h2, copy_from_user_word]
      simp only [ne_eq, OfNat.zero_ne_ofNat, not_false_eq_true, if_true, bytes_u32_u32_bytes,
        Nat.mod_eq_of_lt hv]
      refine ⟨trivial, by decide, ?_⟩
      have e := ioread32_iowrite32_same v (wp.base_addr + ((ws2811.SPAN : Int) - 4).toNat) k
      rw [Nat.mod_eq_of_lt hv] at e
      exact e
    have hs := ws2811_session_at_end reads
      (ws2811.ws2811_write wp k (u32_bytes v ++ extra) count ((ws2811.SPAN : Int) - 4))
      (le_of_eq hw.2.1.symm)
    refine ⟨hw.1, hw.2.1, hw.2.2, rfl, fun hne => ?_⟩
    exact ⟨(hs.2 hne).1, (hs.2 hne).2, hs.1.trans hw.2.1⟩

/-- C20, witness: the theorem applied to the value 5 and to a session that
reads twice after the write. -/
theorem write_last_word_then_end_witness :
    5 < 4294967296 ∧
    ((pwm_rgb.pwm_rgb_write sample_pwm sample_kernel (u32_bytes 5 ++ []) 4 ((pwm_rgb.SPAN : Int) - 4)).ret = 4 ∧
      (pwm_rgb.pwm_rgb_write sample_pwm sample_kernel (u32_bytes 5 ++ []) 4 ((pwm_rgb.SPAN : Int) - 4)).offset =
        (pwm_rgb.SPAN : Int) ∧
      (session_reads pwm_rgb.pwm_rgb_read [(4, 4), (1, 8)]
        (pwm_rgb.pwm_rgb_write sample_pwm sample_kernel (u32_bytes 5 ++ []) 4 ((pwm_rgb.SPAN : Int) - 4))).ret = 0) ∧
    ((stop_button.stop_button_write sample_button sample_kernel (u32_bytes 5 ++ []) 4 ((stop_button.SPAN : Int) - 4)).ret = 4 ∧
      (stop_button.stop_button_write sample_button sample_kernel (u32_bytes 5 ++ []) 4 ((stop_button.SPAN : Int) - 4)).offset =
        (stop_button.SPAN : Int) ∧
      (session_reads stop_button.stop_button_read [(4, 4), (1, 8)]
        (stop_button.stop_button_write sample_button sample_kernel (u32_bytes 5 ++ []) 4 ((stop_button.SPAN : Int) - 4))).ret = 0) ∧
    ((ws2811.ws2811_write sample_ws sample_kernel (u32_bytes 5 ++ []) 4 ((ws2811.SPAN : Int) - 4)).ret = 4 ∧
      (ws2811.ws2811_write sample_ws sample_kernel (u32_bytes 5 ++ []) 4 ((ws2811.SPAN : Int) - 4)).offset =
        (ws2811.SPAN : Int) ∧
      (session_reads ws2811.ws2811_read [(4, 4), (1, 8)]
        (ws2811.ws2811_write sample_ws sample_kernel (u32_bytes 5 ++ []) 4 ((ws2811.SPAN : Int) - 4))).ret = 0) :=
  ⟨by decide,
    by
      have h := (write_last_word_then_end sample_pwm sample_button sample_ws sample_kernel 5 []
        4 12288 [(4, 4), (1, 8)] (by decide)).1
      exact ⟨h.1, h.2.1, (h.2.2 (by decide)).1⟩,
    by
      have h := (write_last_word_then_end sample_pwm sample_button sample_ws sample_kernel 5 []
        4 12288 [(4, 4), (1, 8)] (by decide)).2.1
      exact ⟨h.1, h.2.1, (h.2.2 (by decide)).1⟩,
    by
      have h := (write_last_word_then_end sample_pwm sample_button sample_ws sample_kernel 5 []
        4 12288 [(4, 4), (1, 8)] (by decide)).2.2
      exact ⟨h.1, h.2.1, (h.2.2.2.2 (by decide)).1⟩⟩

/-! ## C21: scaling of a potentiometer sample into a duty value -/

theorem pot_scale_floor (val : Nat) :
    Int.toNat ⌊((rgb_pot.PWM_MIN : ℚ) + ((rgb_pot.PWM_MAX - rgb_pot.PWM_MIN : Int) : ℚ)
      * (val : ℚ) / 3299)⌋ = 32768 * val / 3299 := by
  have h1 : ((rgb_pot.PWM_MIN : ℚ) + ((rgb_pot.PWM_MAX - rgb_pot.PWM_MIN : Int) : ℚ)
      * (val : ℚ) / 3299) = (((32768 * val : Nat) : Int) : ℚ) / ((3299 : Nat) : ℚ) := by
    simp only [rgb_pot.PWM_MIN, rgb_pot.PWM_MAX]
    push_cast
    ring
  rw [h1, Rat.floor_intCast_div_natCast]
  norm_cast

theorem pot_scale_mod (val : Nat) (h : val ≤ 3299) :
    32768 * val / 3299 % 4294967296 = 32768 * val / 3299 := by
  apply Nat.mod_eq_of_lt
  have : 32768 * val / 3299 ≤ 32768 := by
    apply Nat.div_le_of_le_mul
    omega
  omega

/-- C21: read as exact rational arithmetic, each of the three conversions of
rgb_pot (red, green, blue) is floor(32768 * val / 3299); it maps every raw
sample val in [0, 3299] to a duty value in [0, 0x8000], is non-decreasing in
val, and maps 0 to 0 and 3299 to 0x8000. -/
theorem pot_scaling_range_and_order (val val2 : Nat) :
    (val ≤ 3299 →
      rgb_pot.red_pwm val = 32768 * val / 3299 ∧
      rgb_pot.green_pwm val = 32768 * val / 3299 ∧
      rgb_pot.blue_pwm val = 32768 * val / 3299 ∧
      rgb_pot.red_pwm val ≤ 0x8000 ∧
      rgb_pot.green_pwm val ≤ 0x8000 ∧
      rgb_pot.blue_pwm val ≤ 0x8000) ∧
    (val ≤ val2 → val2 ≤ 3299 →
      rgb_pot.red_pwm val ≤ rgb_pot.red_pwm val2 ∧
      rgb_pot.green_pwm val ≤ rgb_pot.green_pwm val2 ∧
      rgb_pot.blue_pwm val ≤ rgb_pot.blue_pwm val2) ∧
    (rgb_pot.red_pwm 0 = 0 ∧ rgb_pot.green_pwm 0 = 0 ∧ rgb_pot.blue_pwm 0 = 0) ∧
    (rgb_pot.red_pwm 3299 = 0x8000 ∧ rgb_pot.green_pwm 3299 = 0x8000 ∧
      rgb_pot.blue_pwm 3299 = 0x8000) := by
  have key : ∀ v : Nat, v ≤ 3299 →
      rgb_pot.red_pwm v = 32768 * v / 3299 ∧ rgb_pot.green_pwm v = 32768 * v / 3299 ∧
        rgb_pot.blue_pwm v = 32768 * v / 3299 := by
    intro v hv
    unfold rgb_pot.red_pwm rgb_pot.green_pwm rgb_pot.blue_pwm
    rw [pot_scale_floor, pot_scale_mod v hv]
    exact ⟨rfl, rfl, rfl⟩
  have bound : ∀ v : Nat, v ≤ 3299 → 32768 * v / 3299 ≤ 0x8000 := by
    intro v hv
    apply Nat.div_le_of_le_mul
    omega
  refine ⟨?_, ?_, ?_, ?_⟩
  · intro h
    obtain ⟨hr, hg, hb⟩ := key val h
    refine ⟨hr, hg, hb, ?_, ?_, ?_⟩
    · rw [hr]; exact bound val h
    · rw [hg]; exact bound val h
    · rw [hb]; exact bound val h
  · intro h12 h2
    obtain ⟨hr, hg, hb⟩ := key val (le_trans h12 h2)
    obtain ⟨hr2, hg2, hb2⟩ := key val2 h2
    have hm : 32768 * val / 3299 ≤ 32768 * val2 / 3299 :=
      Nat.div_le_div_right (Nat.mul_le_mul_left 32768 h12)
    rw [hr, hg, hb, hr2, hg2, hb2]
    exact ⟨hm, hm, hm⟩
  · obtain ⟨hr, hg, hb⟩ := key 0 (by omega)
    rw [hr, hg, hb]
    exact ⟨rfl, rfl, rfl⟩
  · obtain ⟨hr, hg, hb⟩ := key 3299 le_rfl
    rw [hr, hg, hb]
    exact ⟨rfl, rfl, rfl⟩

/-- C21, witness: the theorem applied to the samples 1000 and 2000, which are
scaled to 9932 and 19865. -/
theorem pot_scaling_range_and_order_witness :
    1000 ≤ 3299 ∧ 1000 ≤ 2000 ∧ 2000 ≤ 3299 ∧
    rgb_pot.red_pwm 1000 = 9932 ∧ rgb_pot.red_pwm 1000 ≤ 0x8000 ∧
    rgb_pot.red_pwm 1000 ≤ rgb_pot.red_pwm 2000 ∧
    rgb_pot.green_pwm 1000 ≤ rgb_pot.green_pwm 2000 ∧
    rgb_pot.blue_pwm 1000 ≤ rgb_pot.blue_pwm 2000 :=
  ⟨by decide, by decide, by decide,
    ((pot_scaling_range_and_order 1000 2000).1 (by decide)).1,
    ((pot_scaling_range_and_order 1000 2000).1 (by decide)).2.2.2.1,
    ((pot_scaling_range_and_order 1000 2000).2.1 (by decide) (by decide)).1,
    ((pot_scaling_range_and_order 1000 2000).2.1 (by decide) (by decide)).2.1,
    ((pot_scaling_range_and_order 1000 2000).2.1 (by decide) (by decide)).2.2⟩

/-! ## C22: the block surface of pwm_rgb and the base_period register -/

/-- C22: with the cursor at BASE_PERIOD_OFFSET (0x12 = 18, past SPAN) the block
write and the block read of pwm_rgb return 0 and leave the machine as it was;
for every cursor and every input a block write leaves the 32-bit word at
base + 0x12 as it was; and the base-period write of rgb_pot, issued after a
seek to 0x12, returns 0 and leaves the base_period register and the whole
machine unchanged. -/
theorem base_period_out_of_reach (pp : pwm_rgb.pwm_rgb_dev) (k : kernel) (room : Nat)
    (buf : List Nat) (count base : Nat) (offset : Int) :
    pwm_rgb.BASE_PERIOD_OFFSET = 18 ∧
    (pwm_rgb.pwm_rgb_write pp k buf count (pwm_rgb.BASE_PERIOD_OFFSET : Int)).ret = 0 ∧
    (pwm_rgb.pwm_rgb_write pp k buf count (pwm_rgb.BASE_PERIOD_OFFSET : Int)).k = k ∧
    (pwm_rgb.pwm_rgb_write pp k buf count (pwm_rgb.BASE_PERIOD_OFFSET : Int)).offset =
      (pwm_rgb.BASE_PERIOD_OFFSET : Int) ∧
    (pwm_rgb.pwm_rgb_read pp k room count (pwm_rgb.BASE_PERIOD_OFFSET : Int)).ret = 0 ∧
    (pwm_rgb.pwm_rgb_read pp k room count (pwm_rgb.BASE_PERIOD_OFFSET : Int)).k = k ∧
    (pwm_rgb.pwm_rgb_read pp k room count (pwm_rgb.BASE_PERIOD_OFFSET : Int)).user = [] ∧
    ioread32 (pwm_rgb.pwm_rgb_write pp k buf count offset).k
      (pp.base_addr + pwm_rgb.BASE_PERIOD_OFFSET) =
        ioread32 k (pp.base_addr + pwm_rgb.BASE_PERIOD_OFFSET) ∧
    (pwm_rgb.mapped base).base_period = base + rgb_pot.BASE_PERIOD_OFFSET ∧
    (rgb_pot.set_base_period (pwm_rgb.mapped base) k).ret = 0 ∧
    (rgb_pot.set_base_period (pwm_rgb.mapped base) k).k = k ∧
    ioread32 (rgb_pot.set_base_period (pwm_rgb.mapped base) k).k
      (pwm_rgb.mapped base).base_period = ioread32 k (pwm_rgb.mapped base).base_period := by
  have hpast : (pwm_rgb.SPAN : Int) ≤ (pwm_rgb.BASE_PERIOD_OFFSET : Int) := by decide
  have hpast2 : (pwm_rgb.SPAN : Int) ≤ (rgb_pot.BASE_PERIOD_OFFSET : Int) := by decide
  refine ⟨rfl, ?_, ?_, ?_, ?_, ?_, ?_, ?_, rfl, ?_, ?_, ?_⟩
  · rw [pwm_rgb_write_past_end pp k buf count _ hpast]
  · rw [pwm_rgb_write_past_end pp k buf count _ hpast]
  · rw [pwm_rgb_write_past_end pp k buf count _ hpast]
  · rw [pwm_rgb_read_past_end pp k room count _ hpast]
  · rw [pwm_rgb_read_past_end pp k room count _ hpast]
  · rw [pwm_rgb_read_past_end pp k room count _ hpast]
  · rcases lt_or_le offset 0 with hn | h0
    · rw [pwm_rgb_write_negative pp k buf count offset hn]
    rcases le_or_lt (pwm_rgb.SPAN : Int) offset with hs | h1
    · rw [pwm_rgb_write_past_end pp k buf count offset hs]
    by_cases h2 : offset % 4 = 0
    · rw [pwm_rgb_write_aligned pp k buf count offset h0 h1 h2]
      split_ifs
      · have hd : pp.base_addr + pwm_rgb.BASE_PERIOD_OFFSET + 4 ≤ pp.base_addr + offset.toNat ∨
            pp.base_addr + offset.toNat + 4 ≤ pp.base_addr + pwm_rgb.BASE_PERIOD_OFFSET := by
          right
          simp only [pwm_rgb.SPAN, pwm_rgb.BASE_PERIOD_OFFSET] at h1 ⊢
          omega
        have e := ioread32_iowrite32_disjoint (bytes_u32 (copy_from_user buf 4).2)
          (pp.base_addr + offset.toNat) (pp.base_addr + pwm_rgb.BASE_PERIOD_OFFSET) k hd
        simp only [ioread32] at e ⊢
        exact e
      · rfl
    · rw [pwm_rgb_write_unaligned pp k buf count offset h0 h1 h2]
      rfl
  · unfold rgb_pot.set_base_period
    rw [pwm_rgb_write_past_end _ k _ 4 _ hpast2]
  · unfold rgb_pot.set_base_period
    rw [pwm_rgb_write_past_end _ k _ 4 _ hpast2]
  · unfold rgb_pot.set_base_period
    rw [pwm_rgb_write_past_end _ k _ 4 _ hpast2]

/-! ## C23: lock balance of the block write -/

/-- C23: for each of the three drivers and every input of a block write: on
the three early-return paths (negative cursor, cursor at or past SPAN,
unaligned cursor) the private data, lock included, is untouched and the call
performs neither a mutex_lock nor a mutex_unlock; on the path of an aligned
cursor inside the window the call performs exactly one mutex_lock, then the
store (or the warning of a failed copy), then exactly one mutex_unlock, and
returns with the lock free; and a call entered with the lock free returns
with the private data, lock included, as it was. -/
theorem block_write_lock_balance (pp : pwm_rgb.pwm_rgb_dev) (sp : stop_button.stop_button_dev)
    (wp : ws2811.ws2811_dev)
    (mem : Nat → Nat) (buf : List Nat) (count : Nat) (offset : Int) :
    ((offset < 0 ∨ (pwm_rgb.SPAN : Int) ≤ offset ∨ offset % 4 ≠ 0) →
      (pwm_rgb.pwm_rgb_write pp (kernel.mk mem []) buf count offset).priv = pp ∧
      event.mutex_lock ∉ (pwm_rgb.pwm_rgb_write pp (kernel.mk mem []) buf count offset).k.trace ∧
      event.mutex_unlock ∉ (pwm_rgb.pwm_rgb_write pp (kernel.mk mem []) buf count offset).k.trace) ∧
    (0 ≤ offset → offset < (pwm_rgb.SPAN : Int) → offset % 4 = 0 →
      (pwm_rgb.pwm_rgb_write pp (kernel.mk mem []) buf count offset).priv.lock = false ∧
      (pwm_rgb.pwm_rgb_write pp (kernel.mk mem []) buf count offset).k.trace =
        [event.mutex_lock,
          if (copy_from_user buf 4).1 ≠ 4 then
            event.iowrite32 (bytes_u32 (copy_from_user buf 4).2 % 4294967296)
              (pp.base_addr + offset.toNat)
          else event.pr_warn,
          event.mutex_unlock]) ∧
    (pp.lock = false →
      (pwm_rgb.pwm_rgb_write pp (kernel.mk mem []) buf count offset).priv = pp) ∧
    ((offset < 0 ∨ (stop_button.SPAN : Int) ≤ offset ∨ offset % 4 ≠ 0) →
      (stop_button.stop_button_write sp (kernel.mk mem []) buf count offset).priv = sp ∧
      event.mutex_lock ∉ (stop_button.stop_button_write sp (kernel.mk mem []) buf count offset).k.trace ∧
      event.mutex_unlock ∉ (stop_button.stop_button_write sp (kernel.mk mem []) buf count offset).k.trace) ∧
    (0 ≤ offset → offset < (stop_button.SPAN : Int) → offset % 4 = 0 →
      (stop_button.stop_button_write sp (kernel.mk mem []) buf count offset).priv.lock = false ∧
      (stop_button.stop_button_write sp (kernel.mk mem []) buf count offset).k.trace =
        [event.mutex_lock,
          if (copy_from_user buf 4).1 ≠ 4 then
            event.iowrite32 (bytes_u32 (copy_from_user buf 4).2 % 4294967296)
              (sp.base_addr + offset.toNat)
          else event.pr_warn,
          event.mutex_unlock]) ∧
    (sp.lock = false →
      (stop_button.stop_button_write sp (kernel.mk mem []) buf count offset).priv = sp) ∧
    ((offset < 0 ∨ (ws2811.SPAN : Int) ≤ offset ∨ offset % 4 ≠ 0) →
      (ws2811.ws2811_write wp (kernel.mk mem []) buf count offset).priv = wp ∧
      event.mutex_lock ∉ (ws2811.ws2811_write wp (kernel.mk mem []) buf count offset).k.trace ∧
      event.mutex_unlock ∉ (ws2811.ws2811_write wp (kernel.mk mem []) buf count offset).k.trace) ∧
    (0 ≤ offset → offset < (ws2811.SPAN : Int) → offset % 4 = 0 →
      (ws2811.ws2811_write wp (kernel.mk mem []) buf count offset).priv.lock = false ∧
      (ws2811.ws2811_write wp (kernel.mk mem []) buf count offset).k.trace =
        [event.mutex_lock,
          if (copy_from_user buf 4).1 ≠ 4 then
            event.iowrite32 (bytes_u32 (copy_from_user buf 4).2 % 4294967296)
              (wp.base_addr + offset.toNat)
          else event.pr_warn,
          event.mutex_unlock]) ∧
    (wp.lock = false →
      (ws2811.ws2811_write wp (kernel.mk mem []) buf count offset).priv = wp) := by
  refine ⟨?_, ?_, ?_, ?_, ?_, ?_, ?_, ?_, ?_⟩
  · intro h
    rcases lt_or_le offset 0 with hn | h0
    · rw [pwm_rgb_write_negative pp _ buf count offset hn]
      exact ⟨rfl, by simp, by simp⟩
    rcases le_or_lt (pwm_rgb.SPAN : Int) offset with hs | h1
    · rw [pwm_rgb_write_past_end pp _ buf count offset hs]
      exact ⟨rfl, by simp, by simp⟩
    have h2 : offset % 4 ≠ 0 := by
      rcases h with h | h | h
      · exact absurd h (not_lt.mpr h0)
      · exact absurd h (not_le.mpr h1)
      · exact h
    rw [pwm_rgb_write_unaligned pp _ buf count offset h0 h1 h2]
    exact ⟨rfl, by simp [pr_warn], by simp [pr_warn]⟩
  · intro h0 h1 h2
    rw [pwm_rgb_write_aligned pp _ buf count offset h0 h1 h2]
    split_ifs <;> exact ⟨rfl, rfl⟩
  · intro hl
    rcases lt_or_le offset 0 with hn | h0
    · rw [pwm_rgb_write_negative pp _ buf count offset hn]
    rcases le_or_lt (pwm_rgb.SPAN : Int) offset with hs | h1
    · rw [pwm_rgb_write_past_end pp _ buf count offset hs]
    by_cases h2 : offset % 4 = 0
    · rw [pwm_rgb_write_aligned pp _ buf count offset h0 h1 h2]
      cases pp with
      | mk =>
        simp only at hl
        subst hl
        split_ifs <;> rfl
    · rw [pwm_rgb_write_unaligned pp _ buf count offset h0 h1 h2]
  · intro h
    rcases lt_or_le offset 0 with hn | h0
    · rw [stop_button_write_negative sp _ buf count offset hn]
      exact ⟨rfl, by simp, by simp⟩
    rcases le_or_lt (stop_button.SPAN : Int) offset with hs | h1
    · rw [stop_button_write_past_end sp _ buf count offset hs]
      exact ⟨rfl, by simp, by simp⟩
    have h2 : offset % 4 ≠ 0 := by
      rcases h with h | h | h
      · exact absurd h (not_lt.mpr h0)
      · exact absurd h (not_le.mpr h1)
      · exact h
    rw [stop_button_write_unaligned sp _ buf count offset h0 h1 h2]
    exact ⟨rfl, by simp [pr_warn], by simp [pr_warn]⟩
  · intro h0 h1 h2
    rw [stop_button_write_aligned sp _ buf count offset h0 h1 h2]
    split_ifs <;> exact ⟨rfl, rfl⟩
  · intro hl
    rcases lt_or_le offset 0 with hn | h0
    · rw [stop_button_write_negative sp _ buf count offset hn]
    rcases le_or_lt (stop_button.SPAN : Int) offset with hs | h1
    · rw [stop_button_write_past_end sp _ buf count offset hs]
    by_cases h2 : offset % 4 = 0
    · rw [stop_button_write_aligned sp _ buf count offset h0 h1 h2]
      cases sp with
      | mk =>
        simp only at hl
        subst hl
        split_ifs <;> rfl
    · rw [stop_button_write_unaligned sp _ buf count offset h0 h1 h2]
  · intro h
    rcases lt_or_le offset 0 with hn | h0
    · rw [ws2811_write_negative wp _ buf count offset hn]
      exact ⟨rfl, by simp, by simp⟩
    rcases le_or_lt (ws2811.SPAN : Int) offset with hs | h1
    · rw [ws2811_write_past_end wp _ buf count offset hs]
      exact ⟨rfl, by simp, by simp⟩
    have h2 : offset % 4 ≠ 0 := by
      rcases h with h | h | h
      · exact absurd h (not_lt.mpr h0)
      · exact absurd h (not_le.mpr h1)
      · exact h
    rw [ws2811_write_unaligned wp _ buf count offset h0 h1 h2]
    exact ⟨rfl, by simp [pr_warn], by simp [pr_warn]⟩
  · intro h0 h1 h2
    rw [ws2811_write_aligned wp _ buf count offset h0 h1 h2]
    split_ifs <;> exact ⟨rfl, rfl⟩
  · intro hl
    rcases lt_or_le offset 0 with hn | h0
    · rw [ws2811_write_negative wp _ buf count offset hn]
    rcases le_or_lt (ws2811.SPAN : Int) offset with hs | h1
    · rw [ws2811_write_past_end wp _ buf count offset hs]
    by_cases h2 : offset % 4 = 0
    · rw [ws2811_write_aligned wp _ buf count offset h0 h1 h2]
      cases wp with
      | mk =>
        simp only at hl
        subst hl
        split_ifs <;> rfl
    · rw [ws2811_write_unaligned wp _ buf count offset h0 h1 h2]

/-- C23, witness: the theorem applied to a write of 4 bytes at offset 4 on
devices whose lock is free. -/
theorem block_write_lock_balance_witness :
    (0 : Int) ≤ 4 ∧ (4 : Int) % 4 = 0 ∧ (4 : Int) < ws2811.SPAN ∧
    sample_pwm.lock = false ∧ sample_button.lock = false ∧ sample_ws.lock = false ∧
    ((pwm_rgb.pwm_rgb_write sample_pwm (kernel.mk sample_kernel.mem []) [1, 2, 3, 4] 4 4).priv.lock = false ∧
      (pwm_rgb.pwm_rgb_write sample_pwm (kernel.mk sample_kernel.mem []) [1, 2, 3, 4] 4 4).k.trace =
        [event.mutex_lock, event.iowrite32 67305985 (sample_pwm.base_addr + 4), event.mutex_unlock] ∧
      (pwm_rgb.pwm_rgb_write sample_pwm (kernel.mk sample_kernel.mem []) [1, 2, 3, 4] 4 4).priv = sample_pwm) ∧
    ((stop_button.stop_button_write sample_button (kernel.mk sample_kernel.mem []) [1, 2, 3, 4] 4 4).priv.lock = false ∧
      (stop_button.stop_button_write sample_button (kernel.mk sample_kernel.mem []) [1, 2, 3, 4] 4 4).k.trace =
        [event.mutex_lock, event.iowrite32 67305985 (sample_button.base_addr + 4), event.mutex_unlock] ∧
      (stop_button.stop_button_write sample_button (kernel.mk sample_kernel.mem []) [1, 2, 3, 4] 4 4).priv = sample_button) ∧
    ((ws2811.ws2811_write sample_ws (kernel.mk sample_kernel.mem []) [1, 2, 3, 4] 4 4).priv.lock = false ∧
      (ws2811.ws2811_write sample_ws (kernel.mk sample_kernel.mem []) [1, 2, 3, 4] 4 4).k.trace =
        [event.mutex_lock, event.iowrite32 67305985 (sample_ws.base_addr + 4), event.mutex_unlock] ∧
      (ws2811.ws2811_write sample_ws (kernel.mk sample_kernel.mem []) [1, 2, 3, 4] 4 4).priv = sample_ws) :=
  ⟨by decide, by decide, by decide, by decide, by decide, by decide,
    by
      have h1 := (block_write_lock_balance sample_pwm sample_button sample_ws sample_kernel.mem
          [1, 2, 3, 4] 4 4).2.1
        (by decide) (by decide) (by decide)
      have h2 := (block_write_lock_balance sample_pwm sample_button sample_ws sample_kernel.mem
          [1, 2, 3, 4] 4 4).2.2.1 (by decide)
      exact ⟨h1.1, h1.2, h2⟩,
    by
      have h1 := (block_write_lock_balance sample_pwm sample_button sample_ws sample_kernel.mem
          [1, 2, 3, 4] 4 4).2.2.2.2.1
        (by decide) (by decide) (by decide)
      have h2 := (block_write_lock_balance sample_pwm sample_button sample_ws sample_kernel.mem
          [1, 2, 3, 4] 4 4).2.2.2.2.2.1 (by decide)
      exact ⟨h1.1, h1.2, h2⟩,
    by
      have h1 := (block_write_lock_balance sample_pwm sample_button sample_ws sample_kernel.mem
          [1, 2, 3, 4] 4 4).2.2.2.2.2.2.2.1
        (by decide) (by decide) (by decide)
      have h2 := (block_write_lock_balance sample_pwm sample_button sample_ws sample_kernel.mem
          [1, 2, 3, 4] 4 4).2.2.2.2.2.2.2.2 (by decide)
      exact ⟨h1.1, h1.2, h2⟩⟩

/-! ## C24: block read and the outcome of copy_to_user -/

/-- C24: copy_to_user leaves 4, 3, 2, 1 or 0 bytes uncopied according to the
writable room of the caller buffer; for each of the three drivers, at an
aligned cursor inside the window, the block read returns -EFAULT with the
cursor unchanged if and only if copy_to_user leaves all 4 bytes uncopied, and
whenever fewer than 4 bytes are left uncopied, also when only 1 to 3 bytes
reached the caller, it returns 4 and moves the cursor by 4. -/
theorem read_copy_failure_rule (pp : pwm_rgb.pwm_rgb_dev) (sp : stop_button.stop_button_dev)
    (wp : ws2811.ws2811_dev)
    (k : kernel) (room count : Nat) (offset : Int) (src : List Nat)
    (h0 : 0 ≤ offset) (h2 : offset % 4 = 0) :
    ((copy_to_user 0 src 4).1 = 4 ∧ (copy_to_user 1 src 4).1 = 3 ∧
      (copy_to_user 2 src 4).1 = 2 ∧ (copy_to_user 3 src 4).1 = 1 ∧
      (copy_to_user 4 src 4).1 = 0 ∧ (copy_to_user room src 4).1 ≤ 4) ∧
    (offset < (pwm_rgb.SPAN : Int) →
      (((pwm_rgb.pwm_rgb_read pp k room count offset).ret = -EFAULT ∧
          (pwm_rgb.pwm_rgb_read pp k room count offset).offset = offset) ↔
        (copy_to_user room (u32_bytes (ioread32 k (pp.base_addr + offset.toNat))) 4).1 = 4) ∧
      ((copy_to_user room (u32_bytes (ioread32 k (pp.base_addr + offset.toNat))) 4).1 < 4 →
        (pwm_rgb.pwm_rgb_read pp k room count offset).ret = 4 ∧
        (pwm_rgb.pwm_rgb_read pp k room count offset).offset = offset + 4 ∧
        (pwm_rgb.pwm_rgb_read pp k room count offset).user =
          (u32_bytes (ioread32 k (pp.base_addr + offset.toNat))).take room)) ∧
    (offset < (stop_button.SPAN : Int) →
      (((stop_button.stop_button_read sp k room count offset).ret = -EFAULT ∧
          (stop_button.stop_button_read sp k room count offset).offset = offset) ↔
        (copy_to_user room (u32_bytes (ioread32 k (sp.base_addr + offset.toNat))) 4).1 = 4) ∧
      ((copy_to_user room (u32_bytes (ioread32 k (sp.base_addr + offset.toNat))) 4).1 < 4 →
        (stop_button.stop_button_read sp k room count offset).ret = 4 ∧
        (stop_button.stop_button_read sp k room count offset).offset = offset + 4 ∧
        (stop_button.stop_button_read sp k room count offset).user =
          (u32_bytes (ioread32 k (sp.base_addr + offset.toNat))).take room)) ∧
    (offset < (ws2811.SPAN : Int) →
      (((ws2811.ws2811_read wp k room count offset).ret = -EFAULT ∧
          (ws2811.ws2811_read wp k room count offset).offset = offset) ↔
        (copy_to_user room (u32_bytes (ioread32 k (wp.base_addr + offset.toNat))) 4).1 = 4) ∧
      ((copy_to_user room (u32_bytes (ioread32 k (wp.base_addr + offset.toNat))) 4).1 < 4 →
        (ws2811.ws2811_read wp k room count offset).ret = 4 ∧
        (ws2811.ws2811_read wp k room count offset).offset = offset + 4 ∧
        (ws2811.ws2811_read wp k room count offset).user =
          (u32_bytes (ioread32 k (wp.base_addr + offset.toNat))).take room)) := by
  refine ⟨⟨rfl, rfl, rfl, rfl, rfl, ?_⟩, ?_, ?_, ?_⟩
  · simp only [copy_to_user]
    omega
  · intro h1
    rw [pwm_rgb_read_aligned pp k room count offset h0 h1 h2]
    refine ⟨?_, ?_⟩
    · split_ifs with hc
      · exact ⟨fun _ => hc, fun _ => ⟨rfl, rfl⟩⟩
      · constructor
        · intro h
          have hne : ¬ ((4 : Int) = -EFAULT) := by decide
          exact absurd h.1 hne
        · intro h
          exact absurd h hc
    · intro hlt
      rw [if_neg (by omega)]
      refine ⟨rfl, rfl, ?_⟩
      have hl : ∀ w : Nat, (u32_bytes w).length ≤ 4 := fun w => le_of_eq rfl
      simp only [copy_to_user]
      rw [List.take_of_length_le (hl _)]
  · intro h1
    rw [stop_button_read_aligned sp k room count offset h0 h1 h2]
    refine ⟨?_, ?_⟩
    · split_ifs with hc
      · exact ⟨fun _ => hc, fun _ => ⟨rfl, rfl⟩⟩
      · constructor
        · intro h
          have hne : ¬ ((4 : Int) = -EFAULT) := by decide
          exact absurd h.1 hne
        · intro h
          exact absurd h hc
    · intro hlt
      rw [if_neg (by omega)]
      refine ⟨rfl, rfl, ?_⟩
      have hl : ∀ w : Nat, (u32_bytes w).length ≤ 4 := fun w => le_of_eq rfl
      simp only [copy_to_user]
      rw [List.take_of_length_le (hl _)]
  · intro h1
    rw [ws2811_read_aligned wp k room count offset h0 h1 h2]
    refine ⟨?_, ?_⟩
    · split_ifs with hc
      · exact ⟨fun _ => hc, fun _ => ⟨rfl, rfl⟩⟩
      · constructor
        · intro h
          have hne : ¬ ((4 : Int) = -EFAULT) := by decide
          exact absurd h.1 hne
        · intro h
          exact absurd h hc
    · intro hlt
      rw [if_neg (by omega)]
      refine ⟨rfl, rfl, ?_⟩
      have hl : ∀ w : Nat, (u32_bytes w).length ≤ 4 := fun w => le_of_eq rfl
      simp only [copy_to_user]
      rw [List.take_of_length_le (hl _)]

/-- C24, witness: the theorem applied to a read at offset 4 into a caller
buffer with a single writable byte: 3 bytes are left uncopied, 1 byte reaches
the caller, the read returns 4 and moves the cursor to 8. -/
theorem read_copy_failure_rule_witness :
    (0 : Int) ≤ 4 ∧ (4 : Int) % 4 = 0 ∧ (4 : Int) < ws2811.SPAN ∧
    (copy_to_user 1 (u32_bytes (ioread32 sample_kernel (sample_pwm.base_addr + 4))) 4).1 = 3 ∧
    ((pwm_rgb.pwm_rgb_read sample_pwm sample_kernel 1 4 4).ret = 4 ∧
      (pwm_rgb.pwm_rgb_read sample_pwm sample_kernel 1 4 4).offset = 4 + 4 ∧
      (pwm_rgb.pwm_rgb_read sample_pwm sample_kernel 1 4 4).user = [7]) ∧
    ((stop_button.stop_button_read sample_button sample_kernel 1 4 4).ret = 4 ∧
      (stop_button.stop_button_read sample_button sample_kernel 1 4 4).offset = 4 + 4 ∧
      (stop_button.stop_button_read sample_button sample_kernel 1 4 4).user = [7]) ∧
    ((ws2811.ws2811_read sample_ws sample_kernel 1 4 4).ret = 4 ∧
      (ws2811.ws2811_read sample_ws sample_kernel 1 4 4).offset = 4 + 4 ∧
      (ws2811.ws2811_read sample_ws sample_kernel 1 4 4).user = [7]) :=
  ⟨by decide, by decide, by decide, by decide,
    by
      have h := ((read_copy_failure_rule sample_pwm sample_button sample_ws sample_kernel 1 4 4
        [] (by decide) (by decide)).2.1 (by decide)).2 (by decide)
      exact ⟨h.1, h.2.1, h.2.2.trans (by decide)⟩,
    by
      have h := ((read_copy_failure_rule sample_pwm sample_button sample_ws sample_kernel 1 4 4
        [] (by decide) (by decide)).2.2.1 (by decide)).2 (by decide)
      exact ⟨h.1, h.2.1, h.2.2.trans (by decide)⟩,
    by
      have h := ((read_copy_failure_rule sample_pwm sample_button sample_ws sample_kernel 1 4 4
        [] (by decide) (by decide)).2.2.2 (by decide)).2 (by decide)
      exact ⟨h.1, h.2.1, h.2.2.trans (by decide)⟩⟩

/-! ## C25: the cursor of a session -/

theorem pwm_rgb_step_cursor (o : file_op) (r : file_result pwm_rgb.pwm_rgb_dev)
    (h4 : r.offset % 4 = 0) (h0 : 0 ≤ r.offset) (hS : r.offset ≤ (pwm_rgb.SPAN : Int)) :
    (session_step pwm_rgb.pwm_rgb_read pwm_rgb.pwm_rgb_write o r).offset % 4 = 0 ∧
    (session_step pwm_rgb.pwm_rgb_read pwm_rgb.pwm_rgb_write o r).offset ≤ (pwm_rgb.SPAN : Int) ∧
    (session_step pwm_rgb.pwm_rgb_read pwm_rgb.pwm_rgb_write o r).offset =
      r.offset + (if (session_step pwm_rgb.pwm_rgb_read pwm_rgb.pwm_rgb_write o r).ret = 4 then 4 else 0) ∧
    (r.offset = (pwm_rgb.SPAN : Int) → (session_step pwm_rgb.pwm_rgb_read pwm_rgb.pwm_rgb_write o r).ret = 0) := by
  have hE : ¬ (-EFAULT = (4 : Int)) := by decide
  have hZ : ¬ ((0 : Int) = 4) := by decide
  cases o with
  | read room count =>
    simp only [session_step]
    rcases le_or_lt (pwm_rgb.SPAN : Int) r.offset with hs | h1
    · simp only [pwm_rgb_read_past_end r.priv r.k room count r.offset hs, hZ, if_false, add_zero]
      exact ⟨h4, hS, trivial, fun _ => trivial⟩
    · have hne : r.offset ≠ (pwm_rgb.SPAN : Int) := ne_of_lt h1
      by_cases hc : (copy_to_user room
          (u32_bytes (ioread32 r.k (r.priv.base_addr + r.offset.toNat))) 4).1 = 4
      · simp only [pwm_rgb_read_aligned r.priv r.k room count r.offset h0 h1 h4, if_pos hc, hE,
          if_false, add_zero]
        exact ⟨h4, hS, trivial, fun h => absurd h hne⟩
      · simp only [pwm_rgb_read_aligned r.priv r.k room count r.offset h0 h1 h4, if_neg hc,
          if_true]
        simp only [pwm_rgb.SPAN] at h1 ⊢
        exact ⟨by omega, by omega, trivial, fun h => absurd h (by omega)⟩
  | write buf count =>
    simp only [session_step]
    rcases le_or_lt (pwm_rgb.SPAN : Int) r.offset with hs | h1
    · simp only [pwm_rgb_write_past_end r.priv r.k buf count r.offset hs, hZ, if_false, add_zero]
      exact ⟨h4, hS, trivial, fun _ => trivial⟩
    · have hne : r.offset ≠ (pwm_rgb.SPAN : Int) := ne_of_lt h1
      by_cases hc : (copy_from_user buf 4).1 ≠ 4
      · simp only [pwm_rgb_write_aligned r.priv r.k buf count r.offset h0 h1 h4, if_pos hc,
          if_true]
        simp only [pwm_rgb.SPAN] at h1 ⊢
        exact ⟨by omega, by omega, trivial, fun h => absurd h (by omega)⟩
      · simp only [pwm_rgb_write_aligned r.priv r.k buf count r.offset h0 h1 h4, if_neg hc, hE,
          if_false, add_zero]
        exact ⟨h4, hS, trivial, fun h => absurd h hne⟩

theorem pwm_rgb_session_cursor (ops : List file_op) :
    ∀ r : file_result pwm_rgb.pwm_rgb_dev, r.offset % 4 = 0 → 0 ≤ r.offset →
      r.offset ≤ (pwm_rgb.SPAN : Int) →
      (session_ops pwm_rgb.pwm_rgb_read pwm_rgb.pwm_rgb_write ops r).offset % 4 = 0 ∧
      (session_ops pwm_rgb.pwm_rgb_read pwm_rgb.pwm_rgb_write ops r).offset ≤ (pwm_rgb.SPAN : Int) ∧
      (session_ops pwm_rgb.pwm_rgb_read pwm_rgb.pwm_rgb_write ops r).offset =
        r.offset + 4 * (session_transfers pwm_rgb.pwm_rgb_read pwm_rgb.pwm_rgb_write ops r : Int) := by
  induction ops with
  | nil =>
    intro r h4 h0 hS
    simp only [session_ops, session_transfers]
    exact ⟨h4, hS, by simp⟩
  | cons o os ih =>
    intro r h4 h0 hS
    obtain ⟨s4, sS, se, _⟩ := pwm_rgb_step_cursor o r h4 h0 hS
    have s0 : 0 ≤ (session_step pwm_rgb.pwm_rgb_read pwm_rgb.pwm_rgb_write o r).offset := by
      rw [se]
      split_ifs <;> omega
    obtain ⟨f4, fS, fe⟩ := ih (session_step pwm_rgb.pwm_rgb_read pwm_rgb.pwm_rgb_write o r) s4 s0 sS
    simp only [session_ops, session_transfers]
    refine ⟨f4, fS, ?_⟩
    rw [fe, se]
    split_ifs <;> push_cast <;> ring

theorem stop_button_step_cursor (o : file_op) (r : file_result stop_button.stop_button_dev)
    (h4 : r.offset % 4 = 0) (h0 : 0 ≤ r.offset) (hS : r.offset ≤ (stop_button.SPAN : Int)) :
    (session_step stop_button.stop_button_read stop_button.stop_button_write o r).offset % 4 = 0 ∧
    (session_step stop_button.stop_button_read stop_button.stop_button_write o r).offset ≤ (stop_button.SPAN : Int) ∧
    (session_step stop_button.stop_button_read stop_button.stop_button_write o r).offset =
      r.offset + (if (session_step stop_button.stop_button_read stop_button.stop_button_write o r).ret = 4 then 4 else 0) ∧
    (r.offset = (stop_button.SPAN : Int) → (session_step stop_button.stop_button_read stop_button.stop_button_write o r).ret = 0) := by
  have hE : ¬ (-EFAULT = (4 : Int)) := by decide
  have hZ : ¬ ((0 : Int) = 4) := by decide
  cases o with
  | read room count =>
    simp only [session_step]
    rcases le_or_lt (stop_button.SPAN : Int) r.offset with hs | h1
    · simp only [stop_button_read_past_end r.priv r.k room count r.offset hs, hZ, if_false, add_zero]
      exact ⟨h4, hS, trivial, fun _ => trivial⟩
    · have hne : r.offset ≠ (stop_button.SPAN : Int) := ne_of_lt h1
      by_cases hc : (copy_to_user room
          (u32_bytes (ioread32 r.k (r.priv.base_addr + r.offset.toNat))) 4).1 = 4
      · simp only [stop_button_read_aligned r.priv r.k room count r.offset h0 h1 h4, if_pos hc, hE,
          if_false, add_zero]
        exact ⟨h4, hS, trivial, fun h => absurd h hne⟩
      · simp only [stop_button_read_aligned r.priv r.k room count r.offset h0 h1 h4, if_neg hc,
          if_true]
        simp only [stop_button.SPAN] at h1 ⊢
        exact ⟨by omega, by omega, trivial, fun h => absurd h (by omega)⟩
  | write buf count =>
    simp only [session_step]
    rcases le_or_lt (stop_button.SPAN : Int) r.offset with hs | h1
    · simp only [stop_button_write_past_end r.priv r.k buf count r.offset hs, hZ, if_false, add_zero]
      exact ⟨h4, hS, trivial, fun _ => trivial⟩
    · have hne : r.offset ≠ (stop_button.SPAN : Int) := ne_of_lt h1
      by_cases hc : (copy_from_user buf 4).1 ≠ 4
      · simp only [stop_button_write_aligned r.priv r.k buf count r.offset h0 h1 h4, if_pos hc,
          if_true]
        simp only [stop_button.SPAN] at h1 ⊢
        exact ⟨by omega, by omega, trivial, fun h => absurd h (by omega)⟩
      · simp only [stop_button_write_aligned r.priv r.k buf count r.offset h0 h1 h4, if_neg hc, hE,
          if_false, add_zero]
        exact ⟨h4, hS, trivial, fun h => absurd h hne⟩

theorem stop_button_session_cursor (ops : List file_op) :
    ∀ r : file_result stop_button.stop_button_dev, r.offset % 4 = 0 → 0 ≤ r.offset →
      r.offset ≤ (stop_button.SPAN : Int) →
      (session_ops stop_button.stop_button_read stop_button.stop_button_write ops r).offset % 4 = 0 ∧
      (session_ops stop_button.stop_button_read stop_button.stop_button_write ops r).offset ≤ (stop_button.SPAN : Int) ∧
      (session_ops stop_button.stop_button_read stop_button.stop_button_write ops r).offset =
        r.offset + 4 * (session_transfers stop_button.stop_button_read stop_button.stop_button_write ops r : Int) := by
  induction ops with
  | nil =>
    intro r h4 h0 hS
    simp only [session_ops, session_transfers]
    exact ⟨h4, hS, by simp⟩
  | cons o os ih =>
    intro r h4 h0 hS
    obtain ⟨s4, sS, se, _⟩ := stop_button_step_cursor o r h4 h0 hS
    have s0 : 0 ≤ (session_step stop_button.stop_button_read stop_button.stop_button_write o r).offset := by
      rw [se]
      split_ifs <;> omega
    obtain ⟨f4, fS, fe⟩ := ih (session_step stop_button.stop_button_read stop_button.stop_button_write o r) s4 s0 sS
    simp only [session_ops, session_transfers]
    refine ⟨f4, fS, ?_⟩
    rw [fe, se]
    split_ifs <;> push_cast <;> ring

theorem ws2811_step_cursor (o : file_op) (r : file_result ws2811.ws2811_dev)
    (h4 : r.offset % 4 = 0) (h0 : 0 ≤ r.offset) (hS : r.offset ≤ (ws2811.SPAN : Int)) :
    (session_step ws2811.ws2811_read ws2811.ws2811_write o r).offset % 4 = 0 ∧
    (session_step ws2811.ws2811_read ws2811.ws2811_write o r).offset ≤ (ws2811.SPAN : Int) ∧
    (session_step ws2811.ws2811_read ws2811.ws2811_write o r).offset =
      r.offset + (if (session_step ws2811.ws2811_read ws2811.ws2811_write o r).ret = 4 then 4 else 0) ∧
    (r.offset = (ws2811.SPAN : Int) → (session_step ws2811.ws2811_read ws2811.ws2811_write o r).ret = 0) := by
  have hE : ¬ (-EFAULT = (4 : Int)) := by decide
  have hZ : ¬ ((0 : Int) = 4) := by decide
  cases o with
  | read room count =>
    simp only [session_step]
    rcases le_or_lt (ws2811.SPAN : Int) r.offset with hs | h1
    · simp only [ws2811_read_past_end r.priv r.k room count r.offset hs, hZ, if_false, add_zero]
      exact ⟨h4, hS, trivial, fun _ => trivial⟩
    · have hne : r.offset ≠ (ws2811.SPAN : Int) := ne_of_lt h1
      by_cases hc : (copy_to_user room
          (u32_bytes (ioread32 r.k (r.priv.base_addr + r.offset.toNat))) 4).1 = 4
      · simp only [ws2811_read_aligned r.priv r.k room count r.offset h0 h1 h4, if_pos hc, hE,
          if_false, add_zero]
        exact ⟨h4, hS, trivial, fun h => absurd h hne⟩
      · simp only [ws2811_read_aligned r.priv r.k room count r.offset h0 h1 h4, if_neg hc,
          if_true]
        simp only [ws2811.SPAN] at h1 ⊢
        exact ⟨by omega, by omega, trivial, fun h => absurd h (by omega)⟩
  | write buf count =>
    simp only [session_step]
    rcases le_or_lt (ws2811.SPAN : Int) r.offset with hs | h1
    · simp only [ws2811_write_past_end r.priv r.k buf count r.offset hs, hZ, if_false, add_zero]
      exact ⟨h4, hS, trivial, fun _ => trivial⟩
    · have hne : r.offset ≠ (ws2811.SPAN : Int) := ne_of_lt h1
      by_cases hc : (copy_from_user buf 4).1 ≠ 4
      · simp only [ws2811_write_aligned r.priv r.k buf count r.offset h0 h1 h4, if_pos hc,
          if_true]
        simp only [ws2811.SPAN] at h1 ⊢
        exact ⟨by omega, by omega, trivial, fun h => absurd h (by omega)⟩
      · simp only [ws2811_write_aligned r.priv r.k buf count r.offset h0 h1 h4, if_neg hc, hE,
          if_false, add_zero]
        exact ⟨h4, hS, trivial, fun h => absurd h hne⟩

theorem ws2811_session_cursor (ops : List file_op) :
    ∀ r : file_result ws2811.ws2811_dev, r.offset % 4 = 0 → 0 ≤ r.offset →
      r.offset ≤ (ws2811.SPAN : Int) →
      (session_ops ws2811.ws2811_read ws2811.ws2811_write ops r).offset % 4 = 0 ∧
      (session_ops ws2811.ws2811_read ws2811.ws2811_write ops r).offset ≤ (ws2811.SPAN : Int) ∧
      (session_ops ws2811.ws2811_read ws2811.ws2811_write ops r).offset =
        r.offset + 4 * (session_transfers ws2811.ws2811_read ws2811.ws2811_write ops r : Int) := by
  induction ops with
  | nil =>
    intro r h4 h0 hS
    simp only [session_ops, session_transfers]
    exact ⟨h4, hS, by simp⟩
  | cons o os ih =>
    intro r h4 h0 hS
    obtain ⟨s4, sS, se, _⟩ := ws2811_step_cursor o r h4 h0 hS
    have s0 : 0 ≤ (session_step ws2811.ws2811_read ws2811.ws2811_write o r).offset := by
      rw [se]
      split_ifs <;> omega
    obtain ⟨f4, fS, fe⟩ := ih (session_step ws2811.ws2811_read ws2811.ws2811_write o r) s4 s0 sS
    simp only [session_ops, session_transfers]
    refine ⟨f4, fS, ?_⟩
    rw [fe, se]
    split_ifs <;> push_cast <;> ring

/-- C25: for each driver, a session whose cursor is a multiple of 4 between
0 and SPAN and that then issues any finite sequence of block reads and block
writes (any caller buffers, hence any copy outcome, and no seek) ends with a
cursor that is still a multiple of 4, still at most SPAN and not smaller than
at the start; the cursor has moved by 4 for each call that transferred a word.
A session just opened (cursor 0) therefore transfers at most SPAN / 4 words,
and once it has transferred SPAN / 4 words every further read or write, after
any further calls, returns 0. -/
theorem session_cursor_invariant (pp : pwm_rgb.pwm_rgb_dev) (sp : stop_button.stop_button_dev)
    (wp : ws2811.ws2811_dev)
    (k : kernel) (rp : file_result pwm_rgb.pwm_rgb_dev)
    (rs : file_result stop_button.stop_button_dev) (rw : file_result ws2811.ws2811_dev)
    (ops more : List file_op) (o : file_op) :
    (rp.offset % 4 = 0 → 0 ≤ rp.offset → rp.offset ≤ (pwm_rgb.SPAN : Int) →
      (session_ops pwm_rgb.pwm_rgb_read pwm_rgb.pwm_rgb_write ops rp).offset % 4 = 0 ∧
      (session_ops pwm_rgb.pwm_rgb_read pwm_rgb.pwm_rgb_write ops rp).offset ≤ (pwm_rgb.SPAN : Int) ∧
      rp.offset ≤ (session_ops pwm_rgb.pwm_rgb_read pwm_rgb.pwm_rgb_write ops rp).offset ∧
      (session_ops pwm_rgb.pwm_rgb_read pwm_rgb.pwm_rgb_write ops rp).offset =
        rp.offset + 4 * (session_transfers pwm_rgb.pwm_rgb_read pwm_rgb.pwm_rgb_write ops rp : Int)) ∧
    (session_transfers pwm_rgb.pwm_rgb_read pwm_rgb.pwm_rgb_write ops (session_open pp k)) ≤ pwm_rgb.SPAN / 4 ∧
    ((session_transfers pwm_rgb.pwm_rgb_read pwm_rgb.pwm_rgb_write ops (session_open pp k)) = pwm_rgb.SPAN / 4 →
      (session_step pwm_rgb.pwm_rgb_read pwm_rgb.pwm_rgb_write o
        (session_ops pwm_rgb.pwm_rgb_read pwm_rgb.pwm_rgb_write more (session_ops pwm_rgb.pwm_rgb_read pwm_rgb.pwm_rgb_write ops (session_open pp k)))).ret = 0) ∧
    (rs.offset % 4 = 0 → 0 ≤ rs.offset → rs.offset ≤ (stop_button.SPAN : Int) →
      (session_ops stop_button.stop_button_read stop_button.stop_button_write ops rs).offset % 4 = 0 ∧
      (session_ops stop_button.stop_button_read stop_button.stop_button_write ops rs).offset ≤ (stop_button.SPAN : Int) ∧
      rs.offset ≤ (session_ops stop_button.stop_button_read stop_button.stop_button_write ops rs).offset ∧
      (session_ops stop_button.stop_button_read stop_button.stop_button_write ops rs).offset =
        rs.offset + 4 * (session_transfers stop_button.stop_button_read stop_button.stop_button_write ops rs : Int)) ∧
    (session_transfers stop_button.stop_button_read stop_button.stop_button_write ops (session_open sp k)) ≤ stop_button.SPAN / 4 ∧
    ((session_transfers stop_button.stop_button_read stop_button.stop_button_write ops (session_open sp k)) = stop_button.SPAN / 4 →
      (session_step stop_button.stop_button_read stop_button.stop_button_write o
        (session_ops stop_button.stop_button_read stop_button.stop_button_write more (session_ops stop_button.stop_button_read stop_button.stop_button_write ops (session_open sp k)))).ret = 0) ∧
    (rw.offset % 4 = 0 → 0 ≤ rw.offset → rw.offset ≤ (ws2811.SPAN : Int) →
      (session_ops ws2811.ws2811_read ws2811.ws2811_write ops rw).offset % 4 = 0 ∧
      (session_ops ws2811.ws2811_read ws2811.ws2811_write ops rw).offset ≤ (ws2811.SPAN : Int) ∧
      rw.offset ≤ (session_ops ws2811.ws2811_read ws2811.ws2811_write ops rw).offset ∧
      (session_ops ws2811.ws2811_read ws2811.ws2811_write ops rw).offset =
        rw.offset + 4 * (session_transfers ws2811.ws2811_read ws2811.ws2811_write ops rw : Int)) ∧
    (session_transfers ws2811.ws2811_read ws2811.ws2811_write ops (session_open wp k)) ≤ ws2811.SPAN / 4 ∧
    ((session_transfers ws2811.ws2811_read ws2811.ws2811_write ops (session_open wp k)) = ws2811.SPAN / 4 →
      (session_step ws2811.ws2811_read ws2811.ws2811_write o
        (session_ops ws2811.ws2811_read ws2811.ws2811_write more (session_ops ws2811.ws2811_read ws2811.ws2811_write ops (session_open wp k)))).ret = 0) := by
  refine ⟨?_, ?_, ?_, ?_, ?_, ?_, ?_, ?_, ?_⟩
  · intro h4 h0 hS
    obtain ⟨f4, fS, fe⟩ := pwm_rgb_session_cursor ops rp h4 h0 hS
    exact ⟨f4, fS, by omega, fe⟩
  · obtain ⟨_, fS, fe⟩ := pwm_rgb_session_cursor ops (session_open pp k)
      (by decide : (0 : Int) % 4 = 0) (le_refl (0 : Int))
      (by decide : (0 : Int) ≤ (pwm_rgb.SPAN : Int))
    simp only [session_open, pwm_rgb.SPAN] at fS fe ⊢
    omega
  · intro ht
    obtain ⟨f4, fS, fe⟩ := pwm_rgb_session_cursor ops (session_open pp k)
      (by decide : (0 : Int) % 4 = 0) (le_refl (0 : Int))
      (by decide : (0 : Int) ≤ (pwm_rgb.SPAN : Int))
    have hend : (session_ops pwm_rgb.pwm_rgb_read pwm_rgb.pwm_rgb_write ops (session_open pp k)).offset = (pwm_rgb.SPAN : Int) := by
      rw [fe, ht]
      exact (by decide : (0 : Int) + 4 * ((pwm_rgb.SPAN / 4 : Nat) : Int) = (pwm_rgb.SPAN : Int))
    have h0 : (0 : Int) ≤ (session_ops pwm_rgb.pwm_rgb_read pwm_rgb.pwm_rgb_write ops (session_open pp k)).offset := by
      rw [hend]
      decide
    obtain ⟨m4, mS, me⟩ := pwm_rgb_session_cursor more (session_ops pwm_rgb.pwm_rgb_read pwm_rgb.pwm_rgb_write ops (session_open pp k)) f4 h0 fS
    have hm : (session_ops pwm_rgb.pwm_rgb_read pwm_rgb.pwm_rgb_write more (session_ops pwm_rgb.pwm_rgb_read pwm_rgb.pwm_rgb_write ops (session_open pp k))).offset = (pwm_rgb.SPAN : Int) := by
      rw [hend] at me
      omega
    have hm0 : (0 : Int) ≤ (session_ops pwm_rgb.pwm_rgb_read pwm_rgb.pwm_rgb_write more (session_ops pwm_rgb.pwm_rgb_read pwm_rgb.pwm_rgb_write ops (session_open pp k))).offset := by
      rw [hm]
      decide
    exact (pwm_rgb_step_cursor o _ m4 hm0 mS).2.2.2 hm
  · intro h4 h0 hS
    obtain ⟨f4, fS, fe⟩ := stop_button_session_cursor ops rs h4 h0 hS
    exact ⟨f4, fS, by omega, fe⟩
  · obtain ⟨_, fS, fe⟩ := stop_button_session_cursor ops (session_open sp k)
      (by decide : (0 : Int) % 4 = 0) (le_refl (0 : Int))
      (by decide : (0 : Int) ≤ (stop_button.SPAN : Int))
    simp only [session_open, stop_button.SPAN] at fS fe ⊢
    omega
  · intro ht
    obtain ⟨f4, fS, fe⟩ := stop_button_session_cursor ops (session_open sp k)
      (by decide : (0 : Int) % 4 = 0) (le_refl (0 : Int))
      (by decide : (0 : Int) ≤ (stop_button.SPAN : Int))
    have hend : (session_ops stop_button.stop_button_read stop_button.stop_button_write ops (session_open sp k)).offset = (stop_button.SPAN : Int) := by
      rw [fe, ht]
      exact (by decide : (0 : Int) + 4 * ((stop_button.SPAN / 4 : Nat) : Int) = (stop_button.SPAN : Int))
    have h0 : (0 : Int) ≤ (session_ops stop_button.stop_button_read stop_button.stop_button_write ops (session_open sp k)).offset := by
      rw [hend]
      decide
    obtain ⟨m4, mS, me⟩ := stop_button_session_cursor more (session_ops stop_button.stop_button_read stop_button.stop_button_write ops (session_open sp k)) f4 h0 fS
    have hm : (session_ops stop_button.stop_button_read stop_button.stop_button_write more (session_ops stop_button.stop_button_read stop_button.stop_button_write ops (session_open sp k))).offset = (stop_button.SPAN : Int) := by
      rw [hend] at me
      omega
    have hm0 : (0 : Int) ≤ (session_ops stop_button.stop_button_read stop_button.stop_button_write more (session_ops stop_button.stop_button_read stop_button.stop_button_write ops (session_open sp k))).offset := by
      rw [hm]
      decide
    exact (stop_button_step_cursor o _ m4 hm0 mS).2.2.2 hm
  · intro h4 h0 hS
    obtain ⟨f4, fS, fe⟩ := ws2811_session_cursor ops rw h4 h0 hS
    exact ⟨f4, fS, by omega, fe⟩
  · obtain ⟨_, fS, fe⟩ := ws2811_session_cursor ops (session_open wp k)
      (by decide : (0 : Int) % 4 = 0) (le_refl (0 : Int))
      (by decide : (0 : Int) ≤ (ws2811.SPAN : Int))
    simp only [session_open, ws2811.SPAN] at fS fe ⊢
    omega
  · intro ht
    obtain ⟨f4, fS, fe⟩ := ws2811_session_cursor ops (session_open wp k)
      (by decide : (0 : Int) % 4 = 0) (le_refl (0 : Int))
      (by decide : (0 : Int) ≤ (ws2811.SPAN : Int))
    have hend : (session_ops ws2811.ws2811_read ws2811.ws2811_write ops (session_open wp k)).offset = (ws2811.SPAN : Int) := by
      rw [fe, ht]
      exact (by decide : (0 : Int) + 4 * ((ws2811.SPAN / 4 : Nat) : Int) = (ws2811.SPAN : Int))
    have h0 : (0 : Int) ≤ (session_ops ws2811.ws2811_read ws2811.ws2811_write ops (session_open wp k)).offset := by
      rw [hend]
      decide
    obtain ⟨m4, mS, me⟩ := ws2811_session_cursor more (session_ops ws2811.ws2811_read ws2811.ws2811_write ops (session_open wp k)) f4 h0 fS
    have hm : (session_ops ws2811.ws2811_read ws2811.ws2811_write more (session_ops ws2811.ws2811_read ws2811.ws2811_write ops (session_open wp k))).offset = (ws2811.SPAN : Int) := by
      rw [hend] at me
      omega
    have hm0 : (0 : Int) ≤ (session_ops ws2811.ws2811_read ws2811.ws2811_write more (session_ops ws2811.ws2811_read ws2811.ws2811_write ops (session_open wp k))).offset := by
      rw [hm]
      decide
    exact (ws2811_step_cursor o _ m4 hm0 mS).2.2.2 hm

/-- C25, witness: the theorem applied to sessions just opened on the sample
devices that issue seven calls, among them reads into a buffer without room and
writes from an empty buffer. -/
theorem session_cursor_invariant_witness :
    (session_open sample_pwm sample_kernel).offset % 4 = 0 ∧
    0 ≤ (session_open sample_pwm sample_kernel).offset ∧
    (session_open sample_pwm sample_kernel).offset ≤ (pwm_rgb.SPAN : Int) ∧
    ((session_ops pwm_rgb.pwm_rgb_read pwm_rgb.pwm_rgb_write
        [file_op.read 4 4, file_op.write [1, 2] 4, file_op.read 0 4, file_op.write [] 4,
          file_op.read 4 4, file_op.read 1 1, file_op.write [9, 9, 9, 9] 4]
        (session_open sample_pwm sample_kernel)).offset % 4 = 0 ∧
      (session_ops pwm_rgb.pwm_rgb_read pwm_rgb.pwm_rgb_write
        [file_op.read 4 4, file_op.write [1, 2] 4, file_op.read 0 4, file_op.write [] 4,
          file_op.read 4 4, file_op.read 1 1, file_op.write [9, 9, 9, 9] 4]
        (session_open sample_pwm sample_kernel)).offset ≤ (pwm_rgb.SPAN : Int) ∧
      session_transfers pwm_rgb.pwm_rgb_read pwm_rgb.pwm_rgb_write
        [file_op.read 4 4, file_op.write [1, 2] 4, file_op.read 0 4, file_op.write [] 4,
          file_op.read 4 4, file_op.read 1 1, file_op.write [9, 9, 9, 9] 4]
        (session_open sample_pwm sample_kernel) ≤ pwm_rgb.SPAN / 4) ∧
    ((session_ops stop_button.stop_button_read stop_button.stop_button_write
        [file_op.read 4 4, file_op.write [1, 2] 4, file_op.read 0 4, file_op.write [] 4,
          file_op.read 4 4, file_op.read 1 1, file_op.write [9, 9, 9, 9] 4]
        (session_open sample_button sample_kernel)).offset % 4 = 0 ∧
      (session_ops stop_button.stop_button_read stop_button.stop_button_write
        [file_op.read 4 4, file_op.write [1, 2] 4, file_op.read 0 4, file_op.write [] 4,
          file_op.read 4 4, file_op.read 1 1, file_op.write [9, 9, 9, 9] 4]
        (session_open sample_button sample_kernel)).offset ≤ (stop_button.SPAN : Int) ∧
      session_transfers stop_button.stop_button_read stop_button.stop_button_write
        [file_op.read 4 4, file_op.write [1, 2] 4, file_op.read 0 4, file_op.write [] 4,
          file_op.read 4 4, file_op.read 1 1, file_op.write [9, 9, 9, 9] 4]
        (session_open sample_button sample_kernel) ≤ stop_button.SPAN / 4) ∧
    ((session_ops ws2811.ws2811_read ws2811.ws2811_write
        [file_op.read 4 4, file_op.write [1, 2] 4, file_op.read 0 4, file_op.write [] 4,
          file_op.read 4 4, file_op.read 1 1, file_op.write [9, 9, 9, 9] 4]
        (session_open sample_ws sample_kernel)).offset % 4 = 0 ∧
      (session_ops ws2811.ws2811_read ws2811.ws2811_write
        [file_op.read 4 4, file_op.write [1, 2] 4, file_op.read 0 4, file_op.write [] 4,
          file_op.read 4 4, file_op.read 1 1, file_op.write [9, 9, 9, 9] 4]
        (session_open sample_ws sample_kernel)).offset ≤ (ws2811.SPAN : Int) ∧
      session_transfers ws2811.ws2811_read ws2811.ws2811_write
        [file_op.read 4 4, file_op.write [1, 2] 4, file_op.read 0 4, file_op.write [] 4,
          file_op.read 4 4, file_op.read 1 1, file_op.write [9, 9, 9, 9] 4]
        (session_open sample_ws sample_kernel) ≤ ws2811.SPAN / 4) :=
  ⟨by decide, by decide, by decide,
    by
      have h := (session_cursor_invariant sample_pwm sample_button sample_ws sample_kernel
        (session_open sample_pwm sample_kernel) (session_open sample_button sample_kernel)
        (session_open sample_ws sample_kernel)
        [file_op.read 4 4, file_op.write [1, 2] 4, file_op.read 0 4, file_op.write [] 4,
          file_op.read 4 4, file_op.read 1 1, file_op.write [9, 9, 9, 9] 4]
        [] (file_op.read 4 4)).1
        (by decide) (by decide) (by decide)
      have ht := (session_cursor_invariant sample_pwm sample_button sample_ws sample_kernel
        (session_open sample_pwm sample_kernel) (session_open sample_button sample_kernel)
        (session_open sample_ws sample_kernel)
        [file_op.read 4 4, file_op.write [1, 2] 4, file_op.read 0 4, file_op.write [] 4,
          file_op.read 4 4, file_op.read 1 1, file_op.write [9, 9, 9, 9] 4]
        [] (file_op.read 4 4)).2.1
      exact ⟨h.1, h.2.1, ht⟩,
    by
      have h := (session_cursor_invariant sample_pwm sample_button sample_ws sample_kernel
        (session_open sample_pwm sample_kernel) (session_open sample_button sample_kernel)
        (session_open sample_ws sample_kernel)
        [file_op.read 4 4, file_op.write [1, 2] 4, file_op.read 0 4, file_op.write [] 4,
          file_op.read 4 4, file_op.read 1 1, file_op.write [9, 9, 9, 9] 4]
        [] (file_op.read 4 4)).2.2.2.1
        (by decide) (by decide) (by decide)
      have ht := (session_cursor_invariant sample_pwm sample_button sample_ws sample_kernel
        (session_open sample_pwm sample_kernel) (session_open sample_button sample_kernel)
        (session_open sample_ws sample_kernel)
        [file_op.read 4 4, file_op.write [1, 2] 4, file_op.read 0 4, file_op.write [] 4,
          file_op.read 4 4, file_op.read 1 1, file_op.write [9, 9, 9, 9] 4]
        [] (file_op.read 4 4)).2.2.2.2.1
      exact ⟨h.1, h.2.1, ht⟩,
    by
      have h := (session_cursor_invariant sample_pwm sample_button sample_ws sample_kernel
        (session_open sample_pwm sample_kernel) (session_open sample_button sample_kernel)
        (session_open sample_ws sample_kernel)
        [file_op.read 4 4, file_op.write [1, 2] 4, file_op.read 0 4, file_op.write [] 4,
          file_op.read 4 4, file_op.read 1 1, file_op.write [9, 9, 9, 9] 4]
        [] (file_op.read 4 4)).2.2.2.2.2.2.1
        (by decide) (by decide) (by decide)
      have ht := (session_cursor_invariant sample_pwm sample_button sample_ws sample_kernel
        (session_open sample_pwm sample_kernel) (session_open sample_button sample_kernel)
        (session_open sample_ws sample_kernel)
        [file_op.read 4 4, file_op.write [1, 2] 4, file_op.read 0 4, file_op.write [] 4,
          file_op.read 4 4, file_op.read 1 1, file_op.write [9, 9, 9, 9] 4]
        [] (file_op.read 4 4)).2.2.2.2.2.2.2.1
      exact ⟨h.1, h.2.1, ht⟩⟩

end FpgaDrivers
